import Mathlib

/-!
# STM32 DCMIPP statistics capture engine

Shallow embedding of `drivers/media/platform/st/stm32/stm32-dcmipp/dcmipp-statcap.c`
in `Statcap`; the pixel capture engine `dcmipp-pixelcap.c` follows in `Pixelcap`, the
dumb buffer creation of `drivers/gpu/drm/stm/drv.c` in `Drm` and the scale computation of
`drivers/iio/adc/stm32-mdf-adc.c` in `Mdf`.
The definitions of all four come first, then the theorems.

* machine integers are `Nat` with explicit truncation `u32`;
* the device structure is passed explicitly; a function that mutates `*vcap`
  returns the new device;
* hardware status registers (accumulators, bad pixel counter), the latched
  interrupt flags and the clock are inputs of each interrupt (`irq_event`);
* configuration registers written by the driver are the field `regs`;
* buffers handed to `vb2_buffer_done` are appended to the field `done`;
* a division by zero (undefined behaviour in C) makes the function return `none`.
-/

namespace Statcap

/-! ## Machine arithmetic and register map -/

/-- Truncation of a natural number to an unsigned 32-bit value. -/
def u32 (n : Nat) : Nat := n % 4294967296

/-- C logical negation on an integer: `!x`. -/
def lnot (x : Nat) : Nat := if x = 0 then 1 else 0

/-- Kernel macro `BIT(n)`. -/
def BIT (n : Nat) : Nat := 1 <<< n

/-- Kernel macro `GENMASK(h, l)` on 32-bit values: bits `l..h` set. -/
def GENMASK (h l : Nat) : Nat := (2 ^ (h + 1) - 1) - (2 ^ l - 1)

def DCMIPP_CMSR2_P1VSYNCF : Nat := BIT 18
def DCMIPP_CMSR2_P2VSYNCF : Nat := BIT 26

def DCMIPP_P1BPRSR : Nat := 0x828
def DCMIPP_P1BPRSR_BADCNT_MASK : Nat := GENMASK 11 0

def DCMIPP_P1STXCR (a : Nat) : Nat := 0x850 + a * 0x4
def DCMIPP_P1STXCR_ENABLE : Nat := BIT 0
def DCMIPP_P1STXCR_BINS_SHIFT : Nat := 2
def DCMIPP_P1STXCR_SRC_COMP_SHIFT : Nat := 4
def DCMIPP_P1STXCR_SRC_LOC_PRE : Nat := 0
def DCMIPP_P1STXCR_SRC_LOC_POST : Nat := 1
def DCMIPP_P1STXCR_SRC_LOC_SHIFT : Nat := 6
def DCMIPP_P1STXCR_MODE_AVERAGE : Nat := 0
def DCMIPP_P1STXCR_MODE_BINS : Nat := BIT 7

def DCMIPP_P1STSTR : Nat := 0x85c
def DCMIPP_P1STSTR_HSTART_SHIFT : Nat := 0
def DCMIPP_P1STSTR_HSTART_MASK : Nat := GENMASK 11 0
def DCMIPP_P1STSTR_VSTART_SHIFT : Nat := 16
def DCMIPP_P1STSTR_VSTART_MASK : Nat := GENMASK 27 16

def DCMIPP_P1STSZR : Nat := 0x860
def DCMIPP_P1STSZR_HSIZE_SHIFT : Nat := 0
def DCMIPP_P1STSZR_HSIZE_MASK : Nat := GENMASK 11 0
def DCMIPP_P1STSZR_VSIZE_SHIFT : Nat := 16
def DCMIPP_P1STSZR_VSIZE_MASK : Nat := GENMASK 27 16
def DCMIPP_P1STSZR_ENABLE : Nat := BIT 31

def DCMIPP_P1STXSR (a : Nat) : Nat := 0x864 + a * 0x4

def DCMIPP_NB_STAT_REGION : Nat := 1

def EINVAL : Int := 22
def EIO : Int := 5

/-! ## Data model -/

/-- The `enum stat_capture_state`: the state right after the VSYNC comes. -/
inductive stat_capture_state
  | COLD_START
  | PHY_AV_RGB_SHA_BIN_0
  | PHY_BIN_0_SHA_BIN_1
  | PHY_BIN_1_SHA_BIN_2
  | PHY_BIN_2_SHA_BIN_3
  | PHY_BIN_3_SHA_AV_RGB
  | PHY_AV_RGB
  | AV_READ
  deriving DecidableEq, Repr

namespace stat_capture_state

/-- Integer value of the enumerator. -/
def toNat : stat_capture_state → Nat
  | COLD_START => 0
  | PHY_AV_RGB_SHA_BIN_0 => 1
  | PHY_BIN_0_SHA_BIN_1 => 2
  | PHY_BIN_1_SHA_BIN_2 => 3
  | PHY_BIN_2_SHA_BIN_3 => 4
  | PHY_BIN_3_SHA_AV_RGB => 5
  | PHY_AV_RGB => 6
  | AV_READ => 7

/-- The C expression `capture_state++` on the enumeration, as used below
`PHY_BIN_3_SHA_AV_RGB` (the last enumerator is never incremented there). -/
def succ : stat_capture_state → stat_capture_state
  | COLD_START => PHY_AV_RGB_SHA_BIN_0
  | PHY_AV_RGB_SHA_BIN_0 => PHY_BIN_0_SHA_BIN_1
  | PHY_BIN_0_SHA_BIN_1 => PHY_BIN_1_SHA_BIN_2
  | PHY_BIN_1_SHA_BIN_2 => PHY_BIN_2_SHA_BIN_3
  | PHY_BIN_2_SHA_BIN_3 => PHY_BIN_3_SHA_AV_RGB
  | PHY_BIN_3_SHA_AV_RGB => PHY_AV_RGB
  | PHY_AV_RGB => AV_READ
  | AV_READ => AV_READ

end stat_capture_state

/-- The `enum component`. -/
def COMP_RED : Nat := 0
def COMP_GREEN : Nat := 1
def COMP_BLUE : Nat := 2

/-- The `enum v4l2_isp_stat_profile` of the uapi header: the three values the
profile control accepts (`min = 0`, `max = V4L2_STAT_PROFILE_AVERAGE_POST`). -/
inductive v4l2_isp_stat_profile
  | V4L2_STAT_PROFILE_FULL
  | V4L2_STAT_PROFILE_AVERAGE_PRE
  | V4L2_STAT_PROFILE_AVERAGE_POST
  deriving DecidableEq, Repr

/-- The `enum vb2_buffer_state` values the driver uses. -/
inductive vb2_buffer_state
  | VB2_BUF_STATE_ACTIVE
  | VB2_BUF_STATE_QUEUED
  | VB2_BUF_STATE_DONE
  | VB2_BUF_STATE_ERROR
  deriving DecidableEq, Repr

/-- The `struct stm32_dcmipp_stat_avr_bins` of the uapi header: three RGB
averages and twelve bins (four sets of three), all `__u32`. -/
structure stm32_dcmipp_stat_avr_bins where
  average_RGB : List Nat
  bins : List Nat
  deriving DecidableEq, Repr

/-- The `struct stm32_dcmipp_stat_buf` of the uapi header. -/
structure stm32_dcmipp_stat_buf where
  pre : stm32_dcmipp_stat_avr_bins
  post : stm32_dcmipp_stat_avr_bins
  bad_pixel_count : Nat
  deriving DecidableEq, Repr

/-- The value `memset(&buf, 0, sizeof(buf))` leaves in a statistics buffer. -/
def stat_buf_zero : stm32_dcmipp_stat_buf :=
  { pre := { average_RGB := List.replicate 3 0, bins := List.replicate 12 0 },
    post := { average_RGB := List.replicate 3 0, bins := List.replicate 12 0 },
    bad_pixel_count := 0 }

/-- The `sizeof(struct stm32_dcmipp_stat_buf)`: 2 * (3 + 12) + 1 words. -/
def sizeof_stat_buf : Nat := 124

/-- The `struct v4l2_rect`: `left`, `top` are `__s32`, `width`, `height` are `__u32`. -/
structure v4l2_rect where
  left : Int
  top : Int
  width : Nat
  height : Nat
  deriving DecidableEq, Repr

/-- The `struct dcmipp_buf` of the statistics queue: `id` stands for the address
of the buffer, `data` for the memory of plane 0, `bytesused` for its payload. -/
structure dcmipp_buf where
  id : Nat
  data : stm32_dcmipp_stat_buf
  bytesused : Nat
  sequence : Nat
  timestamp : Nat
  state : vb2_buffer_state
  deriving DecidableEq, Repr

/-- The `struct dcmipp_statcap_device`. `streaming` is `vb2_is_streaming(&vcap->queue)`,
`buffers` the list `vcap->buffers` from head to tail, `done` the buffers given
back through `vb2_buffer_done` in call order, `s_subdev` tells whether the cached
source pointer is set, `regs` the configuration registers by offset. -/
structure dcmipp_statcap_device where
  streaming : Bool
  buffers : List dcmipp_buf
  done : List dcmipp_buf
  s_subdev : Bool
  sequence : Nat
  frame_format : Nat
  stat_region : v4l2_rect
  avg_filter : Nat
  bin_comp : Nat
  stat_profile : v4l2_isp_stat_profile
  stat_location : Nat
  stat_ready : Bool
  capture_state : stat_capture_state
  prev_capture_state : stat_capture_state
  regs : Nat → Nat
  local_buf : stm32_dcmipp_stat_buf

/-- What one interrupt brings: the flags latched in `ved->cmsr2`, the status
registers as the hardware presents them, and the value of `ktime_get_ns()`. -/
structure irq_event where
  cmsr2 : Nat
  P1BPRSR : Nat
  P1STXSR0 : Nat
  P1STXSR1 : Nat
  P1STXSR2 : Nat
  ktime : Nat
  deriving DecidableEq, Repr

/-! ## Register access -/

/-- Read of a status register during an interrupt (`reg_read`), a `u32`. -/
def reg_read (e : irq_event) (reg : Nat) : Nat :=
  if reg = DCMIPP_P1BPRSR then u32 e.P1BPRSR
  else if reg = DCMIPP_P1STXSR 0 then u32 e.P1STXSR0
  else if reg = DCMIPP_P1STXSR 1 then u32 e.P1STXSR1
  else if reg = DCMIPP_P1STXSR 2 then u32 e.P1STXSR2
  else 0

/-- Write of a configuration register (`reg_write`). -/
def reg_write (vcap : dcmipp_statcap_device) (reg val : Nat) : dcmipp_statcap_device :=
  { vcap with regs := fun r => if r = reg then u32 val else vcap.regs r }

/-- Read-modify-write setting the bits of `mask` (`reg_set`). -/
def reg_set (vcap : dcmipp_statcap_device) (reg mask : Nat) : dcmipp_statcap_device :=
  reg_write vcap reg (vcap.regs reg ||| mask)

/-- Read-modify-write clearing the bits of `mask` (`reg_clear`). -/
def reg_clear (vcap : dcmipp_statcap_device) (reg mask : Nat) : dcmipp_statcap_device :=
  reg_write vcap reg (vcap.regs reg &&& (0xFFFFFFFF ^^^ u32 mask))

/-! ## Buffer queue -/

/-- The function `dcmipp_statcap_buf_queue`: `list_add_tail`. -/
def dcmipp_statcap_buf_queue (vcap : dcmipp_statcap_device) (buf : dcmipp_buf) :
    dcmipp_statcap_device :=
  { vcap with buffers := vcap.buffers ++ [buf] }

/-- The function `dcmipp_statcap_buffer_done`; `now` is `ktime_get_ns()`. -/
def dcmipp_statcap_buffer_done (vcap : dcmipp_statcap_device) (now : Nat) :
    dcmipp_statcap_device :=
  match vcap.buffers with
  | [] => vcap
  | cur_buf :: rest =>
    { vcap with
      buffers := rest
      sequence := u32 (vcap.sequence + 1)
      done := vcap.done ++
        [{ cur_buf with
            data := vcap.local_buf
            bytesused := sizeof_stat_buf
            sequence := vcap.sequence
            timestamp := now
            state := vb2_buffer_state.VB2_BUF_STATE_DONE }] }

/-! ## Harvesting -/

/-- The function `dcmipp_statcap_get_src`. -/
def dcmipp_statcap_get_src (location comp : Nat) : Nat :=
  u32 ((location <<< DCMIPP_P1STXCR_SRC_LOC_SHIFT) ||| (comp <<< DCMIPP_P1STXCR_SRC_COMP_SHIFT))

/-- Store through the pointer `avr_bins`, which designates `local_buf.pre`
(`pre = true`) or `local_buf.post`. -/
def avr_bins_update (buf : stm32_dcmipp_stat_buf) (pre : Bool)
    (f : stm32_dcmipp_stat_avr_bins → stm32_dcmipp_stat_avr_bins) : stm32_dcmipp_stat_buf :=
  if pre then { buf with pre := f buf.pre } else { buf with post := f buf.post }

section
variable (MEDIA_BUS_FMT_SBGGR8_1X8 MEDIA_BUS_FMT_SRGGB16_1X16 : Nat)

/-- Body of the loop of `dcmipp_statcap_read_avg_stats` for index `i`, up to the
division: the register value shifted left by 8 and, at the PRE location with a
raw Bayer format, multiplied by 4 (red, blue) or 2 (green). The two media bus
codes bounding the raw Bayer formats come from a header outside this source
set and are parameters. -/
def read_avg_scaled (vcap : dcmipp_statcap_device) (e : irq_event) (i : Nat) : Nat :=
  let v := reg_read e (DCMIPP_P1STXSR i)
  let v := u32 (v <<< 8)
  if vcap.stat_location = DCMIPP_P1STXCR_SRC_LOC_PRE ∧
      MEDIA_BUS_FMT_SBGGR8_1X8 ≤ vcap.frame_format ∧
      vcap.frame_format ≤ MEDIA_BUS_FMT_SRGGB16_1X16 then
    if i = COMP_RED ∨ i = COMP_BLUE then u32 (v * 4)
    else if i = COMP_GREEN then u32 (v * 2)
    else v
  else v

/-- The divisor `vcap->stat_region.width * vcap->stat_region.height`, a `u32`. -/
def stat_region_pixels (vcap : dcmipp_statcap_device) : Nat :=
  u32 (vcap.stat_region.width * vcap.stat_region.height)

/-- Body of the loop of `dcmipp_statcap_read_avg_stats` for index `i`: the value
stored in `avr_bins->average_RGB[i]`, or `none` when the divisor is zero. -/
def read_avg_value (vcap : dcmipp_statcap_device) (e : irq_event) (i : Nat) : Option Nat :=
  if stat_region_pixels vcap = 0 then none
  else some (read_avg_scaled MEDIA_BUS_FMT_SBGGR8_1X8 MEDIA_BUS_FMT_SRGGB16_1X16 vcap e i /
    stat_region_pixels vcap)

/-- The function `dcmipp_statcap_read_avg_stats`. -/
def dcmipp_statcap_read_avg_stats (vcap : dcmipp_statcap_device) (e : irq_event) :
    Option dcmipp_statcap_device :=
  let pre : Bool := vcap.stat_location = DCMIPP_P1STXCR_SRC_LOC_PRE
  [0, 1, 2].foldlM
    (fun (v : dcmipp_statcap_device) (i : Nat) =>
      (read_avg_value MEDIA_BUS_FMT_SBGGR8_1X8 MEDIA_BUS_FMT_SRGGB16_1X16 v e i).map
        (fun x => { v with local_buf := (avr_bins_update v.local_buf pre
                      (fun a => { a with average_RGB := a.average_RGB.set i x })) }))
    vcap

/-- The loops `for (i = 0; i < 3; i++) avr_bins->bins[i + k] = reg_read(vcap, DCMIPP_P1STXSR(i))`. -/
def read_bins (vcap : dcmipp_statcap_device) (e : irq_event) (pre : Bool) (k : Nat) :
    dcmipp_statcap_device :=
  [0, 1, 2].foldl
    (fun (v : dcmipp_statcap_device) (i : Nat) =>
      { v with local_buf := (avr_bins_update v.local_buf pre
          (fun a => { a with bins := a.bins.set (i + k) (reg_read e (DCMIPP_P1STXSR i)) })) })
    vcap

/-- The loops `for (i = 0; i < 3; i++) reg_write(vcap, DCMIPP_P1STXCR(i), val i)`. -/
def write_stxcr (vcap : dcmipp_statcap_device) (val : Nat → Nat) : dcmipp_statcap_device :=
  [0, 1, 2].foldl (fun (v : dcmipp_statcap_device) (i : Nat) =>
    reg_write v (DCMIPP_P1STXCR i) (val i)) vcap

/-- First part of the locked section of `dcmipp_statcap_irq_thread`: the bad
pixel count and the `switch (vcap->capture_state)`, up to the test of
`stat_ready`. -/
def irq_harvest (vcap0 : dcmipp_statcap_device) (e : irq_event) :
    Option dcmipp_statcap_device :=
  let avr_pre : Bool := vcap0.stat_location = DCMIPP_P1STXCR_SRC_LOC_PRE
  let vcap : dcmipp_statcap_device :=
    { vcap0 with local_buf :=
        { vcap0.local_buf with
          bad_pixel_count := reg_read e DCMIPP_P1BPRSR &&& DCMIPP_P1BPRSR_BADCNT_MASK } }
  match vcap.capture_state with
  | .COLD_START =>
    let vcap := { vcap with stat_ready := false }
    let vcap := { vcap with local_buf := stat_buf_zero }
    let vcap :=
      if vcap.stat_profile = .V4L2_STAT_PROFILE_AVERAGE_POST then
        { vcap with stat_location := DCMIPP_P1STXCR_SRC_LOC_POST }
      else
        { vcap with stat_location := DCMIPP_P1STXCR_SRC_LOC_PRE }
    some (write_stxcr vcap (fun i =>
      DCMIPP_P1STXCR_MODE_AVERAGE |||
      dcmipp_statcap_get_src vcap.stat_location i |||
      (vcap.avg_filter <<< DCMIPP_P1STXCR_BINS_SHIFT) |||
      DCMIPP_P1STXCR_ENABLE))
  | .PHY_AV_RGB_SHA_BIN_0 =>
    let vcap := write_stxcr vcap (fun _ =>
      DCMIPP_P1STXCR_MODE_BINS |||
      dcmipp_statcap_get_src vcap.stat_location vcap.bin_comp |||
      (0 <<< DCMIPP_P1STXCR_BINS_SHIFT) |||
      DCMIPP_P1STXCR_ENABLE)
    if vcap.prev_capture_state = .PHY_BIN_3_SHA_AV_RGB then
      let avr_pre : Bool := lnot vcap.stat_location = DCMIPP_P1STXCR_SRC_LOC_PRE
      let vcap := read_bins vcap e avr_pre 9
      if vcap.stat_location = DCMIPP_P1STXCR_SRC_LOC_PRE then
        some { vcap with stat_ready := true }
      else some vcap
    else some vcap
  | .PHY_BIN_0_SHA_BIN_1 =>
    let vcap := write_stxcr vcap (fun _ =>
      DCMIPP_P1STXCR_MODE_BINS |||
      dcmipp_statcap_get_src vcap.stat_location vcap.bin_comp |||
      (1 <<< DCMIPP_P1STXCR_BINS_SHIFT) |||
      DCMIPP_P1STXCR_ENABLE)
    dcmipp_statcap_read_avg_stats MEDIA_BUS_FMT_SBGGR8_1X8 MEDIA_BUS_FMT_SRGGB16_1X16 vcap e
  | .PHY_BIN_1_SHA_BIN_2 =>
    let vcap := write_stxcr vcap (fun _ =>
      DCMIPP_P1STXCR_MODE_BINS |||
      dcmipp_statcap_get_src vcap.stat_location vcap.bin_comp |||
      (2 <<< DCMIPP_P1STXCR_BINS_SHIFT) |||
      DCMIPP_P1STXCR_ENABLE)
    some (read_bins vcap e avr_pre 0)
  | .PHY_BIN_2_SHA_BIN_3 =>
    let vcap := write_stxcr vcap (fun _ =>
      DCMIPP_P1STXCR_MODE_BINS |||
      dcmipp_statcap_get_src vcap.stat_location vcap.bin_comp |||
      (3 <<< DCMIPP_P1STXCR_BINS_SHIFT) |||
      DCMIPP_P1STXCR_ENABLE)
    some (read_bins vcap e avr_pre 3)
  | .PHY_BIN_3_SHA_AV_RGB =>
    let vcap := write_stxcr vcap (fun i =>
      DCMIPP_P1STXCR_MODE_AVERAGE |||
      dcmipp_statcap_get_src (lnot vcap.stat_location) i |||
      (vcap.avg_filter <<< DCMIPP_P1STXCR_BINS_SHIFT) |||
      DCMIPP_P1STXCR_ENABLE)
    some (read_bins vcap e avr_pre 6)
  | .AV_READ =>
    dcmipp_statcap_read_avg_stats MEDIA_BUS_FMT_SBGGR8_1X8 MEDIA_BUS_FMT_SRGGB16_1X16 vcap e
  | .PHY_AV_RGB => some vcap

/-- Last part of the locked section of `dcmipp_statcap_irq_thread`: the
`switch (vcap->stat_profile)` that updates `capture_state` and
`prev_capture_state`. -/
def irq_update_state (vcap : dcmipp_statcap_device) : dcmipp_statcap_device :=
  match vcap.stat_profile with
  | .V4L2_STAT_PROFILE_FULL =>
    let vcap := { vcap with prev_capture_state := vcap.capture_state }
    if vcap.capture_state.toNat < stat_capture_state.PHY_BIN_3_SHA_AV_RGB.toNat then
      { vcap with capture_state := vcap.capture_state.succ }
    else
      { vcap with
        stat_location := lnot vcap.stat_location
        capture_state := .PHY_AV_RGB_SHA_BIN_0 }
  | .V4L2_STAT_PROFILE_AVERAGE_PRE
  | .V4L2_STAT_PROFILE_AVERAGE_POST =>
    if vcap.capture_state = .COLD_START then
      { vcap with capture_state := .PHY_AV_RGB }
    else if vcap.capture_state = .PHY_AV_RGB then
      { vcap with capture_state := .AV_READ, stat_ready := true }
    else vcap

/-- The function `dcmipp_statcap_irq_thread` (it always returns `IRQ_HANDLED`;
the result is the device after the call, `none` on a division by zero). -/
def dcmipp_statcap_irq_thread (vcap : dcmipp_statcap_device) (e : irq_event) :
    Option dcmipp_statcap_device :=
  if !vcap.streaming then some vcap
  else if e.cmsr2 &&& DCMIPP_CMSR2_P1VSYNCF = 0 ∧ e.cmsr2 &&& DCMIPP_CMSR2_P2VSYNCF = 0 then
    some vcap
  else
    (irq_harvest MEDIA_BUS_FMT_SBGGR8_1X8 MEDIA_BUS_FMT_SRGGB16_1X16 vcap e).map
      (fun v =>
        let v := if v.stat_ready then dcmipp_statcap_buffer_done v e.ktime else v
        irq_update_state v)

/-- Successive calls of `dcmipp_statcap_irq_thread`, one per event. -/
def irq_run (vcap : dcmipp_statcap_device) : List irq_event → Option dcmipp_statcap_device
  | [] => some vcap
  | e :: es =>
    (dcmipp_statcap_irq_thread MEDIA_BUS_FMT_SBGGR8_1X8 MEDIA_BUS_FMT_SRGGB16_1X16 vcap e).bind
      (fun v => irq_run v es)

end

/-! ## Controls -/

/-- Conversion of a `u32` to `__s32` (assignment to `v4l2_rect.left/top`). -/
def toS32 (n : Nat) : Int := if u32 n < 2147483648 then (u32 n : Int) else (u32 n : Int) - 4294967296

/-- The payload of the statistics region control (`struct v4l2_ctrl_isp_stat_region`
of the uapi header): the number of regions and entry 0 of each `__u32` array,
the only entry the driver reads. -/
structure v4l2_ctrl_isp_stat_region where
  nb_regions : Nat
  top : Nat
  left : Nat
  width : Nat
  height : Nat
  deriving DecidableEq, Repr

/-- A control write reaching `dcmipp_statcap_s_ctrl`: `ctrl->id` with the new
value (`ctrl->p_new.p` or `ctrl->val`). Only the four controls of
`dcmipp_statcap_ctrls` use these ops. -/
inductive v4l2_ctrl
  | V4L2_CID_ISP_STAT_REGION (region : v4l2_ctrl_isp_stat_region)
  | V4L2_CID_ISP_STAT_AVG_FILTER (val : Nat)
  | V4L2_CID_ISP_STAT_BIN_COMP (val : Nat)
  | V4L2_CID_ISP_STAT_PROFILE (val : v4l2_isp_stat_profile)
  deriving DecidableEq, Repr

/-- What the kernel answers during one call of `dcmipp_statcap_s_ctrl`: the
result of `pm_runtime_get_if_in_use`, whether the remote pad of pad 0 belongs to
a sub-device, and the result and rectangle of `get_selection`. -/
structure ctrl_env where
  pm_runtime_get_if_in_use : Int
  remote_subdev : Bool
  get_selection : Int
  sel_r : v4l2_rect
  deriving DecidableEq, Repr

/-- The function `dcmipp_statcap_s_ctrl`: the value returned and the device after
the call. -/
def dcmipp_statcap_s_ctrl (vcap : dcmipp_statcap_device) (ctrl : v4l2_ctrl) (k : ctrl_env) :
    Int × dcmipp_statcap_device :=
  if k.pm_runtime_get_if_in_use = 0 then (0, vcap)
  else
    match ctrl with
    | .V4L2_CID_ISP_STAT_REGION region =>
      if !vcap.s_subdev && !k.remote_subdev then (- EIO, vcap)
      else
        let vcap := { vcap with s_subdev := true }
        if region.nb_regions > DCMIPP_NB_STAT_REGION then (-EINVAL, vcap)
        else if k.get_selection < 0 then (k.get_selection, vcap)
        else if region.nb_regions = 0 ∨
            (region.width = 0 ∧ region.height = 0 ∧ region.left = 0 ∧ region.top = 0) then
          let vcap := { vcap with stat_region :=
            { vcap.stat_region with width := u32 k.sel_r.width, height := u32 k.sel_r.height } }
          let vcap := reg_clear vcap DCMIPP_P1STSZR DCMIPP_P1STSZR_ENABLE
          (k.get_selection, vcap)
        else if region.width = 0 ∨ region.height = 0 ∨
            u32 (region.left + region.width) > u32 k.sel_r.width ∨
            u32 (region.top + region.height) > u32 k.sel_r.height then
          (-EINVAL, vcap)
        else
          let vcap := { vcap with stat_region :=
            { width := u32 region.width, height := u32 region.height,
              left := toS32 region.left, top := toS32 region.top } }
          let vcap := reg_clear vcap DCMIPP_P1STSTR
            (DCMIPP_P1STSTR_HSTART_MASK ||| DCMIPP_P1STSTR_VSTART_MASK)
          let vcap := reg_set vcap DCMIPP_P1STSTR
            (u32 (region.left <<< DCMIPP_P1STSTR_HSTART_SHIFT) |||
             u32 (region.top <<< DCMIPP_P1STSTR_VSTART_SHIFT))
          let vcap := reg_clear vcap DCMIPP_P1STSZR
            (DCMIPP_P1STSZR_HSIZE_MASK ||| DCMIPP_P1STSZR_VSIZE_MASK)
          let vcap := reg_set vcap DCMIPP_P1STSZR
            (u32 (region.width <<< DCMIPP_P1STSZR_HSIZE_SHIFT) |||
             u32 (region.height <<< DCMIPP_P1STSZR_VSIZE_SHIFT) |||
             DCMIPP_P1STSZR_ENABLE)
          (k.get_selection, { vcap with capture_state := .COLD_START })
    | .V4L2_CID_ISP_STAT_AVG_FILTER val =>
      (0, { vcap with avg_filter := val, capture_state := .COLD_START })
    | .V4L2_CID_ISP_STAT_BIN_COMP val =>
      (0, { vcap with bin_comp := val, capture_state := .COLD_START })
    | .V4L2_CID_ISP_STAT_PROFILE val =>
      (0, { vcap with stat_profile := val, capture_state := .COLD_START })

/-! ## Stream start and stop -/

/-- What the kernel answers during one call of `dcmipp_statcap_start_streaming`
or `dcmipp_statcap_stop_streaming`: the results of `pm_runtime_resume_and_get`,
`media_pipeline_start`, the remote pad lookup, `dcmipp_s_stream_helper`, `get_fmt`
with the format code it reports, and the control writes `v4l2_ctrl_handler_setup`
replays, each with its own answers. -/
structure stream_env where
  pm_runtime_resume_and_get : Int
  media_pipeline_start : Int
  remote_subdev : Bool
  s_stream_helper : Int
  get_fmt : Int
  fmt_code : Nat
  ctrl_setup : List (v4l2_ctrl × ctrl_env)

/-- The function `dcmipp_pipeline_s_stream`. -/
def dcmipp_pipeline_s_stream (vcap : dcmipp_statcap_device) (k : stream_env) :
    Int × dcmipp_statcap_device :=
  if !vcap.s_subdev && !k.remote_subdev then (-EINVAL, vcap)
  else
    let vcap := { vcap with s_subdev := true }
    if k.s_stream_helper < 0 then (k.s_stream_helper, vcap) else (0, vcap)

/-- The kernel helper `v4l2_ctrl_handler_setup` seen from the driver: the pending
control writes go through `dcmipp_statcap_s_ctrl` in order, up to the first one
that fails. -/
def v4l2_ctrl_handler_setup (vcap : dcmipp_statcap_device) :
    List (v4l2_ctrl × ctrl_env) → Int × dcmipp_statcap_device
  | [] => (0, vcap)
  | (c, k) :: rest =>
    let r := dcmipp_statcap_s_ctrl vcap c k
    if r.1 ≠ 0 then r else v4l2_ctrl_handler_setup r.2 rest

/-- The loops `list_for_each_entry_safe` that give every queued buffer back to
vb2 in state `st`. -/
def return_all_buffers (vcap : dcmipp_statcap_device) (st : vb2_buffer_state) :
    dcmipp_statcap_device :=
  { vcap with
    buffers := []
    done := vcap.done ++ vcap.buffers.map (fun b => { b with state := st }) }

/-- The function `dcmipp_statcap_start_streaming`: the value returned and the
device after the call. -/
def dcmipp_statcap_start_streaming (vcap : dcmipp_statcap_device) (k : stream_env) :
    Int × dcmipp_statcap_device :=
  let vcap := { vcap with sequence := 0 }
  if k.pm_runtime_resume_and_get < 0 then
    (k.pm_runtime_resume_and_get, return_all_buffers vcap .VB2_BUF_STATE_QUEUED)
  else if k.media_pipeline_start ≠ 0 then
    (k.media_pipeline_start, return_all_buffers vcap .VB2_BUF_STATE_QUEUED)
  else
    let r := dcmipp_pipeline_s_stream vcap k
    let vcap := r.2
    if r.1 ≠ 0 then (r.1, return_all_buffers vcap .VB2_BUF_STATE_QUEUED)
    else if !vcap.s_subdev && !k.remote_subdev then
      (- EIO, return_all_buffers vcap .VB2_BUF_STATE_QUEUED)
    else
      let vcap := { vcap with s_subdev := true }
      if k.get_fmt < 0 then (k.get_fmt, return_all_buffers vcap .VB2_BUF_STATE_QUEUED)
      else
        let vcap := { vcap with frame_format := u32 k.fmt_code }
        let r := v4l2_ctrl_handler_setup vcap k.ctrl_setup
        if r.1 < 0 then (r.1, return_all_buffers r.2 .VB2_BUF_STATE_QUEUED)
        else (0, r.2)

/-- The function `dcmipp_statcap_stop_streaming`. -/
def dcmipp_statcap_stop_streaming (vcap : dcmipp_statcap_device) (k : stream_env) :
    dcmipp_statcap_device :=
  let vcap := { vcap with capture_state := .COLD_START }
  let vcap := (dcmipp_pipeline_s_stream vcap k).2
  return_all_buffers vcap .VB2_BUF_STATE_ERROR

/-! ## Observations used in the statements -/

/-- The interrupt is a VSYNC of pipe 1 or pipe 2: the test of
`dcmipp_statcap_irq_thread` on `ved->cmsr2` lets it through. -/
def is_vsync (e : irq_event) : Prop :=
  ¬ (e.cmsr2 &&& DCMIPP_CMSR2_P1VSYNCF = 0 ∧ e.cmsr2 &&& DCMIPP_CMSR2_P2VSYNCF = 0)

instance (e : irq_event) : Decidable (is_vsync e) :=
  inferInstanceAs (Decidable (¬ (e.cmsr2 &&& DCMIPP_CMSR2_P1VSYNCF = 0 ∧
    e.cmsr2 &&& DCMIPP_CMSR2_P2VSYNCF = 0)))

/-- The device at the test `if (vcap->stat_ready)` of the interrupt `e` that
follows the interrupts `es`: what `dcmipp_statcap_buffer_done` would copy out. -/
def irq_at_test (MEDIA_BUS_FMT_SBGGR8_1X8 MEDIA_BUS_FMT_SRGGB16_1X16 : Nat)
    (vcap : dcmipp_statcap_device) (es : List irq_event) (e : irq_event) :
    Option dcmipp_statcap_device :=
  (irq_run MEDIA_BUS_FMT_SBGGR8_1X8 MEDIA_BUS_FMT_SRGGB16_1X16 vcap es).bind (fun v =>
    irq_harvest MEDIA_BUS_FMT_SBGGR8_1X8 MEDIA_BUS_FMT_SRGGB16_1X16 v e)

/-- The five states of the full capture profile, in the order of the cycle. -/
def full_profile_states : List stat_capture_state :=
  [.PHY_AV_RGB_SHA_BIN_0, .PHY_BIN_0_SHA_BIN_1, .PHY_BIN_1_SHA_BIN_2,
   .PHY_BIN_2_SHA_BIN_3, .PHY_BIN_3_SHA_AV_RGB]

/-- A call on the buffer queue: `dcmipp_statcap_buf_queue` of a buffer, or
`dcmipp_statcap_buffer_done` at a given time. -/
inductive queue_call
  | buf_queue (buf : dcmipp_buf)
  | buffer_done (now : Nat)
  deriving DecidableEq, Repr

/-- Successive calls on the buffer queue. -/
def queue_run (vcap : dcmipp_statcap_device) : List queue_call → dcmipp_statcap_device
  | [] => vcap
  | .buf_queue b :: cs => queue_run (dcmipp_statcap_buf_queue vcap b) cs
  | .buffer_done now :: cs => queue_run (dcmipp_statcap_buffer_done vcap now) cs

/-- The buffers a list of calls inserts, in call order. -/
def queued_by : List queue_call → List dcmipp_buf
  | [] => []
  | .buf_queue b :: cs => b :: queued_by cs
  | .buffer_done _ :: cs => queued_by cs

/-- One buffer queued and completed, `n` times over. -/
def queue_done_rounds (vcap : dcmipp_statcap_device) (buf : dcmipp_buf) (now : Nat) :
    Nat → dcmipp_statcap_device
  | 0 => vcap
  | n + 1 =>
    dcmipp_statcap_buffer_done
      (dcmipp_statcap_buf_queue (queue_done_rounds vcap buf now n) buf) now

/-! ## Concrete devices and events -/

/-- A buffer as user space queues it. -/
def sample_buf (n : Nat) : dcmipp_buf :=
  { id := n, data := stat_buf_zero, bytesused := 0, sequence := 0, timestamp := 0,
    state := .VB2_BUF_STATE_ACTIVE }

/-- A streaming device in `COLD_START` under the full profile, raw Bayer source
(code 0x3001), 100x100 region, three buffers queued. -/
def sample_device : dcmipp_statcap_device :=
  { streaming := true, buffers := [sample_buf 1, sample_buf 2, sample_buf 3], done := [],
    s_subdev := true, sequence := 0, frame_format := 0x3001,
    stat_region := { left := 0, top := 0, width := 100, height := 100 },
    avg_filter := 0, bin_comp := 3,
    stat_profile := .V4L2_STAT_PROFILE_FULL, stat_location := 0, stat_ready := false,
    capture_state := .COLD_START, prev_capture_state := .COLD_START,
    regs := fun _ => 0, local_buf := stat_buf_zero }

/-- The sample device under the average PRE profile, in `AV_READ` with
`stat_ready` set, as two VSYNCs leave it. -/
def sample_av_read_device : dcmipp_statcap_device :=
  { sample_device with
    stat_profile := .V4L2_STAT_PROFILE_AVERAGE_PRE
    capture_state := .AV_READ
    stat_ready := true }

/-- The sample device with an empty queue, sequence counter 0 and nothing
completed, as `dcmipp_statcap_start_streaming` leaves the counter. -/
def sample_idle_device : dcmipp_statcap_device :=
  { sample_device with buffers := [] }

/-- The sample device at the POST location. -/
def sample_post_device : dcmipp_statcap_device :=
  { sample_device with stat_location := DCMIPP_P1STXCR_SRC_LOC_POST }

/-- The `n`-th VSYNC of pipe 1, with register values that tell the VSYNCs apart. -/
def sample_event (n : Nat) : irq_event :=
  { cmsr2 := DCMIPP_CMSR2_P1VSYNCF, P1BPRSR := n, P1STXSR0 := 1000 * n + 1,
    P1STXSR1 := 1000 * n + 2, P1STXSR2 := 1000 * n + 3, ktime := 40 * n }

/-- The VSYNCs number `1` to `n`. -/
def sample_events (n : Nat) : List irq_event :=
  (List.range n).map (fun i => sample_event (i + 1))

/-- Two buffers queued, three completion attempts (the third on an empty queue),
a third buffer queued and completed. -/
def sample_queue_calls : List queue_call :=
  [.buf_queue (sample_buf 1), .buf_queue (sample_buf 2), .buffer_done 40, .buffer_done 80,
   .buffer_done 120, .buf_queue (sample_buf 3), .buffer_done 160]

/-- The kernel answers of a control write on a device in use, with a 640x480 frame. -/
def sample_ctrl_env : ctrl_env :=
  { pm_runtime_get_if_in_use := 1, remote_subdev := true, get_selection := 0,
    sel_r := { left := 0, top := 0, width := 640, height := 480 } }

/-- A region control that selects the whole frame (`nb_regions = 0`). -/
def whole_frame_region : v4l2_ctrl :=
  .V4L2_CID_ISP_STAT_REGION { nb_regions := 0, top := 0, left := 0, width := 0, height := 0 }

/-- A one-region control whose `left + width` does not fit 32 bits:
`left = 4294967000`, `width = 400`, on the first line of the frame. -/
def wrapping_region : v4l2_ctrl :=
  .V4L2_CID_ISP_STAT_REGION
    { nb_regions := 1, top := 0, left := 4294967000, width := 400, height := 1 }

/-! ## The engine under the events of the framework -/

/-- The device as `dcmipp_statcap_ent_init` leaves it: `kzalloc` zeroes every
field (`capture_state = COLD_START`, `stat_profile = V4L2_STAT_PROFILE_FULL`), the
buffer list is empty; `regs` is what the hardware registers hold. -/
def dcmipp_statcap_ent_init (regs : Nat → Nat) : dcmipp_statcap_device :=
  { streaming := false, buffers := [], done := [], s_subdev := false, sequence := 0,
    frame_format := 0, stat_region := { left := 0, top := 0, width := 0, height := 0 },
    avg_filter := 0, bin_comp := 0, stat_profile := .V4L2_STAT_PROFILE_FULL,
    stat_location := 0, stat_ready := false, capture_state := .COLD_START,
    prev_capture_state := .COLD_START, regs := regs, local_buf := stat_buf_zero }

/-- What can happen to the statistics engine: a control write, a stream start, a
stream stop, vb2 setting or clearing the streaming flag of the queue, and an
interrupt. -/
inductive engine_event
  | s_ctrl (ctrl : v4l2_ctrl) (k : ctrl_env)
  | start_streaming (k : stream_env)
  | stop_streaming (k : stream_env)
  | vb2_streaming (flag : Bool)
  | irq (e : irq_event)

/-- One event applied to the engine; `none` when the interrupt thread divides by
zero. -/
def engine_step (lo hi : Nat) (vcap : dcmipp_statcap_device) :
    engine_event → Option dcmipp_statcap_device
  | .s_ctrl ctrl k => some (dcmipp_statcap_s_ctrl vcap ctrl k).2
  | .start_streaming k => some (dcmipp_statcap_start_streaming vcap k).2
  | .stop_streaming k => some (dcmipp_statcap_stop_streaming vcap k)
  | .vb2_streaming flag => some { vcap with streaming := flag }
  | .irq e => dcmipp_statcap_irq_thread lo hi vcap e

/-- Successive events applied to the engine. -/
def engine_run (lo hi : Nat) (vcap : dcmipp_statcap_device) :
    List engine_event → Option dcmipp_statcap_device
  | [] => some vcap
  | ev :: evs => (engine_step lo hi vcap ev).bind (fun v => engine_run lo hi v evs)

/-- The sample device after six VSYNCs of the full profile: back in
`PHY_AV_RGB_SHA_BIN_0`, coming from `PHY_BIN_3_SHA_AV_RGB`, at the POST location. -/
def sample_second_cycle_device : dcmipp_statcap_device :=
  (irq_run 0x3001 0x3020 sample_device (sample_events 6)).getD sample_device

/-- A session on the initial device: profile set to AVERAGE PRE while in use, the
queue marked streaming, two VSYNCs, a stream stop, profile back to FULL. -/
def sample_session : List engine_event :=
  [.s_ctrl (.V4L2_CID_ISP_STAT_PROFILE .V4L2_STAT_PROFILE_AVERAGE_PRE) sample_ctrl_env,
   .vb2_streaming true, .irq (sample_event 1), .irq (sample_event 2),
   .stop_streaming { pm_runtime_resume_and_get := 0, media_pipeline_start := 0,
                     remote_subdev := true, s_stream_helper := 0, get_fmt := 0,
                     fmt_code := 0x3001, ctrl_setup := [] },
   .s_ctrl (.V4L2_CID_ISP_STAT_PROFILE .V4L2_STAT_PROFILE_FULL) sample_ctrl_env]

/-- The capture state fits the profile: under the full profile it is `COLD_START`
or one of the five `PHY_*_SHA_*` states, under an average profile it is
`COLD_START`, `PHY_AV_RGB` or `AV_READ`. -/
def profile_consistent (d : dcmipp_statcap_device) : Prop :=
  (d.stat_profile = .V4L2_STAT_PROFILE_FULL →
    d.capture_state = .COLD_START ∨ d.capture_state ∈ full_profile_states) ∧
  (d.stat_profile ≠ .V4L2_STAT_PROFILE_FULL →
    d.capture_state = .COLD_START ∨ d.capture_state = .PHY_AV_RGB ∨
      d.capture_state = .AV_READ)

end Statcap

/-!
# STM32 DCMIPP pixel capture engine

Shallow embedding of `drivers/media/platform/st/stm32/stm32-dcmipp/dcmipp-pixelcap.c`,
with the conventions of the statistics capture engine above. The pointers `active`
and `next` are modelled by the buffer they point to, compared by `id`; a step that
dereferences a null pointer, or takes the list head for a buffer, returns `none`.
-/

namespace Pixelcap

open Statcap (u32 BIT GENMASK EINVAL vb2_buffer_state)

/-! ## Register map -/

def DCMIPP_PRSR : Nat := 0x1f8
def DCMIPP_CMIER : Nat := 0x3f0
def DCMIPP_CMIER_P1FRAMEIE : Nat := BIT 17
def DCMIPP_CMIER_P1VSYNCIE : Nat := BIT 18
def DCMIPP_CMIER_P1OVRIE : Nat := BIT 23
def DCMIPP_CMIER_P2FRAMEIE : Nat := BIT 25
def DCMIPP_CMIER_P2VSYNCIE : Nat := BIT 26
def DCMIPP_CMIER_P2OVRIE : Nat := BIT 31

def DCMIPP_CMIER_PxALL (id : Nat) : Nat :=
  if id = 1 then DCMIPP_CMIER_P1VSYNCIE ||| DCMIPP_CMIER_P1FRAMEIE ||| DCMIPP_CMIER_P1OVRIE
  else DCMIPP_CMIER_P2VSYNCIE ||| DCMIPP_CMIER_P2FRAMEIE ||| DCMIPP_CMIER_P2OVRIE

def DCMIPP_CMSR2_P1FRAMEF : Nat := BIT 17
def DCMIPP_CMSR2_P1VSYNCF : Nat := BIT 18
def DCMIPP_CMSR2_P1OVRF : Nat := BIT 23
def DCMIPP_CMSR2_P2FRAMEF : Nat := BIT 25
def DCMIPP_CMSR2_P2VSYNCF : Nat := BIT 26
def DCMIPP_CMSR2_P2OVRF : Nat := BIT 31

def DCMIPP_CMSR2_PxFRAMEF (id : Nat) : Nat :=
  if id = 1 then DCMIPP_CMSR2_P1FRAMEF else DCMIPP_CMSR2_P2FRAMEF

def DCMIPP_CMSR2_PxVSYNCF (id : Nat) : Nat :=
  if id = 1 then DCMIPP_CMSR2_P1VSYNCF else DCMIPP_CMSR2_P2VSYNCF

def DCMIPP_CMSR2_PxOVRF (id : Nat) : Nat :=
  if id = 1 then DCMIPP_CMSR2_P1OVRF else DCMIPP_CMSR2_P2OVRF

def DCMIPP_CMFCR : Nat := 0x3fc
def DCMIPP_P1FSCR : Nat := 0x804
def DCMIPP_P2FSCR : Nat := 0xc04
def DCMIPP_PxFSCR (id : Nat) : Nat := if id = 1 then DCMIPP_P1FSCR else DCMIPP_P2FSCR
def DCMIPP_PxFSCR_PIPEN : Nat := BIT 31
def DCMIPP_P1FCTCR : Nat := 0x900
def DCMIPP_P2FCTCR : Nat := 0xd00
def DCMIPP_PxFCTCR (id : Nat) : Nat := if id = 1 then DCMIPP_P1FCTCR else DCMIPP_P2FCTCR
def DCMIPP_PxFCTCR_CPTMODE : Nat := BIT 2
def DCMIPP_PxFCTCR_CPTREQ : Nat := BIT 3

def DCMIPP_P1PPCR : Nat := 0x9c0
def DCMIPP_P2PPCR : Nat := 0xdc0
def DCMIPP_PxPPCR (id : Nat) : Nat := if id = 1 then DCMIPP_P1PPCR else DCMIPP_P2PPCR
def DCMIPP_PxPPCR_FORMAT_RGB888 : Nat := 0x0
def DCMIPP_PxPPCR_FORMAT_RGB565 : Nat := 0x1
def DCMIPP_PxPPCR_FORMAT_ARGB8888 : Nat := 0x2
def DCMIPP_PxPPCR_FORMAT_RGBA8888 : Nat := 0x3
def DCMIPP_PxPPCR_FORMAT_Y8 : Nat := 0x4
def DCMIPP_PxPPCR_FORMAT_YUV444 : Nat := 0x5
def DCMIPP_PxPPCR_FORMAT_YUYV : Nat := 0x6
def DCMIPP_P1PPCR_FORMAT_NV61 : Nat := 0x7
def DCMIPP_P1PPCR_FORMAT_NV21 : Nat := 0x8
def DCMIPP_P1PPCR_FORMAT_YV12 : Nat := 0x9
def DCMIPP_PxPPCR_FORMAT_UYVY : Nat := 0xa
def DCMIPP_PxPPCR_SWAPRB : Nat := BIT 4

def DCMIPP_P1PPM0AR1 : Nat := 0x9c4
def DCMIPP_P2PPM0AR1 : Nat := 0xdc4
def DCMIPP_PxPPM0AR1 (id : Nat) : Nat := if id = 1 then DCMIPP_P1PPM0AR1 else DCMIPP_P2PPM0AR1
def DCMIPP_P1PPM0PR : Nat := 0x9cc
def DCMIPP_P2PPM0PR : Nat := 0xdcc
def DCMIPP_PxPPM0PR (id : Nat) : Nat := if id = 1 then DCMIPP_P1PPM0PR else DCMIPP_P2PPM0PR
def DCMIPP_P1PPM1AR1 : Nat := 0x9d4
def DCMIPP_P1PPM1PR : Nat := 0x9dc
def DCMIPP_P1PPM2AR1 : Nat := 0x9e4

def DCMIPP_P1SR : Nat := 0x9f8
def DCMIPP_P2SR : Nat := 0xdf8
def DCMIPP_PxSR (id : Nat) : Nat := if id = 1 then DCMIPP_P1SR else DCMIPP_P2SR
def DCMIPP_PxSR_CPTACT : Nat := BIT 23

/-! ## Data model -/

/-- The pixel formats named in this file (`V4L2_PIX_FMT_*`), and any other code. -/
inductive v4l2_pix_fmt
  | V4L2_PIX_FMT_RGB565
  | V4L2_PIX_FMT_YUYV
  | V4L2_PIX_FMT_YVYU
  | V4L2_PIX_FMT_UYVY
  | V4L2_PIX_FMT_VYUY
  | V4L2_PIX_FMT_GREY
  | V4L2_PIX_FMT_RGB24
  | V4L2_PIX_FMT_BGR24
  | V4L2_PIX_FMT_ARGB32
  | V4L2_PIX_FMT_ABGR32
  | V4L2_PIX_FMT_RGBA32
  | V4L2_PIX_FMT_BGRA32
  | V4L2_PIX_FMT_NV12
  | V4L2_PIX_FMT_NV21
  | V4L2_PIX_FMT_NV16
  | V4L2_PIX_FMT_NV61
  | V4L2_PIX_FMT_YUV420
  | V4L2_PIX_FMT_YVU420
  | other (fourcc : Nat)
  deriving DecidableEq, Repr

/-- The media bus codes named in this file (`MEDIA_BUS_FMT_*`), and any other code. -/
inductive media_bus_fmt
  | MEDIA_BUS_FMT_RGB888_1X24
  | MEDIA_BUS_FMT_YUV8_1X24
  | other (code : Nat)
  deriving DecidableEq, Repr

/-- The `struct dcmipp_pixelcap_pix_map`. -/
structure dcmipp_pixelcap_pix_map where
  code : media_bus_fmt
  pixelformat : v4l2_pix_fmt
  plane_nb : Nat
  ppcr_fmt : Nat
  swap_uv : Nat
  deriving DecidableEq, Repr

/-- The table `dcmipp_pixelcap_pix_map_list`. -/
def dcmipp_pixelcap_pix_map_list : List dcmipp_pixelcap_pix_map :=
  [ ⟨.MEDIA_BUS_FMT_RGB888_1X24, .V4L2_PIX_FMT_RGB565, 1, DCMIPP_PxPPCR_FORMAT_RGB565, 0⟩,
    ⟨.MEDIA_BUS_FMT_YUV8_1X24, .V4L2_PIX_FMT_YUYV, 1, DCMIPP_PxPPCR_FORMAT_YUYV, 0⟩,
    ⟨.MEDIA_BUS_FMT_YUV8_1X24, .V4L2_PIX_FMT_YVYU, 1, DCMIPP_PxPPCR_FORMAT_YUYV, 1⟩,
    ⟨.MEDIA_BUS_FMT_YUV8_1X24, .V4L2_PIX_FMT_UYVY, 1, DCMIPP_PxPPCR_FORMAT_UYVY, 0⟩,
    ⟨.MEDIA_BUS_FMT_YUV8_1X24, .V4L2_PIX_FMT_VYUY, 1, DCMIPP_PxPPCR_FORMAT_UYVY, 1⟩,
    ⟨.MEDIA_BUS_FMT_YUV8_1X24, .V4L2_PIX_FMT_GREY, 1, DCMIPP_PxPPCR_FORMAT_Y8, 0⟩,
    ⟨.MEDIA_BUS_FMT_RGB888_1X24, .V4L2_PIX_FMT_RGB24, 1, DCMIPP_PxPPCR_FORMAT_RGB888, 1⟩,
    ⟨.MEDIA_BUS_FMT_RGB888_1X24, .V4L2_PIX_FMT_BGR24, 1, DCMIPP_PxPPCR_FORMAT_RGB888, 0⟩,
    ⟨.MEDIA_BUS_FMT_RGB888_1X24, .V4L2_PIX_FMT_ARGB32, 1, DCMIPP_PxPPCR_FORMAT_ARGB8888, 1⟩,
    ⟨.MEDIA_BUS_FMT_RGB888_1X24, .V4L2_PIX_FMT_ABGR32, 1, DCMIPP_PxPPCR_FORMAT_ARGB8888, 0⟩,
    ⟨.MEDIA_BUS_FMT_RGB888_1X24, .V4L2_PIX_FMT_RGBA32, 1, DCMIPP_PxPPCR_FORMAT_RGBA8888, 1⟩,
    ⟨.MEDIA_BUS_FMT_RGB888_1X24, .V4L2_PIX_FMT_BGRA32, 1, DCMIPP_PxPPCR_FORMAT_RGBA8888, 0⟩,
    ⟨.MEDIA_BUS_FMT_YUV8_1X24, .V4L2_PIX_FMT_NV12, 2, DCMIPP_P1PPCR_FORMAT_NV21, 0⟩,
    ⟨.MEDIA_BUS_FMT_YUV8_1X24, .V4L2_PIX_FMT_NV21, 2, DCMIPP_P1PPCR_FORMAT_NV21, 1⟩,
    ⟨.MEDIA_BUS_FMT_YUV8_1X24, .V4L2_PIX_FMT_NV16, 2, DCMIPP_P1PPCR_FORMAT_NV61, 0⟩,
    ⟨.MEDIA_BUS_FMT_YUV8_1X24, .V4L2_PIX_FMT_NV61, 2, DCMIPP_P1PPCR_FORMAT_NV61, 1⟩,
    ⟨.MEDIA_BUS_FMT_YUV8_1X24, .V4L2_PIX_FMT_YUV420, 3, DCMIPP_P1PPCR_FORMAT_YV12, 0⟩,
    ⟨.MEDIA_BUS_FMT_YUV8_1X24, .V4L2_PIX_FMT_YVU420, 3, DCMIPP_P1PPCR_FORMAT_YV12, 1⟩ ]

/-- The function `dcmipp_pixelcap_pix_map_by_pixelformat`: the first entry of the
table with the given pixel format, `none` for `NULL`. -/
def dcmipp_pixelcap_pix_map_by_pixelformat (pixelformat : v4l2_pix_fmt) :
    Option dcmipp_pixelcap_pix_map :=
  dcmipp_pixelcap_pix_map_list.find? (fun m => m.pixelformat = pixelformat)

/-- The `struct dcmipp_buf` of the pixel capture queue: `id` stands for the
address of the buffer; `bytesused`, `sequence`, `field`, `timestamp` and `state`
are the fields of the embedded `vb2_v4l2_buffer` the driver writes. Addresses
are 32 bits wide (`DMA_BIT_MASK(32)`). -/
structure dcmipp_buf where
  id : Nat
  prepared : Bool
  paddr : Nat
  size : Nat
  paddrs0 : Nat
  paddrs1 : Nat
  paddrs2 : Nat
  strides0 : Nat
  strides1 : Nat
  strides2 : Nat
  bytesused : Nat
  sequence : Nat
  field : Nat
  timestamp : Nat
  state : vb2_buffer_state
  deriving DecidableEq, Repr

/-- The `enum dcmipp_state` of the common header. -/
inductive dcmipp_state
  | DCMIPP_STOPPED
  | DCMIPP_WAIT_FOR_BUFFER
  | DCMIPP_RUNNING
  deriving DecidableEq, Repr

/-- The `struct v4l2_pix_format` fields the driver reads or writes. -/
structure v4l2_pix_format where
  width : Nat
  height : Nat
  pixelformat : v4l2_pix_fmt
  field : Nat
  bytesperline : Nat
  sizeimage : Nat
  colorspace : Nat
  ycbcr_enc : Nat
  quantization : Nat
  xfer_func : Nat
  deriving DecidableEq, Repr

/-- The anonymous `count` structure of the device: seven `u32` counters. -/
structure dcmipp_count where
  errors : Nat
  overrun : Nat
  buffers : Nat
  vsync : Nat
  frame : Nat
  underrun : Nat
  nactive : Nat
  deriving DecidableEq, Repr

/-- The value `memset(&vcap->count, 0, sizeof(vcap->count))` leaves. -/
def count_zero : dcmipp_count :=
  { errors := 0, overrun := 0, buffers := 0, vsync := 0, frame := 0, underrun := 0,
    nactive := 0 }

/-- The value of `V4L2_FIELD_NONE`. -/
def V4L2_FIELD_NONE : Nat := 1

/-- The `struct dcmipp_pixelcap_device`. `buffers` is the list `vcap->buffers` from
head to tail, `done` the buffers given back through `vb2_buffer_done` in call
order, `s_subdev` tells whether the cached source pointer is set, `regs` the
registers by offset. -/
structure dcmipp_pixelcap_device where
  format : v4l2_pix_format
  buffers : List dcmipp_buf
  done : List dcmipp_buf
  sequence : Nat
  s_subdev : Bool
  state : dcmipp_state
  active : Option dcmipp_buf
  next : Option dcmipp_buf
  regs : Nat → Nat
  pipe_id : Nat
  cmier : Nat
  cmsr2 : Nat
  count : dcmipp_count
  vsync_frame_refresh_cnt : Nat
  frame_skip_ratio : Nat

/-! ## Register access -/

/-- Write of a register (`reg_write`). -/
def reg_write (vcap : dcmipp_pixelcap_device) (reg val : Nat) : dcmipp_pixelcap_device :=
  { vcap with regs := fun r => if r = reg then u32 val else vcap.regs r }

/-- Read-modify-write setting the bits of `mask` (`reg_set`). -/
def reg_set (vcap : dcmipp_pixelcap_device) (reg mask : Nat) : dcmipp_pixelcap_device :=
  reg_write vcap reg (vcap.regs reg ||| mask)

/-- Read-modify-write clearing the bits of `mask` (`reg_clear`). -/
def reg_clear (vcap : dcmipp_pixelcap_device) (reg mask : Nat) : dcmipp_pixelcap_device :=
  reg_write vcap reg (vcap.regs reg &&& (0xFFFFFFFF ^^^ u32 mask))

/-! ## List helpers -/

/-- The kernel helper `list_is_singular`. -/
def list_is_singular (l : List dcmipp_buf) : Bool := l.length = 1

/-- The kernel helper `list_del_init(&buf->list)` on the queue: the buffer leaves
the list. -/
def list_del_init (l : List dcmipp_buf) (buf : dcmipp_buf) : List dcmipp_buf :=
  l.filter (fun b => b.id ≠ buf.id)

/-- The kernel helper `list_next_entry(pos, list)`: the entry after `pos` in the
queue. When `pos` is the last entry the next node is the list head, which is no
buffer (`none`); when `pos` is in no list its node points to itself. -/
def list_next_entry (l : List dcmipp_buf) (pos : dcmipp_buf) : Option dcmipp_buf :=
  match l.dropWhile (fun b => b.id ≠ pos.id) with
  | [] => some pos
  | [_] => none
  | _ :: nxt :: _ => some nxt

/-! ## Stream start and stop -/

/-- What the kernel answers during one call of `dcmipp_pixelcap_start_streaming`
or `dcmipp_pixelcap_stop_streaming`: the results of `pm_runtime_resume_and_get`,
`media_pipeline_start`, the remote pad lookup, `dcmipp_get_frame_skip_rate` with
the value it stores through its pointer argument (`none` when it stores nothing),
and `dcmipp_s_stream_helper`. -/
structure stream_env where
  pm_runtime_resume_and_get : Int
  media_pipeline_start : Int
  remote_subdev : Bool
  get_frame_skip_rate : Int
  frame_skip_rate : Option Nat
  s_stream_helper : Int
  deriving DecidableEq, Repr

/-- The function `dcmipp_pipeline_s_stream`. -/
def dcmipp_pipeline_s_stream (vcap : dcmipp_pixelcap_device) (k : stream_env) :
    Int × dcmipp_pixelcap_device :=
  if !vcap.s_subdev && !k.remote_subdev then (-EINVAL, vcap)
  else
    let vcap := { vcap with s_subdev := true }
    let vcap :=
      match k.frame_skip_rate with
      | some r => { vcap with frame_skip_ratio := u32 r }
      | none => vcap
    if k.get_frame_skip_rate < 0 then (k.get_frame_skip_rate, vcap)
    else if k.s_stream_helper < 0 then (k.s_stream_helper, vcap)
    else (0, vcap)

/-- The function `dcmipp_start_capture` (it always returns 0). -/
def dcmipp_start_capture (vcap : dcmipp_pixelcap_device) (buf : dcmipp_buf) :
    dcmipp_pixelcap_device :=
  let vcap :=
    if buf.paddrs0 ≠ 0 then
      reg_write (reg_write vcap (DCMIPP_PxPPM0AR1 vcap.pipe_id) buf.paddrs0)
        (DCMIPP_PxPPM0PR vcap.pipe_id) buf.strides0
    else vcap
  let vcap :=
    if buf.paddrs1 ≠ 0 then
      reg_write (reg_write vcap DCMIPP_P1PPM1AR1 buf.paddrs1) DCMIPP_P1PPM1PR buf.strides1
    else vcap
  let vcap :=
    if buf.paddrs2 ≠ 0 then reg_write vcap DCMIPP_P1PPM2AR1 buf.paddrs2 else vcap
  let vcap := { vcap with vsync_frame_refresh_cnt := 1 }
  reg_set vcap (DCMIPP_PxFCTCR vcap.pipe_id) DCMIPP_PxFCTCR_CPTREQ

/-- The error exit of `dcmipp_pixelcap_start_streaming`: every queued buffer goes
back to vb2 in the QUEUED state and `active` is reset. -/
def start_streaming_err (vcap : dcmipp_pixelcap_device) : dcmipp_pixelcap_device :=
  { vcap with
    buffers := []
    done := vcap.done ++
      vcap.buffers.map (fun b => { b with state := vb2_buffer_state.VB2_BUF_STATE_QUEUED })
    active := none }

/-- The function `dcmipp_pixelcap_start_streaming`: the value returned and the
device after the call. -/
def dcmipp_pixelcap_start_streaming (vcap : dcmipp_pixelcap_device) (k : stream_env) :
    Int × dcmipp_pixelcap_device :=
  let vcap := { vcap with sequence := 0 }
  let vcap := { vcap with count := count_zero }
  if k.pm_runtime_resume_and_get < 0 then
    (k.pm_runtime_resume_and_get, start_streaming_err vcap)
  else if k.media_pipeline_start ≠ 0 then
    (k.media_pipeline_start, start_streaming_err vcap)
  else
    let r := dcmipp_pipeline_s_stream vcap k
    let vcap := r.2
    if r.1 ≠ 0 then (r.1, start_streaming_err vcap)
    else
      match dcmipp_pixelcap_pix_map_by_pixelformat vcap.format.pixelformat with
      | none => (r.1, start_streaming_err vcap)
      | some vpix =>
        let ppcr := vpix.ppcr_fmt
        let ppcr := if vpix.swap_uv ≠ 0 then ppcr ||| DCMIPP_PxPPCR_SWAPRB else ppcr
        let vcap := reg_write vcap (DCMIPP_PxPPCR vcap.pipe_id) ppcr
        let vcap := { vcap with cmier := u32 (vcap.cmier ||| DCMIPP_CMIER_PxALL vcap.pipe_id) }
        let vcap := reg_set vcap DCMIPP_CMIER vcap.cmier
        let vcap := reg_set vcap (DCMIPP_PxFSCR vcap.pipe_id) DCMIPP_PxFSCR_PIPEN
        match vcap.buffers with
        | [] =>
          (0, { vcap with next := none, state := .DCMIPP_WAIT_FOR_BUFFER })
        | buf :: _ =>
          let vcap := { vcap with next := some buf }
          let vcap := { vcap with state := .DCMIPP_RUNNING }
          (0, dcmipp_start_capture vcap buf)

/-- The function `dcmipp_pixelcap_stop_streaming`. The outcome of the wait for
`CPTACT` only selects a warning and is left out. -/
def dcmipp_pixelcap_stop_streaming (vcap : dcmipp_pixelcap_device) (k : stream_env) :
    dcmipp_pixelcap_device :=
  let vcap := (dcmipp_pipeline_s_stream vcap k).2
  let vcap := reg_clear vcap DCMIPP_CMIER vcap.cmier
  let vcap := reg_clear vcap (DCMIPP_PxFCTCR vcap.pipe_id) DCMIPP_PxFCTCR_CPTREQ
  let vcap := reg_clear vcap (DCMIPP_PxFSCR vcap.pipe_id) DCMIPP_PxFSCR_PIPEN
  { vcap with
    buffers := []
    done := vcap.done ++
      vcap.buffers.map (fun b => { b with state := vb2_buffer_state.VB2_BUF_STATE_ERROR })
    active := none
    state := .DCMIPP_STOPPED }

/-! ## Buffer queue and interrupts -/

/-- The function `dcmipp_pixelcap_buf_queue`. -/
def dcmipp_pixelcap_buf_queue (vcap : dcmipp_pixelcap_device) (buf : dcmipp_buf) :
    dcmipp_pixelcap_device :=
  let vcap := { vcap with buffers := vcap.buffers ++ [buf] }
  if vcap.state = .DCMIPP_WAIT_FOR_BUFFER then
    let vcap := { vcap with next := some buf }
    let vcap := dcmipp_start_capture vcap buf
    { vcap with state := .DCMIPP_RUNNING }
  else vcap

/-- The function `dcmipp_buffer_done`; `now` is `ktime_get_ns()`. -/
def dcmipp_buffer_done (vcap : dcmipp_pixelcap_device) (buf : dcmipp_buf) (bytesused : Nat)
    (err : Int) (now : Nat) : dcmipp_pixelcap_device :=
  { vcap with
    buffers := list_del_init vcap.buffers buf
    sequence := u32 (vcap.sequence + 1)
    done := vcap.done ++
      [{ buf with
          sequence := vcap.sequence
          field := V4L2_FIELD_NONE
          timestamp := now
          bytesused := bytesused
          state := if err ≠ 0 then vb2_buffer_state.VB2_BUF_STATE_ERROR
                   else vb2_buffer_state.VB2_BUF_STATE_DONE }]
    count := { vcap.count with buffers := u32 (vcap.count.buffers + 1) } }

/-- The function `dcmipp_pixelcap_set_next_frame_or_stop`. -/
def dcmipp_pixelcap_set_next_frame_or_stop (vcap : dcmipp_pixelcap_device) :
    Option dcmipp_pixelcap_device :=
  if vcap.next.isNone ∧ list_is_singular vcap.buffers then
    let vcap := reg_clear vcap (DCMIPP_PxFCTCR vcap.pipe_id) DCMIPP_PxFCTCR_CPTREQ
    some { vcap with next := none, state := .DCMIPP_WAIT_FOR_BUFFER }
  else
    let next : Option dcmipp_buf :=
      match vcap.next with
      | some n => some n
      | none =>
        match vcap.active with
        | none => none
        | some a => list_next_entry vcap.buffers a
    match next with
    | none => none
    | some n =>
      let vcap := { vcap with next := some n }
      let vcap := reg_write vcap (DCMIPP_PxPPM0AR1 vcap.pipe_id) n.paddrs0
      let vcap := if n.paddrs1 ≠ 0 then reg_write vcap DCMIPP_P1PPM1AR1 n.paddrs1 else vcap
      let vcap := if n.paddrs2 ≠ 0 then reg_write vcap DCMIPP_P1PPM2AR1 n.paddrs2 else vcap
      some vcap

/-- The function `dcmipp_pixelcap_process_frame`; `now` is `ktime_get_ns()`. -/
def dcmipp_pixelcap_process_frame (vcap : dcmipp_pixelcap_device) (now : Nat) :
    dcmipp_pixelcap_device :=
  match vcap.active with
  | none =>
    { vcap with count := { vcap.count with
        nactive := u32 (vcap.count.nactive + 1)
        errors := u32 (vcap.count.errors + 1) } }
  | some buf =>
    let vcap := dcmipp_buffer_done vcap buf vcap.format.sizeimage 0 now
    { vcap with active := none }

/-- The function `dcmipp_pixelcap_irq_thread` on the flags latched in
`vcap->cmsr2` (it always returns `IRQ_HANDLED`; the result is the device after
the call). -/
def dcmipp_pixelcap_irq_thread (vcap : dcmipp_pixelcap_device) (now : Nat) :
    Option dcmipp_pixelcap_device :=
  let cmsr2_pxovrf := DCMIPP_CMSR2_PxOVRF vcap.pipe_id
  let cmsr2_pxvsyncf := DCMIPP_CMSR2_PxVSYNCF vcap.pipe_id
  let cmsr2_pxframef := DCMIPP_CMSR2_PxFRAMEF vcap.pipe_id
  let vcap :=
    if vcap.cmsr2 &&& cmsr2_pxovrf ≠ 0 then
      { vcap with count := { vcap.count with
          errors := u32 (vcap.count.errors + 1)
          overrun := u32 (vcap.count.overrun + 1) } }
    else vcap
  let vcap :=
    if vcap.cmsr2 &&& cmsr2_pxframef ≠ 0 then
      dcmipp_pixelcap_process_frame
        { vcap with count := { vcap.count with frame := u32 (vcap.count.frame + 1) } } now
    else vcap
  if vcap.cmsr2 &&& cmsr2_pxvsyncf ≠ 0 then
    let vcap := { vcap with count := { vcap.count with vsync := u32 (vcap.count.vsync + 1) } }
    if vcap.state = .DCMIPP_WAIT_FOR_BUFFER then
      some { vcap with count := { vcap.count with
        underrun := u32 (vcap.count.underrun + 1) } }
    else
      let vcap := { vcap with
        vsync_frame_refresh_cnt := u32 (vcap.vsync_frame_refresh_cnt + 4294967295) }
      if vcap.vsync_frame_refresh_cnt = 0 then
        let vcap := { vcap with vsync_frame_refresh_cnt := vcap.frame_skip_ratio }
        let vcap := { vcap with active := vcap.next, next := vcap.active }
        dcmipp_pixelcap_set_next_frame_or_stop vcap
      else some vcap
  else some vcap

/-- The interrupt thread run on the latched flags `cmsr2`, as the interrupt
handler leaves them in `vcap->cmsr2`. -/
def irq_thread_on (vcap : dcmipp_pixelcap_device) (cmsr2 now : Nat) :
    Option dcmipp_pixelcap_device :=
  dcmipp_pixelcap_irq_thread { vcap with cmsr2 := cmsr2 } now

/-! ## Observations used in the statements -/

/-- Successive runs of the interrupt thread, one per pair of latched flags and time. -/
def irq_run (vcap : dcmipp_pixelcap_device) :
    List (Nat × Nat) → Option dcmipp_pixelcap_device
  | [] => some vcap
  | (cmsr2, now) :: es => (irq_thread_on vcap cmsr2 now).bind (fun v => irq_run v es)

/-- The devices a run of the interrupt thread passes through: the device before
the first event, then the device after each event. -/
def irq_trace (vcap : dcmipp_pixelcap_device) :
    List (Nat × Nat) → Option (List dcmipp_pixelcap_device)
  | [] => some [vcap]
  | (cmsr2, now) :: es =>
    (irq_thread_on vcap cmsr2 now).bind (fun v => (irq_trace v es).map (fun l => vcap :: l))

/-- How many of the events carry the VSYNC flag of pipe `id`. -/
def vsync_count (id : Nat) (es : List (Nat × Nat)) : Nat :=
  (es.filter (fun e => e.1 &&& DCMIPP_CMSR2_PxVSYNCF id ≠ 0)).length

/-- Rounds of a VSYNC followed by a frame end on pipe `id`, one round per pair of
latch times. -/
def vsync_frame_rounds (id : Nat) : List (Nat × Nat) → List (Nat × Nat)
  | [] => []
  | (tv, tf) :: ts =>
    (DCMIPP_CMSR2_PxVSYNCF id, tv) :: (DCMIPP_CMSR2_PxFRAMEF id, tf) :: vsync_frame_rounds id ts

/-- The buffers `bs` completed as frames in list order, one per round, numbered
from `seq`, each stamped with the frame-end time of its round. -/
def frames_done (sizeimage : Nat) : List dcmipp_buf → List (Nat × Nat) → Nat → List dcmipp_buf
  | b :: bs, (_, tf) :: ts, seq =>
    { b with sequence := seq, field := V4L2_FIELD_NONE, timestamp := tf, bytesused := sizeimage,
             state := vb2_buffer_state.VB2_BUF_STATE_DONE } :: frames_done sizeimage bs ts (seq + 1)
  | _, _, _ => []

/-! ## Interrupt top half -/

/-- The two values of `irqreturn_t` the handler returns. -/
inductive irqreturn
  | IRQ_HANDLED
  | IRQ_WAKE_THREAD
  deriving DecidableEq, Repr

/-- The function `dcmipp_pixelcap_irq_callback`; `ved_cmsr2` is the shared status
value `ved->cmsr2` the core handler read. -/
def dcmipp_pixelcap_irq_callback (vcap : dcmipp_pixelcap_device) (ved_cmsr2 : Nat) :
    irqreturn × dcmipp_pixelcap_device :=
  let vcap := { vcap with cmsr2 := ved_cmsr2 &&& vcap.cmier }
  if vcap.cmsr2 = 0 then (.IRQ_HANDLED, vcap)
  else (.IRQ_WAKE_THREAD, reg_write vcap DCMIPP_CMFCR vcap.cmsr2)

/-! ## Format negotiation -/

/-- The function `hdw_pixel_alignment`: the base-2 logarithm of the pixel
alignment the hardware requires for a format. -/
def hdw_pixel_alignment : v4l2_pix_fmt → Nat
  | .V4L2_PIX_FMT_NV12 | .V4L2_PIX_FMT_NV21 | .V4L2_PIX_FMT_YUV420 | .V4L2_PIX_FMT_YVU420
  | .V4L2_PIX_FMT_NV16 | .V4L2_PIX_FMT_NV61 | .V4L2_PIX_FMT_GREY => 4
  | .V4L2_PIX_FMT_RGB565 | .V4L2_PIX_FMT_YUYV | .V4L2_PIX_FMT_YVYU | .V4L2_PIX_FMT_UYVY
  | .V4L2_PIX_FMT_VYUY => 3
  | .V4L2_PIX_FMT_RGB24 | .V4L2_PIX_FMT_BGR24 => 4
  | .V4L2_PIX_FMT_ARGB32 | .V4L2_PIX_FMT_ABGR32 | .V4L2_PIX_FMT_RGBA32
  | .V4L2_PIX_FMT_BGRA32 => 2
  | .other _ => 0

/-- The kernel macro `round_up(x, y)` on a `u32` `x` and a power of two `y`:
`(((x) - 1) | ((u32)((y) - 1))) + 1`, every step in 32 bits. -/
def round_up (x y : Nat) : Nat :=
  u32 ((u32 (x + 4294967295) ||| u32 (y - 1)) + 1)

/-- The kernel macro `clamp_t(u32, val, lo, hi)`:
`val >= hi ? hi : (val <= lo ? lo : val)` on the three values cast to `u32`. -/
def clamp_t (val lo hi : Nat) : Nat :=
  if u32 hi ≤ u32 val then u32 hi else if u32 val ≤ u32 lo then u32 lo else u32 val

/-- The fields of `struct v4l2_mbus_framefmt` the link validation reads. -/
structure v4l2_mbus_framefmt where
  width : Nat
  height : Nat
  code : media_bus_fmt
  deriving DecidableEq, Repr

/-- The function `dcmipp_pixelcap_link_validate`; `get_fmt` is what the `get_fmt`
call on the source pad returns and `source_fmt` the format it reports. -/
def dcmipp_pixelcap_link_validate (vcap : dcmipp_pixelcap_device) (get_fmt : Int)
    (source_fmt : v4l2_mbus_framefmt) : Int :=
  if get_fmt < 0 then 0
  else
    let width_aligned :=
      round_up source_fmt.width (1 <<< hdw_pixel_alignment vcap.format.pixelformat)
    if width_aligned ≠ vcap.format.width ∨ source_fmt.height ≠ vcap.format.height then -EINVAL
    else if dcmipp_pixelcap_pix_map_list.any (fun m =>
        m.pixelformat = vcap.format.pixelformat ∧ m.code = source_fmt.code) then 0
    else -EINVAL

/-- What `dcmipp_pixelcap_try_fmt_vid_cap` takes from outside this file: the four
frame size limits of the common header, the helper `v4l2_fill_pixfmt` (given the
pixel format, width and height it stores these three with the `bytesperline` and
`sizeimage` it computes, or fails and stores nothing) and the helper
`dcmipp_colorimetry_clamp` (it rewrites the four colorimetry fields). -/
structure fmt_env where
  DCMIPP_FRAME_MIN_WIDTH : Nat
  DCMIPP_FRAME_MAX_WIDTH : Nat
  DCMIPP_FRAME_MIN_HEIGHT : Nat
  DCMIPP_FRAME_MAX_HEIGHT : Nat
  v4l2_fill_pixfmt : v4l2_pix_fmt → Nat → Nat → Option (Nat × Nat)
  dcmipp_colorimetry_clamp : v4l2_pix_format → Nat × Nat × Nat × Nat

/-- The pixel format of `fmt_default`. -/
def fmt_default_pixelformat : v4l2_pix_fmt := .V4L2_PIX_FMT_RGB565

/-- The value of `V4L2_FIELD_ANY`. -/
def V4L2_FIELD_ANY : Nat := 0

/-- The function `dcmipp_pixelcap_try_fmt_vid_cap` on `f->fmt.pix` (it always
returns 0; the result is the format after the call, `none` if `vpix` were null
when dereferenced). Each field of `*format` is followed through the function and
the structure is put together at the end. -/
def dcmipp_pixelcap_try_fmt_vid_cap (k : fmt_env) (pipe_id : Nat) (format : v4l2_pix_format) :
    Option v4l2_pix_format :=
  let found := dcmipp_pixelcap_pix_map_by_pixelformat format.pixelformat
  let pixelformat := if found.isNone then fmt_default_pixelformat else format.pixelformat
  let vpix :=
    if found.isNone then dcmipp_pixelcap_pix_map_by_pixelformat pixelformat else found
  match vpix with
  | none => none
  | some vpix =>
    let pixelformat :=
      if vpix.plane_nb > 1 ∧ pipe_id ≠ 1 then fmt_default_pixelformat else pixelformat
    let width := clamp_t format.width k.DCMIPP_FRAME_MIN_WIDTH k.DCMIPP_FRAME_MAX_WIDTH
    let width := round_up width (1 <<< hdw_pixel_alignment pixelformat)
    let height := clamp_t format.height k.DCMIPP_FRAME_MIN_HEIGHT k.DCMIPP_FRAME_MAX_HEIGHT
    let filled := k.v4l2_fill_pixfmt pixelformat width height
    let bytesperline := match filled with
      | some p => p.1
      | none => format.bytesperline
    let sizeimage := match filled with
      | some p => p.2
      | none => format.sizeimage
    let field := if format.field = V4L2_FIELD_ANY then V4L2_FIELD_NONE else format.field
    let format : v4l2_pix_format :=
      { format with width := width, height := height, pixelformat := pixelformat,
                    field := field, bytesperline := bytesperline, sizeimage := sizeimage }
    let c := k.dcmipp_colorimetry_clamp format
    some { format with
      colorspace := c.1, ycbcr_enc := c.2.1, quantization := c.2.2.1, xfer_func := c.2.2.2 }

/-! ## The interrupt thread block by block -/

/-- The overrun block of `dcmipp_pixelcap_irq_thread`
(`if (vcap->cmsr2 & cmsr2_pxovrf)`). -/
def irq_overrun_part (vcap : dcmipp_pixelcap_device) : dcmipp_pixelcap_device :=
  if vcap.cmsr2 &&& DCMIPP_CMSR2_PxOVRF vcap.pipe_id ≠ 0 then
    { vcap with count := { vcap.count with
        errors := u32 (vcap.count.errors + 1)
        overrun := u32 (vcap.count.overrun + 1) } }
  else vcap

/-- The frame-end block of `dcmipp_pixelcap_irq_thread`
(`if (vcap->cmsr2 & cmsr2_pxframef)`). -/
def irq_frame_part (vcap : dcmipp_pixelcap_device) (now : Nat) : dcmipp_pixelcap_device :=
  if vcap.cmsr2 &&& DCMIPP_CMSR2_PxFRAMEF vcap.pipe_id ≠ 0 then
    dcmipp_pixelcap_process_frame
      { vcap with count := { vcap.count with frame := u32 (vcap.count.frame + 1) } } now
  else vcap

/-- The VSYNC block of `dcmipp_pixelcap_irq_thread`
(`if (vcap->cmsr2 & cmsr2_pxvsyncf)`). -/
def irq_vsync_part (vcap : dcmipp_pixelcap_device) : Option dcmipp_pixelcap_device :=
  if vcap.cmsr2 &&& DCMIPP_CMSR2_PxVSYNCF vcap.pipe_id ≠ 0 then
    let vcap := { vcap with count := { vcap.count with vsync := u32 (vcap.count.vsync + 1) } }
    if vcap.state = .DCMIPP_WAIT_FOR_BUFFER then
      some { vcap with count := { vcap.count with
        underrun := u32 (vcap.count.underrun + 1) } }
    else
      let vcap := { vcap with
        vsync_frame_refresh_cnt := u32 (vcap.vsync_frame_refresh_cnt + 4294967295) }
      if vcap.vsync_frame_refresh_cnt = 0 then
        let vcap := { vcap with vsync_frame_refresh_cnt := vcap.frame_skip_ratio }
        let vcap := { vcap with active := vcap.next, next := vcap.active }
        dcmipp_pixelcap_set_next_frame_or_stop vcap
      else some vcap
  else some vcap

/-- The relations between the statistics counters and the sequence counter, `V` being the
number of VSYNC events processed since the stream start. -/
def counters_consistent (d : dcmipp_pixelcap_device) (V : Nat) : Prop :=
  d.count.errors = u32 (d.count.overrun + d.count.nactive) ∧
  d.count.frame = u32 (d.count.buffers + d.count.nactive) ∧
  d.count.buffers = d.sequence ∧
  d.count.vsync = u32 V ∧
  d.count.underrun ≤ V ∧ d.count.underrun < 4294967296

/-! ## The capture engine under the events of the framework -/

/-- The default format `fmt_default`; the default width and height are constants of the
common header. -/
def fmt_default (DCMIPP_FMT_WIDTH_DEFAULT DCMIPP_FMT_HEIGHT_DEFAULT : Nat) : v4l2_pix_format :=
  { width := DCMIPP_FMT_WIDTH_DEFAULT, height := DCMIPP_FMT_HEIGHT_DEFAULT,
    pixelformat := .V4L2_PIX_FMT_RGB565, field := V4L2_FIELD_NONE,
    bytesperline := DCMIPP_FMT_WIDTH_DEFAULT * 2,
    sizeimage := DCMIPP_FMT_WIDTH_DEFAULT * DCMIPP_FMT_HEIGHT_DEFAULT * 2,
    colorspace := 3, ycbcr_enc := 0, quantization := 0, xfer_func := 0 }

/-- The device `dcmipp_pixelcap_ent_init` creates for pipe `pipe_id`: the structure is
zero-allocated (state `STOPPED`, no active and no next buffer, no interrupt enabled in
`cmier`), the queue is empty and the format is the default one. `regs` is what the hardware
registers hold at that time. -/
def dcmipp_pixelcap_ent_init (pipe_id : Nat) (regs : Nat → Nat)
    (DCMIPP_FMT_WIDTH_DEFAULT DCMIPP_FMT_HEIGHT_DEFAULT : Nat) : dcmipp_pixelcap_device :=
  { format := fmt_default DCMIPP_FMT_WIDTH_DEFAULT DCMIPP_FMT_HEIGHT_DEFAULT,
    buffers := [], done := [], sequence := 0, s_subdev := false,
    state := .DCMIPP_STOPPED, active := none, next := none, regs := regs,
    pipe_id := pipe_id, cmier := 0, cmsr2 := 0, count := count_zero,
    vsync_frame_refresh_cnt := 0, frame_skip_ratio := 0 }

/-- The events that reach the capture engine: a stream start with the answers of the
kernel, the queueing of a buffer, an interrupt with the raised status flags and the time of
its thread, and a stream stop. A VSYNC is an interrupt with the VSYNC flag of the pipe, a
frame end one with the frame flag. -/
inductive engine_event
  | start_streaming (k : stream_env)
  | buf_queue (buf : dcmipp_buf)
  | irq (flags now : Nat)
  | stop_streaming (k : stream_env)

/-- One interrupt: the core hands the status `flags` to `dcmipp_pixelcap_irq_callback`,
and the thread runs when the handler returns `IRQ_WAKE_THREAD`. -/
def irq_deliver (vcap : dcmipp_pixelcap_device) (flags now : Nat) :
    Option dcmipp_pixelcap_device :=
  let r := dcmipp_pixelcap_irq_callback vcap flags
  match r.1 with
  | .IRQ_WAKE_THREAD => dcmipp_pixelcap_irq_thread r.2 now
  | .IRQ_HANDLED => some r.2

/-- One event on the engine. The framework starts a stream only when it is stopped, and
queues only a buffer the driver does not hold; a buffer is identified by `id` for one pass
through the driver, so a buffer queued again after its completion counts as a new one.
An event the framework does not deliver leaves the device as it is. -/
def engine_step (vcap : dcmipp_pixelcap_device) : engine_event → Option dcmipp_pixelcap_device
  | .start_streaming k =>
    if vcap.state = .DCMIPP_STOPPED then some (dcmipp_pixelcap_start_streaming vcap k).2
    else some vcap
  | .buf_queue buf =>
    if buf.id ∈ vcap.buffers.map (fun b => b.id) ∨ buf.id ∈ vcap.done.map (fun b => b.id) then
      some vcap
    else some (dcmipp_pixelcap_buf_queue vcap buf)
  | .irq flags now => irq_deliver vcap flags now
  | .stop_streaming k => some (dcmipp_pixelcap_stop_streaming vcap k)

/-- A sequence of events on the engine. -/
def engine_run (vcap : dcmipp_pixelcap_device) :
    List engine_event → Option dcmipp_pixelcap_device
  | [] => some vcap
  | ev :: evs => (engine_step vcap ev).bind (fun v => engine_run v evs)

/-- Whether, along a sequence of events from `vcap`, every interrupt that arrives while the
state is `STOPPED` carries none of the flags of `vcap->cmier`, so that the handler does not
wake the thread in that state. -/
def stopped_irqs_masked (vcap : dcmipp_pixelcap_device) : List engine_event → Bool
  | [] => true
  | ev :: evs =>
    (match ev with
     | .irq flags _ => decide (vcap.state = .DCMIPP_STOPPED → flags &&& vcap.cmier = 0)
     | _ => true) &&
    (match engine_step vcap ev with
     | some v => stopped_irqs_masked v evs
     | none => true)

/-- The shape of the engine between two events: the buffers of the queue are distinct and
none of them is completed; while stopped there is no active buffer; while waiting for a
buffer there is no next buffer and the queue is empty or holds the active buffer alone;
while running the next buffer and the active buffer, when there is one, are the first
buffers of the queue. -/
def engine_inv (d : dcmipp_pixelcap_device) : Prop :=
  (d.buffers.map (fun b => b.id)).Nodup ∧
  (∀ b ∈ d.done, ∀ q ∈ d.buffers, q.id ≠ b.id) ∧
  (d.state = .DCMIPP_STOPPED → d.active = none) ∧
  (d.state = .DCMIPP_WAIT_FOR_BUFFER →
    d.next = none ∧
    ((d.active = none ∧ d.buffers = []) ∨ ∃ x, d.active = some x ∧ d.buffers = [x])) ∧
  (d.state = .DCMIPP_RUNNING →
    ∃ n, d.next = some n ∧
      ((d.active = none ∧ ∃ rest, d.buffers = n :: rest) ∨
       ∃ a rest, d.active = some a ∧
         (d.buffers = a :: n :: rest ∨ d.buffers = n :: a :: rest)))

/-! ## Concrete devices and events -/

/-- A prepared single-plane buffer as user space queues it. -/
def sample_buf (n : Nat) : dcmipp_buf :=
  { id := n, prepared := true, paddr := 0x80000000 + 0x100000 * n, size := 614400,
    paddrs0 := 0x80000000 + 0x100000 * n, paddrs1 := 0, paddrs2 := 0,
    strides0 := 1280, strides1 := 0, strides2 := 0,
    bytesused := 614400, sequence := 0, field := 0, timestamp := 0,
    state := .VB2_BUF_STATE_ACTIVE }

/-- The main pipe device as `dcmipp_pixelcap_ent_init` leaves it, with a 640x480
RGB565 format. -/
def sample_device : dcmipp_pixelcap_device :=
  { format :=
      { width := 640, height := 480, pixelformat := .V4L2_PIX_FMT_RGB565, field := 1,
        bytesperline := 1280, sizeimage := 614400, colorspace := 3, ycbcr_enc := 0,
        quantization := 0, xfer_func := 0 },
    buffers := [], done := [], sequence := 0, s_subdev := false,
    state := .DCMIPP_STOPPED, active := none, next := none, regs := fun _ => 0,
    pipe_id := 1, cmier := 0, cmsr2 := 0, count := count_zero,
    vsync_frame_refresh_cnt := 0, frame_skip_ratio := 0 }

/-- Kernel answers of a stream start that goes through, with frame skip ratio `n`. -/
def sample_stream_env (n : Nat) : stream_env :=
  { pm_runtime_resume_and_get := 0, media_pipeline_start := 0, remote_subdev := true,
    get_frame_skip_rate := 0, frame_skip_rate := some n, s_stream_helper := 0 }

/-- The sample device after buffers `1` to `n` are queued, before the stream start. -/
def sample_queued (n : Nat) : dcmipp_pixelcap_device :=
  (List.range n).foldl (fun v i => dcmipp_pixelcap_buf_queue v (sample_buf (i + 1)))
    sample_device

/-- The sample device after buffers `1` to `n` are queued and the stream is
started with frame skip ratio `r`. -/
def sample_started (n r : Nat) : dcmipp_pixelcap_device :=
  (dcmipp_pixelcap_start_streaming (sample_queued n) (sample_stream_env r)).2

/-- A VSYNC of the main pipe latched at time `t`. -/
def sample_vsync (t : Nat) : Nat × Nat := (DCMIPP_CMSR2_P1VSYNCF, t)

/-- A frame end of the main pipe latched at time `t`. -/
def sample_frame (t : Nat) : Nat × Nat := (DCMIPP_CMSR2_P1FRAMEF, t)

/-- The sample device with two buffers, skip ratio 1, after the first VSYNC:
buffer 1 is being captured, buffer 2 is programmed as next. -/
def sample_capturing : dcmipp_pixelcap_device :=
  (irq_run (sample_started 2 1) [sample_vsync 10]).getD sample_device

/-- The sample device with `n` buffers at the point where the interrupt thread
calls `dcmipp_pixelcap_set_next_frame_or_stop` on the first VSYNC: `next` has been
promoted to `active` and the next slot is empty. -/
def sample_swapped (n : Nat) : dcmipp_pixelcap_device :=
  { sample_started n 1 with active := (sample_started n 1).next, next := none }

/-- Two VSYNCs, a frame end, then two more VSYNCs of the main pipe. -/
def sample_mixed_events : List (Nat × Nat) :=
  [sample_vsync 10, sample_vsync 20, sample_frame 25, sample_vsync 30, sample_vsync 40]

/-- The devices the sample device with three buffers and skip ratio 2 passes
through on `sample_mixed_events`. -/
def sample_trace : List dcmipp_pixelcap_device :=
  (irq_trace (sample_started 3 2) sample_mixed_events).getD []

/-- The sample device with a capture format of width 0. -/
def sample_zero_width_device : dcmipp_pixelcap_device :=
  { sample_device with format := { sample_device.format with width := 0 } }

/-- An upstream format 4294967295 pixels wide. -/
def sample_wide_source : v4l2_mbus_framefmt :=
  { width := 4294967295, height := 480, code := .MEDIA_BUS_FMT_RGB888_1X24 }

/-- An upstream format of 636x480 pixels. -/
def sample_source : v4l2_mbus_framefmt :=
  { width := 636, height := 480, code := .MEDIA_BUS_FMT_RGB888_1X24 }

/-- Helpers for the sample format environments: `v4l2_fill_pixfmt` for a packed
format of two bytes per pixel, and a colorimetry clamp that keeps the fields. -/
def sample_fill_pixfmt (_ : v4l2_pix_fmt) (width height : Nat) : Option (Nat × Nat) :=
  some (width * 2, width * height * 2)

def sample_colorimetry_clamp (f : v4l2_pix_format) : Nat × Nat × Nat × Nat :=
  (f.colorspace, f.ycbcr_enc, f.quantization, f.xfer_func)

/-- Frame limits 16..4096 by 16..2160. -/
def sample_fmt_env : fmt_env :=
  { DCMIPP_FRAME_MIN_WIDTH := 16, DCMIPP_FRAME_MAX_WIDTH := 4096,
    DCMIPP_FRAME_MIN_HEIGHT := 16, DCMIPP_FRAME_MAX_HEIGHT := 2160,
    v4l2_fill_pixfmt := sample_fill_pixfmt,
    dcmipp_colorimetry_clamp := sample_colorimetry_clamp }

/-- Frame limits whose maximum width is the largest 32-bit value. -/
def wide_fmt_env : fmt_env :=
  { sample_fmt_env with DCMIPP_FRAME_MIN_WIDTH := 1, DCMIPP_FRAME_MAX_WIDTH := 4294967295 }

/-- A request for 4294967295 pixels of width in the default format. -/
def wide_format : v4l2_pix_format :=
  { sample_device.format with width := 4294967295 }

/-- One buffer queued, the stream started, then stopped. -/
def sample_stop_events : List engine_event :=
  [.buf_queue (sample_buf 1), .start_streaming (sample_stream_env 1),
   .stop_streaming (sample_stream_env 1)]

/-- Two buffers queued, the stream started, a VSYNC, a frame end, then a third buffer. -/
def sample_engine_events : List engine_event :=
  [.buf_queue (sample_buf 1), .buf_queue (sample_buf 2),
   .start_streaming (sample_stream_env 1),
   .irq DCMIPP_CMSR2_P1VSYNCF 10, .irq DCMIPP_CMSR2_P1FRAMEF 20, .buf_queue (sample_buf 3)]

/-- The device after `sample_stop_events` from the initial state of the main pipe. -/
def sample_stopped_device : dcmipp_pixelcap_device :=
  (engine_run (dcmipp_pixelcap_ent_init 1 (fun _ => 0) 640 480) sample_stop_events).getD
    sample_device

/-- One buffer queued, the stream started, then stopped, then a VSYNC of the main pipe
handed to the interrupt handler. -/
def sample_late_vsync_events : List engine_event :=
  sample_stop_events ++ [.irq DCMIPP_CMSR2_P1VSYNCF 30]

/-- The device after `sample_late_vsync_events` from the initial state of the main pipe. -/
def sample_late_vsync_device : dcmipp_pixelcap_device :=
  (engine_run (dcmipp_pixelcap_ent_init 1 (fun _ => 0) 640 480)
    sample_late_vsync_events).getD sample_device

/-- An interrupt of the main pipe with the overrun, frame-end and VSYNC flags raised
together, its thread running at time `t`. -/
def sample_all_flags (t : Nat) : Nat × Nat :=
  (DCMIPP_CMSR2_P1OVRF ||| DCMIPP_CMSR2_P1FRAMEF ||| DCMIPP_CMSR2_P1VSYNCF, t)

end Pixelcap

/-! # DRM driver glue (drv.c) -/

namespace Drm

/-- Reduction of a natural number to an unsigned 32-bit machine word. -/
def u32 (n : Nat) : Nat := n % 4294967296

/-- The argument block of the dumb-buffer creation ioctl (struct drm_mode_create_dumb). -/
structure drm_mode_create_dumb where
  height : Nat
  width : Nat
  bpp : Nat
  flags : Nat
  handle : Nat
  pitch : Nat
  size : Nat
  deriving DecidableEq, Repr

/-- The kernel macro DIV_ROUND_UP(n, d) = (((n) + (d) - 1) / (d)) on unsigned 32-bit
operands. -/
def DIV_ROUND_UP (n d : Nat) : Nat := u32 (u32 (n + d) + 4294967295) / d

/-- The kernel macro roundup(x, y) = ((((x) + ((y) - 1)) / (y)) * (y)) on unsigned 32-bit
operands. -/
def roundup (x y : Nat) : Nat := u32 ((u32 (x + (y - 1)) / y) * y)

/-- The function stm_gem_dma_dumb_create of drv.c: the pitch and the height of the request are
aligned in place and the request is handed to drm_gem_dma_dumb_create_internal, a helper of
the DRM core that is taken as a parameter. -/
def stm_gem_dma_dumb_create
    (drm_gem_dma_dumb_create_internal : drm_mode_create_dumb → Int × drm_mode_create_dumb)
    (args : drm_mode_create_dumb) : Int × drm_mode_create_dumb :=
  let min_pitch := DIV_ROUND_UP (u32 (args.width * args.bpp)) 8
  let args := { args with pitch := roundup min_pitch 128 }
  let args := { args with height := roundup args.height 4 }
  drm_gem_dma_dumb_create_internal args

/-- A stand-in for the DRM core helper that accepts every request unchanged. -/
def sample_internal (args : drm_mode_create_dumb) : Int × drm_mode_create_dumb := (0, args)

/-- A request for a 1366 x 766 buffer of 32 bits per pixel. -/
def sample_args : drm_mode_create_dumb :=
  { height := 766, width := 1366, bpp := 32, flags := 0, handle := 0, pitch := 0, size := 0 }

end Drm

/-! # MDF ADC driver (stm32-mdf-adc.c): the scale computation -/

namespace Mdf

/-- Reduction of a natural number to an unsigned 32-bit machine word. -/
def u32 (n : Nat) : Nat := n % 4294967296

/-- The value of a 32-bit word read as a signed integer (conversion of an `unsigned int`
to `int`). -/
def toS32 (n : Nat) : Int :=
  if u32 n < 2147483648 then (u32 n : Int) else (u32 n : Int) - 4294967296

/-- The `struct stm32_mdf_log10`. -/
structure stm32_mdf_log10 where
  raw : Nat
  log : Nat
  deriving DecidableEq, Repr

/-- The table `stm32_mdf_log_table`: prime numbers with 1000 times their decimal
logarithm. -/
def stm32_mdf_log_table : List stm32_mdf_log10 :=
  [⟨2, 301⟩, ⟨3, 477⟩, ⟨5, 699⟩, ⟨7, 845⟩, ⟨11, 1041⟩, ⟨13, 1114⟩, ⟨17, 1230⟩, ⟨19, 1279⟩,
   ⟨23, 1362⟩, ⟨29, 1462⟩, ⟨31, 1491⟩, ⟨37, 1568⟩, ⟨41, 1613⟩, ⟨43, 1633⟩, ⟨47, 1672⟩,
   ⟨53, 1724⟩, ⟨59, 1771⟩, ⟨61, 1785⟩, ⟨67, 1826⟩, ⟨71, 1851⟩, ⟨73, 1863⟩, ⟨79, 1898⟩,
   ⟨83, 1919⟩, ⟨89, 1949⟩, ⟨97, 1987⟩, ⟨101, 2004⟩, ⟨103, 2013⟩, ⟨107, 2029⟩, ⟨109, 2037⟩,
   ⟨113, 2053⟩, ⟨127, 2104⟩]

/-- The inner loop of `stm32_mdf_adc_compute_scale`: the first entry of the table whose
prime divides `num`, `none` when the index reaches the end of the table. -/
def first_divisor (num : Nat) : Option stm32_mdf_log10 :=
  stm32_mdf_log_table.find? (fun e => num % e.raw = 0)

/-- The outer loop of `stm32_mdf_adc_compute_scale`, run for at most `fuel` tests of its
condition, from the current `num` and the logarithms stored so far in `prime_factors`.
The result is `some (some l)` when the loop ends with the logarithms `l` stored,
`some none` when no prime of the table divides `num` (the function returns 0), and `none`
when the fuel runs out or a logarithm would be stored past the 16 slots of the array. -/
def factor_loop : Nat → Nat → List Nat → Option (Option (List Nat))
  | 0, _, _ => none
  | fuel + 1, num, prime_factors =>
    if num > 1 then
      match first_divisor num with
      | none => some none
      | some e =>
        if prime_factors.length < 16 then
          factor_loop fuel (num / e.raw) (prime_factors ++ [e.log])
        else none
    else some (some prime_factors)

/-- The function `stm32_mdf_adc_compute_scale` on `decim`, `order` and `data_size`, its
outer loop run with `fuel`; the arithmetic is that of `unsigned int`, the result is
converted to `int`. -/
def stm32_mdf_adc_compute_scale (fuel decim order data_size : Nat) : Option Int :=
  match factor_loop fuel decim [] with
  | none => none
  | some none => some 0
  | some (some prime_factors) =>
    let logd := prime_factors.foldl (fun logd x => u32 (logd + x)) 0
    let log2 := (stm32_mdf_log_table.headD ⟨0, 0⟩).log
    some (toS32 (u32 (20 *
      u32 (u32 (u32 (data_size + 4294967295) * log2) + (4294967296 - u32 (order * logd))))))

/-- Spec side: the 1000*log10 table entry of a prime, 0 for a number that is not in the
table. -/
def spec_log_entry (p : Nat) : Nat :=
  ((stm32_mdf_log_table.find? (fun e => e.raw = p)).map (fun e => e.log)).getD 0

/-- Spec side: the sum, over the prime factors of `D` counted with
multiplicity, of their table entries. -/
def spec_log_sum (D : Nat) : Nat := ((Nat.primeFactorsList D).map spec_log_entry).sum

/-- Spec side: the value 20 * ((DS - 1) * 301 - N * L) as an integer. -/
def spec_scale (D N DS : Nat) : Int := 20 * (((DS : Int) - 1) * 301 - (N : Int) * (spec_log_sum D : Int))

end Mdf

namespace Statcap

/-! ## Auxiliary facts -/

theorem set3 (l : List Nat) (h : l.length = 3) (a b c : Nat) :
    ((l.set 0 a).set 1 b).set 2 c = [a, b, c] := by
  match l, h with
  | [_, _, _], _ => rfl

theorem avr_bins_update_twice (b : stm32_dcmipp_stat_buf) (p : Bool)
    (f g : stm32_dcmipp_stat_avr_bins → stm32_dcmipp_stat_avr_bins) :
    avr_bins_update (avr_bins_update b p f) p g = avr_bins_update b p (fun a => g (f a)) := by
  cases p <;> rfl

theorem read_bins_eq (vcap : dcmipp_statcap_device) (e : irq_event) (pre : Bool) (k : Nat) :
    read_bins vcap e pre k =
      { vcap with local_buf := (avr_bins_update vcap.local_buf pre (fun a =>
          { a with bins :=
                    ((a.bins.set k (u32 e.P1STXSR0)).set (1 + k) (u32 e.P1STXSR1)).set (2 + k)
                      (u32 e.P1STXSR2) })) } := by
  simp [read_bins, avr_bins_update_twice, reg_read, DCMIPP_P1STXSR, DCMIPP_P1BPRSR]

theorem write_stxcr_eq (vcap : dcmipp_statcap_device) (val : Nat → Nat) :
    write_stxcr vcap val =
      { vcap with regs := fun r =>
          if r = 0x858 then u32 (val 2) else if r = 0x854 then u32 (val 1)
          else if r = 0x850 then u32 (val 0) else vcap.regs r } := by
  simp [write_stxcr, reg_write, DCMIPP_P1STXCR]

theorem read_avg_stats_eq (lo hi : Nat) (vcap : dcmipp_statcap_device) (e : irq_event)
    (h : stat_region_pixels vcap ≠ 0) :
    dcmipp_statcap_read_avg_stats lo hi vcap e =
      some { vcap with local_buf := (avr_bins_update vcap.local_buf
          (decide (vcap.stat_location = DCMIPP_P1STXCR_SRC_LOC_PRE)) (fun a =>
          { a with average_RGB :=
                    ((a.average_RGB.set 0
                      (read_avg_scaled lo hi vcap e 0 / stat_region_pixels vcap)).set 1
                      (read_avg_scaled lo hi vcap e 1 / stat_region_pixels vcap)).set 2
                      (read_avg_scaled lo hi vcap e 2 / stat_region_pixels vcap) })) } := by
  have h' : u32 (vcap.stat_region.width * vcap.stat_region.height) ≠ 0 := h
  simp [dcmipp_statcap_read_avg_stats, read_avg_value, stat_region_pixels, h', read_avg_scaled,
    avr_bins_update_twice]

theorem irq_harvest_fields (lo hi : Nat) (s : dcmipp_statcap_device) (e : irq_event)
    (hn : stat_region_pixels s ≠ 0) :
    ∃ h, irq_harvest lo hi s e = some h ∧
      h.streaming = s.streaming ∧ h.stat_profile = s.stat_profile ∧
      h.stat_region = s.stat_region ∧ h.frame_format = s.frame_format ∧
      h.capture_state = s.capture_state ∧ h.prev_capture_state = s.prev_capture_state ∧
      h.buffers = s.buffers ∧ h.done = s.done ∧ h.sequence = s.sequence ∧
      h.stat_ready =
        (if s.capture_state = .COLD_START then false
         else if s.capture_state = .PHY_AV_RGB_SHA_BIN_0 ∧
            s.prev_capture_state = .PHY_BIN_3_SHA_AV_RGB ∧ s.stat_location = 0 then true
         else s.stat_ready) ∧
      h.stat_location =
        (if s.capture_state = .COLD_START then
          (if s.stat_profile = .V4L2_STAT_PROFILE_AVERAGE_POST then 1 else 0)
         else s.stat_location) := by
  obtain ⟨streaming, buffers, done, s_subdev, sequence, frame_format, stat_region, avg_filter,
    bin_comp, stat_profile, stat_location, stat_ready, capture_state, prev_capture_state, regs,
    local_buf⟩ := s
  simp only [stat_region_pixels] at hn
  by_cases h1 : prev_capture_state = .PHY_BIN_3_SHA_AV_RGB <;>
  by_cases h2 : stat_location = 0 <;>
  by_cases h3 : stat_profile = .V4L2_STAT_PROFILE_AVERAGE_POST <;>
  cases capture_state <;>
    simp [h1, h2, h3, irq_harvest, write_stxcr_eq, read_bins_eq,
      read_avg_stats_eq, stat_region_pixels, hn, DCMIPP_P1STXCR_SRC_LOC_PRE,
      DCMIPP_P1STXCR_SRC_LOC_POST]

theorem irq_finish_fields (v : dcmipp_statcap_device) (now : Nat) :
    ∃ d, irq_update_state (if v.stat_ready = true then dcmipp_statcap_buffer_done v now else v) = d ∧
      d.streaming = v.streaming ∧ d.stat_profile = v.stat_profile ∧
      d.stat_region = v.stat_region ∧ d.frame_format = v.frame_format ∧
      (v.stat_profile = .V4L2_STAT_PROFILE_FULL →
        d.stat_ready = v.stat_ready ∧
        d.prev_capture_state = v.capture_state ∧
        d.capture_state =
          (if v.capture_state.toNat < 5 then v.capture_state.succ else .PHY_AV_RGB_SHA_BIN_0) ∧
        d.stat_location =
          (if v.capture_state.toNat < 5 then v.stat_location else lnot v.stat_location)) ∧
      (v.stat_profile ≠ .V4L2_STAT_PROFILE_FULL →
        d.stat_ready = (v.stat_ready || decide (v.capture_state = .PHY_AV_RGB)) ∧
        d.prev_capture_state = v.prev_capture_state ∧
        d.capture_state =
          (if v.capture_state = .COLD_START then .PHY_AV_RGB
           else if v.capture_state = .PHY_AV_RGB then .AV_READ else v.capture_state) ∧
        d.stat_location = v.stat_location) ∧
      (v.stat_ready = false → d.buffers = v.buffers ∧ d.done = v.done ∧ d.sequence = v.sequence) := by
  obtain ⟨streaming, buffers, done, s_subdev, sequence, frame_format, stat_region, avg_filter,
    bin_comp, stat_profile, stat_location, stat_ready, capture_state, prev_capture_state, regs,
    local_buf⟩ := v
  cases stat_ready <;> cases stat_profile <;> cases capture_state <;> cases buffers <;>
    simp [irq_update_state, dcmipp_statcap_buffer_done, stat_capture_state.toNat,
      stat_capture_state.succ]

theorem irq_thread_vsync (lo hi : Nat) (s : dcmipp_statcap_device) (e : irq_event)
    (hs : s.streaming = true) (hv : is_vsync e) :
    dcmipp_statcap_irq_thread lo hi s e =
      (irq_harvest lo hi s e).map (fun v =>
        irq_update_state (if v.stat_ready = true then dcmipp_statcap_buffer_done v e.ktime else v)) := by
  have hv' : ¬ (e.cmsr2 &&& DCMIPP_CMSR2_P1VSYNCF = 0 ∧ e.cmsr2 &&& DCMIPP_CMSR2_P2VSYNCF = 0) := hv
  simp [dcmipp_statcap_irq_thread, hs, hv']

theorem irq_thread_full_step (lo hi : Nat) (s : dcmipp_statcap_device) (e : irq_event)
    (hs : s.streaming = true) (hv : is_vsync e)
    (hp : s.stat_profile = .V4L2_STAT_PROFILE_FULL)
    (hn : stat_region_pixels s ≠ 0) :
    ∃ h d, irq_harvest lo hi s e = some h ∧ dcmipp_statcap_irq_thread lo hi s e = some d ∧
      h.stat_ready =
        (if s.capture_state = .COLD_START then false
         else if s.capture_state = .PHY_AV_RGB_SHA_BIN_0 ∧
            s.prev_capture_state = .PHY_BIN_3_SHA_AV_RGB ∧ s.stat_location = 0 then true
         else s.stat_ready) ∧
      d.stat_ready = h.stat_ready ∧
      d.streaming = true ∧ d.stat_profile = .V4L2_STAT_PROFILE_FULL ∧
      d.stat_region = s.stat_region ∧ d.frame_format = s.frame_format ∧
      d.prev_capture_state = s.capture_state ∧
      d.capture_state =
        (if s.capture_state.toNat < 5 then s.capture_state.succ else .PHY_AV_RGB_SHA_BIN_0) ∧
      d.stat_location =
        (if s.capture_state.toNat < 5 then
          (if s.capture_state = .COLD_START then 0 else s.stat_location)
         else lnot s.stat_location) := by
  obtain ⟨h, hh, f1, f2, f3, f4, f5, f6, f7, f8, f9, f10, f11⟩ := irq_harvest_fields lo hi s e hn
  obtain ⟨d, hd, g1, g2, g3, g4, g5, -, -⟩ := irq_finish_fields h e.ktime
  obtain ⟨k1, k2, k3, k4⟩ := g5 (f2.trans hp)
  refine ⟨h, d, hh, ?_, f10, k1, g1.trans (f1.trans hs), g2.trans (f2.trans hp),
    g3.trans f3, g4.trans f4, k2.trans f5, ?_, ?_⟩
  · rw [irq_thread_vsync lo hi s e hs hv, hh]; simp [hd]
  · rw [k3, f5]
  · rw [k4, f5, f11, hp]
    by_cases hc : s.capture_state = .COLD_START
    · simp [hc, stat_capture_state.toNat]
    · simp [hc]

theorem irq_run_append (lo hi : Nat) (s : dcmipp_statcap_device) (es : List irq_event)
    (e : irq_event) :
    irq_run lo hi s (es ++ [e]) =
      (irq_run lo hi s es).bind (fun v => dcmipp_statcap_irq_thread lo hi v e) := by
  induction es generalizing s with
  | nil => simp [irq_run]
  | cons a as ih =>
    simp only [List.cons_append, irq_run]
    cases dcmipp_statcap_irq_thread lo hi s a with
    | none => rfl
    | some v => simpa using ih v

theorem toNat_inj (a b : stat_capture_state) : a = b ↔ a.toNat = b.toNat := by
  cases a <;> cases b <;> simp [stat_capture_state.toNat]

theorem toNat_COLD_START : stat_capture_state.COLD_START.toNat = 0 := rfl

theorem toNat_PHY_AV_RGB_SHA_BIN_0 : stat_capture_state.PHY_AV_RGB_SHA_BIN_0.toNat = 1 := rfl

theorem toNat_PHY_BIN_3_SHA_AV_RGB : stat_capture_state.PHY_BIN_3_SHA_AV_RGB.toNat = 5 := rfl

theorem succ_toNat (a : stat_capture_state) (h : a.toNat < 5) : a.succ.toNat = a.toNat + 1 := by
  cases a <;> simp_all [stat_capture_state.toNat, stat_capture_state.succ]

theorem full_run (lo hi : Nat) (s : dcmipp_statcap_device)
    (hs : s.streaming = true) (hp : s.stat_profile = .V4L2_STAT_PROFILE_FULL)
    (hc : s.capture_state = .COLD_START) (hn : stat_region_pixels s ≠ 0)
    (es : List irq_event) (hv : ∀ e ∈ es, is_vsync e) :
    ∃ d, irq_run lo hi s es = some d ∧ d.streaming = true ∧
      d.stat_profile = .V4L2_STAT_PROFILE_FULL ∧ d.stat_region = s.stat_region ∧
      d.frame_format = s.frame_format ∧
      (es.length = 0 → d.capture_state.toNat = 0) ∧
      (1 ≤ es.length → d.capture_state.toNat = (es.length - 1) % 5 + 1) ∧
      (es.length = 1 → d.prev_capture_state.toNat = 0) ∧
      (2 ≤ es.length → d.prev_capture_state.toNat = (es.length - 2) % 5 + 1) ∧
      (1 ≤ es.length → d.stat_location = (es.length - 1) / 5 % 2) ∧
      (1 ≤ es.length → (d.stat_ready = true ↔ 12 ≤ es.length)) := by
  induction es using List.reverseRecOn with
  | nil =>
    exact ⟨s, rfl, hs, hp, rfl, rfl, by simp [hc, stat_capture_state.toNat], by simp, by simp,
      by simp, by simp, by simp⟩
  | append_singleton es e ih =>
    obtain ⟨d0, hr, i1, i2, i3, i4, i5, i5', i6, i7, i8, i9⟩ :=
      ih (fun x hx => hv x (List.mem_append_left _ hx))
    have hn0 : stat_region_pixels d0 ≠ 0 := by
      simpa [stat_region_pixels, i3] using hn
    obtain ⟨h, d, -, hd, f1, f2, f3, f4, f5, f6, f7, f8, f9⟩ :=
      irq_thread_full_step lo hi d0 e i1 (hv e (by simp)) i2 hn0
    simp only [toNat_inj, toNat_COLD_START, toNat_PHY_AV_RGB_SHA_BIN_0,
      toNat_PHY_BIN_3_SHA_AV_RGB] at f1 f9
    have c1 : d0.capture_state.toNat < 5 → d.capture_state.toNat = d0.capture_state.toNat + 1 :=
      fun hlt => by rw [f8, if_pos hlt, succ_toNat _ hlt]
    have c2 : ¬ d0.capture_state.toNat < 5 → d.capture_state.toNat = 1 :=
      fun hlt => by rw [f8, if_neg hlt]; rfl
    have c3 : d.prev_capture_state.toNat = d0.capture_state.toNat := by rw [f7]
    refine ⟨d, by rw [irq_run_append, hr]; simpa using hd, f3, f4, f5.trans i3, f6.trans i4,
      ?_, ?_, ?_, ?_, ?_, ?_⟩
    all_goals simp only [List.length_append, List.length_singleton]
    · omega
    · omega
    · omega
    · omega
    · intro _
      rw [f9]
      unfold lnot
      split_ifs <;> omega
    · intro _
      rw [f2, f1]
      by_cases hz : es.length = 0
      · simp [i5 hz, hz]
      · have i8' := i8 (by omega)
        have i9' := i9 (by omega)
        by_cases h1 : es.length = 1
        · have h6 := i6 h1
          have hpr : ¬ d0.prev_capture_state.toNat = 5 := by omega
          have hcs : ¬ d0.capture_state.toNat = 0 := by omega
          simp only [hcs, hpr, if_false, false_and, and_false]
          rw [i9']; omega
        · have i7' := i7 (by omega)
          split_ifs with c1 c2
          · omega
          · simp; omega
          · rw [i9']
            constructor
            · intro h12; omega
            · intro h12
              by_contra _
              apply c2
              omega

/-- Under the full profile `stat_ready` is true at the test of a VSYNC exactly from the
twelfth VSYNC after `COLD_START` on. -/
theorem full_ready_at_test (lo hi : Nat) (s : dcmipp_statcap_device)
    (es : List irq_event) (e : irq_event)
    (hs : s.streaming = true) (hp : s.stat_profile = .V4L2_STAT_PROFILE_FULL)
    (hc : s.capture_state = .COLD_START) (hn : stat_region_pixels s ≠ 0)
    (hv : ∀ x ∈ es ++ [e], is_vsync x) :
    (irq_at_test lo hi s es e).map (fun h => h.stat_ready) =
      some (decide (12 ≤ es.length + 1)) := by
  obtain ⟨d0, hr, i1, i2, i3, -⟩ :=
    full_run lo hi s hs hp hc hn es (fun x hx => hv x (List.mem_append_left _ hx))
  obtain ⟨d, hd, -, -, -, -, -, -, -, -, -, i9⟩ := full_run lo hi s hs hp hc hn (es ++ [e]) hv
  have hn0 : stat_region_pixels d0 ≠ 0 := by
    simpa [stat_region_pixels, i3] using hn
  obtain ⟨h, d', hh, hd', -, f2, -⟩ :=
    irq_thread_full_step lo hi d0 e i1 (hv e (by simp)) i2 hn0
  have hdd : d = d' := by
    rw [irq_run_append, hr] at hd
    have hd2 : dcmipp_statcap_irq_thread lo hi d0 e = some d := by simpa using hd
    rw [hd'] at hd2
    exact (Option.some.inj hd2).symm
  have h9 := i9 (by simp)
  simp only [List.length_append, List.length_singleton] at h9
  rw [hdd, f2] at h9
  have hat : irq_at_test lo hi s es e = some h := by simp [irq_at_test, hr, hh]
  rw [hat]
  by_cases h12 : 12 ≤ es.length + 1
  · simp [h12, h9.mpr h12]
  · have : h.stat_ready ≠ true := fun hc => h12 (h9.mp hc)
    simp [h12, this]

theorem irq_thread_average_step (lo hi : Nat) (s : dcmipp_statcap_device) (e : irq_event)
    (hs : s.streaming = true) (hv : is_vsync e)
    (hp : s.stat_profile ≠ .V4L2_STAT_PROFILE_FULL)
    (hn : stat_region_pixels s ≠ 0) :
    ∃ d, dcmipp_statcap_irq_thread lo hi s e = some d ∧
      d.streaming = true ∧ d.stat_profile = s.stat_profile ∧ d.stat_region = s.stat_region ∧
      (s.capture_state = .COLD_START →
        d.capture_state = .PHY_AV_RGB ∧ d.stat_ready = false ∧
        d.stat_location = (if s.stat_profile = .V4L2_STAT_PROFILE_AVERAGE_POST then 1 else 0) ∧
        d.buffers = s.buffers ∧ d.done = s.done ∧ d.sequence = s.sequence) ∧
      (s.capture_state = .PHY_AV_RGB →
        d.capture_state = .AV_READ ∧ d.stat_ready = true ∧ d.stat_location = s.stat_location ∧
        (s.stat_ready = false →
          d.buffers = s.buffers ∧ d.done = s.done ∧ d.sequence = s.sequence)) ∧
      (s.capture_state = .AV_READ →
        d.capture_state = .AV_READ ∧ d.stat_ready = s.stat_ready ∧
        d.stat_location = s.stat_location) := by
  obtain ⟨h, hh, f1, f2, f3, f4, f5, f6, f7, f8, f9, f10, f11⟩ := irq_harvest_fields lo hi s e hn
  obtain ⟨d, hd, g1, g2, g3, g4, -, g6, g7⟩ := irq_finish_fields h e.ktime
  obtain ⟨k1, k2, k3, k4⟩ := g6 (by rw [f2]; exact hp)
  refine ⟨d, by rw [irq_thread_vsync lo hi s e hs hv, hh]; simp [hd], g1.trans (f1.trans hs),
    g2.trans f2, g3.trans f3, ?_, ?_, ?_⟩
  · intro hc
    have hr : h.stat_ready = false := by rw [f10]; simp [hc]
    obtain ⟨q1, q2, q3⟩ := g7 hr
    refine ⟨by rw [k3, f5]; simp [hc], by rw [k1, hr, f5, hc]; rfl, by rw [k4, f11]; simp [hc],
      q1.trans f7, q2.trans f8, q3.trans f9⟩
  · intro hc
    refine ⟨by rw [k3, f5]; simp [hc], by rw [k1, f5, hc]; simp, by rw [k4, f11]; simp [hc], ?_⟩
    intro hr0
    have hr : h.stat_ready = false := by rw [f10]; simp [hc, hr0]
    obtain ⟨q1, q2, q3⟩ := g7 hr
    exact ⟨q1.trans f7, q2.trans f8, q3.trans f9⟩
  · intro hc
    refine ⟨by rw [k3, f5]; simp [hc], by rw [k1, f5, hc, f10]; simp [hc],
      by rw [k4, f11]; simp [hc]⟩

theorem u32_succ' (n : Nat) : u32 (n % 4294967296 + 1) = (n + 1) % 4294967296 := by
  unfold u32; omega

theorem queue_run_invariant (lb : stm32_dcmipp_stat_buf) (cs : List queue_call) :
    ∀ (v : dcmipp_statcap_device) (A : List dcmipp_buf),
      v.local_buf = lb → A.length = v.done.length → A.map (fun b => b.id) = v.done.map (fun b => b.id) →
      v.sequence = v.done.length % 4294967296 →
      (∀ j b, v.done[j]? = some b → b.sequence = j % 4294967296 ∧
        b.state = .VB2_BUF_STATE_DONE ∧ b.data = lb ∧ b.bytesused = sizeof_stat_buf) →
      ∃ A', A ++ v.buffers ++ queued_by cs = A' ++ (queue_run v cs).buffers ∧
        A'.length = (queue_run v cs).done.length ∧
        A'.map (fun b => b.id) = (queue_run v cs).done.map (fun b => b.id) ∧
        (queue_run v cs).sequence = (queue_run v cs).done.length % 4294967296 ∧
        (∀ j b, (queue_run v cs).done[j]? = some b → b.sequence = j % 4294967296 ∧
          b.state = .VB2_BUF_STATE_DONE ∧ b.data = lb ∧ b.bytesused = sizeof_stat_buf) := by
  induction cs with
  | nil =>
    intro v A h1 h2 h3 h4 h5
    exact ⟨A, by simp [queued_by, queue_run], by simpa [queue_run] using h2,
      by simpa [queue_run] using h3, by simpa [queue_run] using h4, by simpa [queue_run] using h5⟩
  | cons c cs ih =>
    intro v A h1 h2 h3 h4 h5
    cases c with
    | buf_queue b =>
      obtain ⟨A', k1, k2⟩ := ih (dcmipp_statcap_buf_queue v b) A h1 h2 h3 h4 h5
      refine ⟨A', ?_, k2⟩
      simp only [queue_run, queued_by]
      rw [← k1]
      simp [dcmipp_statcap_buf_queue]
    | buffer_done now =>
      cases hb : v.buffers with
      | nil =>
        have hv : dcmipp_statcap_buffer_done v now = v := by
          simp [dcmipp_statcap_buffer_done, hb]
        obtain ⟨A', k1, k2⟩ := ih v A h1 h2 h3 h4 h5
        refine ⟨A', ?_, ?_⟩
        · simp only [queue_run, queued_by, hv]
          rw [← k1, hb]
        · simpa [queue_run, hv] using k2
      | cons c rest =>
        have hbuf : (dcmipp_statcap_buffer_done v now).buffers = rest := by
          simp [dcmipp_statcap_buffer_done, hb]
        have hdone : (dcmipp_statcap_buffer_done v now).done = v.done ++
            [{ c with data := v.local_buf, bytesused := sizeof_stat_buf, sequence := v.sequence,
                      timestamp := now, state := .VB2_BUF_STATE_DONE }] := by
          simp [dcmipp_statcap_buffer_done, hb]
        have hseq : (dcmipp_statcap_buffer_done v now).sequence = u32 (v.sequence + 1) := by
          simp [dcmipp_statcap_buffer_done, hb]
        have hlb : (dcmipp_statcap_buffer_done v now).local_buf = lb := by
          simp [dcmipp_statcap_buffer_done, hb, h1]
        obtain ⟨A', k1, k2⟩ := ih (dcmipp_statcap_buffer_done v now) (A ++ [c]) hlb
          (by simp [hdone, h2]) (by simp [hdone, h3])
          (by rw [hseq, hdone, h4, u32_succ']; simp)
          (by
            intro j b hj
            rw [hdone] at hj
            by_cases hlt : j < v.done.length
            · rw [List.getElem?_append_left hlt] at hj
              exact h5 j b hj
            · have hge : v.done.length ≤ j := Nat.le_of_not_lt hlt
              rw [List.getElem?_append_right hge] at hj
              rcases Nat.eq_zero_or_pos (j - v.done.length) with hz | hpos
              · rw [hz] at hj
                simp at hj
                subst hj
                have : j = v.done.length := by omega
                simp [h4, h1, this]
              · obtain ⟨m, hm⟩ : ∃ m, j - v.done.length = m + 1 :=
                  ⟨_, (Nat.succ_pred_eq_of_pos hpos).symm⟩
                rw [hm] at hj
                simp at hj)
        refine ⟨A', ?_, ?_⟩
        · simp only [queue_run, queued_by]
          rw [← k1, hbuf]; simp
        · simpa [queue_run] using k2

theorem queue_done_rounds_succ (v : dcmipp_statcap_device) (b : dcmipp_buf) (now n : Nat)
    (hb : (queue_done_rounds v b now n).buffers = []) :
    (queue_done_rounds v b now (n + 1)).buffers = [] ∧
    (queue_done_rounds v b now (n + 1)).sequence =
      u32 ((queue_done_rounds v b now n).sequence + 1) ∧
    (queue_done_rounds v b now (n + 1)).done =
      (queue_done_rounds v b now n).done ++
        [{ b with data := (queue_done_rounds v b now n).local_buf, bytesused := sizeof_stat_buf,
                  sequence := (queue_done_rounds v b now n).sequence, timestamp := now,
                  state := .VB2_BUF_STATE_DONE }] := by
  simp [queue_done_rounds, dcmipp_statcap_buf_queue, dcmipp_statcap_buffer_done, hb]

theorem queue_done_rounds_spec (v : dcmipp_statcap_device) (b : dcmipp_buf) (now : Nat)
    (hb : v.buffers = []) (hs : v.sequence = 0) (hd : v.done = []) (n : Nat) :
    (queue_done_rounds v b now n).buffers = [] ∧
    (queue_done_rounds v b now n).sequence = n % 4294967296 ∧
    (queue_done_rounds v b now n).done.length = n := by
  induction n with
  | zero => simp [queue_done_rounds, hb, hs, hd]
  | succ n ih =>
    obtain ⟨h1, h2, h3⟩ := queue_done_rounds_succ v b now n ih.1
    refine ⟨h1, ?_, ?_⟩
    · rw [h2, ih.2.1, u32_succ']
    · rw [h3, List.length_append, ih.2.2]; rfl

/-- The accumulator at the test of the twelfth VSYNC after `COLD_START`, slot by slot. -/
theorem full_first_ready_buf (lo hi : Nat) (s : dcmipp_statcap_device)
    (e1 e2 e3 e4 e5 e6 e7 e8 e9 e10 e11 e12 : irq_event)
    (hs : s.streaming = true) (hp : s.stat_profile = .V4L2_STAT_PROFILE_FULL)
    (hc : s.capture_state = .COLD_START) (hn : stat_region_pixels s ≠ 0)
    (hv : ∀ x ∈ [e1, e2, e3, e4, e5, e6, e7, e8, e9, e10, e11, e12], is_vsync x) :
    ∃ h, irq_at_test lo hi s [e1, e2, e3, e4, e5, e6, e7, e8, e9, e10, e11] e12 = some h ∧
      h.stat_ready = true ∧
      h.local_buf =
        { pre :=
            { average_RGB :=
                [read_avg_scaled lo hi { s with stat_location := DCMIPP_P1STXCR_SRC_LOC_PRE } e3 0 /
                    stat_region_pixels s,
                 read_avg_scaled lo hi { s with stat_location := DCMIPP_P1STXCR_SRC_LOC_PRE } e3 1 /
                    stat_region_pixels s,
                 read_avg_scaled lo hi { s with stat_location := DCMIPP_P1STXCR_SRC_LOC_PRE } e3 2 /
                    stat_region_pixels s],
              bins :=
                [u32 e4.P1STXSR0, u32 e4.P1STXSR1, u32 e4.P1STXSR2,
                 u32 e5.P1STXSR0, u32 e5.P1STXSR1, u32 e5.P1STXSR2,
                 u32 e6.P1STXSR0, u32 e6.P1STXSR1, u32 e6.P1STXSR2,
                 u32 e7.P1STXSR0, u32 e7.P1STXSR1, u32 e7.P1STXSR2] },
          post :=
            { average_RGB :=
                [read_avg_scaled lo hi { s with stat_location := DCMIPP_P1STXCR_SRC_LOC_POST } e8 0 /
                    stat_region_pixels s,
                 read_avg_scaled lo hi { s with stat_location := DCMIPP_P1STXCR_SRC_LOC_POST } e8 1 /
                    stat_region_pixels s,
                 read_avg_scaled lo hi { s with stat_location := DCMIPP_P1STXCR_SRC_LOC_POST } e8 2 /
                    stat_region_pixels s],
              bins :=
                [u32 e9.P1STXSR0, u32 e9.P1STXSR1, u32 e9.P1STXSR2,
                 u32 e10.P1STXSR0, u32 e10.P1STXSR1, u32 e10.P1STXSR2,
                 u32 e11.P1STXSR0, u32 e11.P1STXSR1, u32 e11.P1STXSR2,
                 u32 e12.P1STXSR0, u32 e12.P1STXSR1, u32 e12.P1STXSR2] },
          bad_pixel_count := u32 e12.P1BPRSR &&& DCMIPP_P1BPRSR_BADCNT_MASK } := by
  obtain ⟨streaming, buffers, done, s_subdev, sequence, frame_format, stat_region, avg_filter,
    bin_comp, stat_profile, stat_location, stat_ready, capture_state, prev_capture_state, regs,
    local_buf⟩ := s
  simp only [stat_region_pixels] at hs hp hc hn
  subst hs hp hc
  simp only [List.mem_cons, List.mem_singleton, forall_eq_or_imp, forall_eq, List.not_mem_nil,
    IsEmpty.forall_iff, implies_true, and_true] at hv
  obtain ⟨v1, v2, v3, v4, v5, v6, v7, v8, v9, v10, v11, v12⟩ := hv
  simp [irq_at_test, irq_run, irq_thread_vsync, v1, v2, v3, v4, v5, v6, v7, v8, v9, v10, v11,
    irq_harvest, write_stxcr_eq, read_bins_eq, read_avg_stats_eq, stat_region_pixels, hn,
    irq_update_state, stat_capture_state.toNat, stat_capture_state.succ,
    DCMIPP_P1STXCR_SRC_LOC_PRE, DCMIPP_P1STXCR_SRC_LOC_POST, lnot, stat_buf_zero,
    avr_bins_update, read_avg_scaled, reg_read, DCMIPP_P1BPRSR, DCMIPP_P1STXSR]

/-- The first eleven VSYNCs after `COLD_START` under the full profile leave the queue,
the completed buffers and the sequence counter untouched. -/
theorem full_first_eleven_queue (lo hi : Nat) (s : dcmipp_statcap_device)
    (e1 e2 e3 e4 e5 e6 e7 e8 e9 e10 e11 : irq_event)
    (hs : s.streaming = true) (hp : s.stat_profile = .V4L2_STAT_PROFILE_FULL)
    (hc : s.capture_state = .COLD_START) (hn : stat_region_pixels s ≠ 0)
    (hv : ∀ x ∈ [e1, e2, e3, e4, e5, e6, e7, e8, e9, e10, e11], is_vsync x) :
    ∃ d, irq_run lo hi s [e1, e2, e3, e4, e5, e6, e7, e8, e9, e10, e11] = some d ∧
      d.done = s.done ∧ d.buffers = s.buffers ∧ d.sequence = s.sequence := by
  obtain ⟨streaming, buffers, done, s_subdev, sequence, frame_format, stat_region, avg_filter,
    bin_comp, stat_profile, stat_location, stat_ready, capture_state, prev_capture_state, regs,
    local_buf⟩ := s
  simp only [stat_region_pixels] at hs hp hc hn
  subst hs hp hc
  simp only [List.mem_cons, List.mem_singleton, forall_eq_or_imp, forall_eq, List.not_mem_nil,
    IsEmpty.forall_iff, implies_true, and_true] at hv
  obtain ⟨v1, v2, v3, v4, v5, v6, v7, v8, v9, v10, v11⟩ := hv
  simp [irq_run, irq_thread_vsync, v1, v2, v3, v4, v5, v6, v7, v8, v9, v10, v11,
    irq_harvest, write_stxcr_eq, read_bins_eq, read_avg_stats_eq, stat_region_pixels, hn,
    irq_update_state, stat_capture_state.toNat, stat_capture_state.succ,
    DCMIPP_P1STXCR_SRC_LOC_PRE, DCMIPP_P1STXCR_SRC_LOC_POST, lnot, stat_buf_zero,
    avr_bins_update, read_avg_scaled, reg_read, DCMIPP_P1BPRSR, DCMIPP_P1STXSR]

/-! ## The claims -/

/-- C1, as the claim states it, fails: from `COLD_START` under the full profile
`stat_ready` is true at the test of the 12th VSYNC and again at the test of the
13th, so it is not limited to one VSYNC in ten. -/
theorem full_profile_ready_on_consecutive_vsyncs :
    (irq_at_test 0x3001 0x3020 sample_device (sample_events 11) (sample_event 12)).map
        (fun h => h.stat_ready) = some true ∧
    (irq_at_test 0x3001 0x3020 sample_device (sample_events 12) (sample_event 13)).map
        (fun h => h.stat_ready) = some true := by
  decide

/-- C1, amended: under the full profile, from `COLD_START`, with VSYNC interrupts
only and a region of non-zero pixel count, `stat_ready` is false at the test of each
of the first eleven VSYNCs and true at the test of every VSYNC from the twelfth on. -/
theorem full_profile_ready_from_twelfth_vsync (lo hi : Nat) (s : dcmipp_statcap_device)
    (es : List irq_event) (e : irq_event)
    (hs : s.streaming = true) (hp : s.stat_profile = .V4L2_STAT_PROFILE_FULL)
    (hc : s.capture_state = .COLD_START) (hn : stat_region_pixels s ≠ 0)
    (hv : ∀ x ∈ es ++ [e], is_vsync x) :
    (irq_at_test lo hi s es e).map (fun h => h.stat_ready) =
      some (decide (12 ≤ es.length + 1)) :=
  full_ready_at_test lo hi s es e hs hp hc hn hv

/-- Witness of `full_profile_ready_from_twelfth_vsync`: the 13th VSYNC of the sample run. -/
theorem full_profile_ready_from_twelfth_vsync_witness :
    (irq_at_test 0x3001 0x3020 sample_device (sample_events 12) (sample_event 13)).map
      (fun h => h.stat_ready) = some (decide (12 ≤ (sample_events 12).length + 1)) :=
  full_profile_ready_from_twelfth_vsync 0x3001 0x3020 sample_device (sample_events 12)
    (sample_event 13) rfl rfl rfl (by decide) (by decide)

/-- C2, as the claim states it, fails: at the 12th VSYNC of the sample run
`stat_ready` is true at the test, `dcmipp_statcap_buffer_done` completes the first
buffer, and `stat_ready` is still true when the step returns. -/
theorem stat_ready_survives_completion :
    (irq_at_test 0x3001 0x3020 sample_device (sample_events 11) (sample_event 12)).map
        (fun h => h.stat_ready) = some true ∧
    (irq_run 0x3001 0x3020 sample_device (sample_events 11)).map
        (fun d => d.done.map (fun b => b.id)) = some [] ∧
    (irq_run 0x3001 0x3020 sample_device (sample_events 11 ++ [sample_event 12])).map
        (fun d => (d.done.map (fun b => b.id), d.stat_ready)) = some ([1], true) := by
  decide

/-- C2, amended: for every VSYNC step of `dcmipp_statcap_irq_thread` in which
`stat_ready` is true at the test, whether or not a buffer is completed, the step
returns with `stat_ready` still true. -/
theorem stat_ready_kept_by_step (lo hi : Nat) (s h : dcmipp_statcap_device) (e : irq_event)
    (hs : s.streaming = true) (hv : is_vsync e)
    (hh : irq_harvest lo hi s e = some h) (hr : h.stat_ready = true) :
    ∃ d, dcmipp_statcap_irq_thread lo hi s e = some d ∧ d.stat_ready = true := by
  obtain ⟨d, hd, -, -, -, -, g5, g6, -⟩ := irq_finish_fields h e.ktime
  refine ⟨d, by rw [irq_thread_vsync lo hi s e hs hv, hh]; simp [hd], ?_⟩
  by_cases hp : h.stat_profile = .V4L2_STAT_PROFILE_FULL
  · rw [(g5 hp).1, hr]
  · rw [(g6 hp).1, hr]; rfl

/-- Witness of `stat_ready_kept_by_step`: a VSYNC in `AV_READ` with `stat_ready` set. -/
theorem stat_ready_kept_by_step_witness :
    ∃ d, dcmipp_statcap_irq_thread 0x3001 0x3020 sample_av_read_device (sample_event 3) = some d ∧
      d.stat_ready = true :=
  stat_ready_kept_by_step 0x3001 0x3020 sample_av_read_device _ (sample_event 3) rfl
    (by decide) rfl rfl

/-- C3: under the full profile, from `COLD_START`, with twelve VSYNCs `e1` to `e12`
and no control change, `stat_ready` is false at the test of each of the first
eleven VSYNCs, which complete no buffer, and true at the test of the twelfth; at
that point every slot of the accumulator holds a value read from the accumulator registers after the zeroing:
`pre.average_RGB` from `e3`, `pre.bins` from `e4` to `e7`, `post.average_RGB` from
`e8`, `post.bins` from `e9` to `e12`. -/
theorem full_profile_first_ready_complete (lo hi : Nat) (s : dcmipp_statcap_device)
    (e1 e2 e3 e4 e5 e6 e7 e8 e9 e10 e11 e12 : irq_event)
    (hs : s.streaming = true) (hp : s.stat_profile = .V4L2_STAT_PROFILE_FULL)
    (hc : s.capture_state = .COLD_START) (hn : stat_region_pixels s ≠ 0)
    (hv : ∀ x ∈ [e1, e2, e3, e4, e5, e6, e7, e8, e9, e10, e11, e12], is_vsync x) :
    (∀ (es : List irq_event) (e : irq_event) (rest : List irq_event),
      es ++ e :: rest = [e1, e2, e3, e4, e5, e6, e7, e8, e9, e10, e11, e12] → rest ≠ [] →
      (irq_at_test lo hi s es e).map (fun h => h.stat_ready) = some false) ∧
    (∃ d, irq_run lo hi s [e1, e2, e3, e4, e5, e6, e7, e8, e9, e10, e11] = some d ∧
      d.done = s.done ∧ d.buffers = s.buffers ∧ d.sequence = s.sequence) ∧
    ∃ h, irq_at_test lo hi s [e1, e2, e3, e4, e5, e6, e7, e8, e9, e10, e11] e12 = some h ∧
      h.stat_ready = true ∧
      h.local_buf =
        { pre :=
            { average_RGB :=
                [read_avg_scaled lo hi { s with stat_location := DCMIPP_P1STXCR_SRC_LOC_PRE } e3 0 /
                    stat_region_pixels s,
                 read_avg_scaled lo hi { s with stat_location := DCMIPP_P1STXCR_SRC_LOC_PRE } e3 1 /
                    stat_region_pixels s,
                 read_avg_scaled lo hi { s with stat_location := DCMIPP_P1STXCR_SRC_LOC_PRE } e3 2 /
                    stat_region_pixels s],
              bins :=
                [u32 e4.P1STXSR0, u32 e4.P1STXSR1, u32 e4.P1STXSR2,
                 u32 e5.P1STXSR0, u32 e5.P1STXSR1, u32 e5.P1STXSR2,
                 u32 e6.P1STXSR0, u32 e6.P1STXSR1, u32 e6.P1STXSR2,
                 u32 e7.P1STXSR0, u32 e7.P1STXSR1, u32 e7.P1STXSR2] },
          post :=
            { average_RGB :=
                [read_avg_scaled lo hi { s with stat_location := DCMIPP_P1STXCR_SRC_LOC_POST } e8 0 /
                    stat_region_pixels s,
                 read_avg_scaled lo hi { s with stat_location := DCMIPP_P1STXCR_SRC_LOC_POST } e8 1 /
                    stat_region_pixels s,
                 read_avg_scaled lo hi { s with stat_location := DCMIPP_P1STXCR_SRC_LOC_POST } e8 2 /
                    stat_region_pixels s],
              bins :=
                [u32 e9.P1STXSR0, u32 e9.P1STXSR1, u32 e9.P1STXSR2,
                 u32 e10.P1STXSR0, u32 e10.P1STXSR1, u32 e10.P1STXSR2,
                 u32 e11.P1STXSR0, u32 e11.P1STXSR1, u32 e11.P1STXSR2,
                 u32 e12.P1STXSR0, u32 e12.P1STXSR1, u32 e12.P1STXSR2] },
          bad_pixel_count := u32 e12.P1BPRSR &&& DCMIPP_P1BPRSR_BADCNT_MASK } := by
  refine ⟨?_,
    full_first_eleven_queue lo hi s e1 e2 e3 e4 e5 e6 e7 e8 e9 e10 e11 hs hp hc hn
      (fun x hx => hv x (by
        simp only [List.mem_cons, List.mem_singleton, List.not_mem_nil, or_false] at hx ⊢
        tauto)),
    full_first_ready_buf lo hi s e1 e2 e3 e4 e5 e6 e7 e8 e9 e10 e11 e12 hs hp hc hn hv⟩
  intro es e rest hsplit hrest
  have hv2 : ∀ x ∈ es ++ [e], is_vsync x := by
    intro x hx
    apply hv
    rw [← hsplit]
    simp only [List.mem_append, List.mem_singleton, List.mem_cons] at hx ⊢
    tauto
  rw [full_ready_at_test lo hi s es e hs hp hc hn hv2]
  have hl := congrArg List.length hsplit
  simp only [List.length_append, List.length_cons, List.length_nil] at hl
  have hr : 0 < rest.length := List.length_pos.mpr hrest
  have : ¬ 12 ≤ es.length + 1 := by omega
  simp [this]

/-- Witness of `full_profile_first_ready_complete`: the first twelve sample VSYNCs;
the twelfth finds `stat_ready` set. -/
theorem full_profile_first_ready_complete_witness :
    ∃ h, irq_at_test 0x3001 0x3020 sample_device
        [sample_event 1, sample_event 2, sample_event 3, sample_event 4, sample_event 5,
         sample_event 6, sample_event 7, sample_event 8, sample_event 9, sample_event 10,
         sample_event 11] (sample_event 12) = some h ∧ h.stat_ready = true := by
  obtain ⟨h, h1, h2, -⟩ := (full_profile_first_ready_complete 0x3001 0x3020 sample_device
    (sample_event 1) (sample_event 2) (sample_event 3) (sample_event 4) (sample_event 5)
    (sample_event 6) (sample_event 7) (sample_event 8) (sample_event 9) (sample_event 10)
    (sample_event 11) (sample_event 12) rfl rfl rfl (by decide) (by decide)).2.2
  exact ⟨h, h1, h2⟩

/-- C4: the region write that selects the whole frame is accepted and leaves
`capture_state` as it was. After three VSYNCs of the sample run the device is in
`PHY_BIN_1_SHA_BIN_2`; the write returns 0, replaces the 100x100 region by the
640x480 frame and the state is still `PHY_BIN_1_SHA_BIN_2`. -/
theorem whole_frame_region_keeps_capture_state :
    (irq_run 0x3001 0x3020 sample_device (sample_events 3)).map (fun d =>
      (d.capture_state, d.stat_region.width, d.stat_region.height)) =
      some (.PHY_BIN_1_SHA_BIN_2, 100, 100) ∧
    (irq_run 0x3001 0x3020 sample_device (sample_events 3)).map (fun d =>
      (dcmipp_statcap_s_ctrl d whole_frame_region sample_ctrl_env).1) = some 0 ∧
    (irq_run 0x3001 0x3020 sample_device (sample_events 3)).map (fun d =>
      let r := dcmipp_statcap_s_ctrl d whole_frame_region sample_ctrl_env
      (r.2.capture_state, r.2.stat_region.width, r.2.stat_region.height)) =
      some (.PHY_BIN_1_SHA_BIN_2, 640, 480) := by
  decide

/-- C5: after thirteen VSYNCs of the sample run the whole-frame region write is
accepted; at the next VSYNC `stat_ready` is still true at the test, the
accumulator is not zeroed, and the third buffer is completed with POST bins harvested
at VSYNCs 9 to 12, before the write. -/
theorem whole_frame_region_delivers_stale_statistics :
    (irq_run 0x3001 0x3020 sample_device (sample_events 13)).map (fun d13 =>
      let r := dcmipp_statcap_s_ctrl d13 whole_frame_region sample_ctrl_env
      (r.1, r.2.stat_region.width, r.2.stat_region.height)) = some (0, 640, 480) ∧
    (irq_run 0x3001 0x3020 sample_device (sample_events 13)).bind (fun d13 =>
      let r := dcmipp_statcap_s_ctrl d13 whole_frame_region sample_ctrl_env
      (irq_at_test 0x3001 0x3020 r.2 [] (sample_event 14)).map (fun h =>
        (h.stat_ready, h.local_buf.post.bins))) =
      some (true,
        [9001, 9002, 9003, 10001, 10002, 10003, 11001, 11002, 11003, 12001, 12002, 12003]) ∧
    (irq_run 0x3001 0x3020 sample_device (sample_events 13)).bind (fun d13 =>
      let r := dcmipp_statcap_s_ctrl d13 whole_frame_region sample_ctrl_env
      (dcmipp_statcap_irq_thread 0x3001 0x3020 r.2 (sample_event 14)).map (fun d14 =>
        (d13.done.map (fun b => b.id), d14.done.map (fun b => b.id),
          d14.done.getLast?.map (fun b => b.data.post.bins)))) =
      some ([1, 2], [1, 2, 3],
        some [9001, 9002, 9003, 10001, 10002, 10003, 11001, 11002, 11003, 12001, 12002,
          12003]) := by
  decide

/-- C6: at the PRE location with a raw Bayer source format and a region whose
32-bit pixel count is not zero, `dcmipp_statcap_read_avg_stats` stores
`((R << 8) * 4) / (w * h)` for red and blue and `((R << 8) * 2) / (w * h)` for
green, every operation truncated to 32 bits; for a 100x100 region and register
values below `2 ^ 22` these are `R * 1024 / 10000` and `R * 512 / 10000`. -/
theorem read_avg_stats_bayer_pre (lo hi : Nat) (vcap : dcmipp_statcap_device) (e : irq_event)
    (hloc : vcap.stat_location = DCMIPP_P1STXCR_SRC_LOC_PRE)
    (hfmt : lo ≤ vcap.frame_format ∧ vcap.frame_format ≤ hi)
    (hpix : u32 (vcap.stat_region.width * vcap.stat_region.height) ≠ 0)
    (hlen : vcap.local_buf.pre.average_RGB.length = 3) :
    ∃ v, dcmipp_statcap_read_avg_stats lo hi vcap e = some v ∧
      v.local_buf.pre.average_RGB =
        [u32 (u32 (u32 e.P1STXSR0 <<< 8) * 4) /
            u32 (vcap.stat_region.width * vcap.stat_region.height),
         u32 (u32 (u32 e.P1STXSR1 <<< 8) * 2) /
            u32 (vcap.stat_region.width * vcap.stat_region.height),
         u32 (u32 (u32 e.P1STXSR2 <<< 8) * 4) /
            u32 (vcap.stat_region.width * vcap.stat_region.height)] ∧
      (vcap.stat_region.width = 100 → vcap.stat_region.height = 100 →
        e.P1STXSR0 < 2 ^ 22 → e.P1STXSR1 < 2 ^ 22 → e.P1STXSR2 < 2 ^ 22 →
        v.local_buf.pre.average_RGB =
          [e.P1STXSR0 * 1024 / 10000, e.P1STXSR1 * 512 / 10000, e.P1STXSR2 * 1024 / 10000]) := by
  have hp : stat_region_pixels vcap ≠ 0 := hpix
  refine ⟨_, read_avg_stats_eq lo hi vcap e hp, ?_, ?_⟩
  · simp [avr_bins_update, hloc, set3 _ hlen, read_avg_scaled, hfmt, stat_region_pixels,
      reg_read, DCMIPP_P1STXSR, DCMIPP_P1BPRSR, COMP_RED, COMP_GREEN, COMP_BLUE,
      DCMIPP_P1STXCR_SRC_LOC_PRE]
  · intro hw hh h0 h1 h2
    simp only [avr_bins_update, hloc, set3 _ hlen, read_avg_scaled, hfmt, stat_region_pixels,
      reg_read, DCMIPP_P1STXSR, DCMIPP_P1BPRSR, COMP_RED, COMP_GREEN, COMP_BLUE,
      DCMIPP_P1STXCR_SRC_LOC_PRE, hw, hh, u32, Nat.shiftLeft_eq]
    norm_num at h0 h1 h2 ⊢
    exact ⟨by omega, by omega, by omega⟩

/-- Witness of `read_avg_stats_bayer_pre`: the sample device (PRE, Bayer code
0x3001, 100x100 region) at the first sample VSYNC. -/
theorem read_avg_stats_bayer_pre_witness :
    ∃ v, dcmipp_statcap_read_avg_stats 0x3001 0x3020 sample_device (sample_event 1) = some v ∧
      v.local_buf.pre.average_RGB =
        [u32 (u32 (u32 1001 <<< 8) * 4) / u32 (100 * 100),
         u32 (u32 (u32 1002 <<< 8) * 2) / u32 (100 * 100),
         u32 (u32 (u32 1003 <<< 8) * 4) / u32 (100 * 100)] ∧
      ((100 : Nat) = 100 → (100 : Nat) = 100 →
        1001 < 2 ^ 22 → 1002 < 2 ^ 22 → 1003 < 2 ^ 22 →
        v.local_buf.pre.average_RGB =
          [1001 * 1024 / 10000, 1002 * 512 / 10000, 1003 * 1024 / 10000]) :=
  read_avg_stats_bayer_pre 0x3001 0x3020 sample_device (sample_event 1) rfl (by decide)
    (by decide) rfl

/-- C7, as the claim states it, fails at the POST location: with the raw Bayer
code 0x3001 and register values 10001, 10002, 10003 over a 100x100 region, the
stored averages are `(R << 8) / 10000` = 256 each, not the values 1024, 512, 1024
that the multiplication by 4 and 2 would give. -/
theorem read_avg_stats_post_not_scaled :
    (0x3001 ≤ sample_post_device.frame_format ∧ sample_post_device.frame_format ≤ 0x3020) ∧
    (dcmipp_statcap_read_avg_stats 0x3001 0x3020 sample_post_device (sample_event 10)).map
        (fun v => v.local_buf.post.average_RGB) = some [256, 256, 256] ∧
    [u32 (u32 (u32 10001 <<< 8) * 4) / u32 (100 * 100),
     u32 (u32 (u32 10002 <<< 8) * 2) / u32 (100 * 100),
     u32 (u32 (u32 10003 <<< 8) * 4) / u32 (100 * 100)] = [1024, 512, 1024] := by
  decide

/-- C7, amended: `dcmipp_statcap_read_avg_stats` multiplies red and blue by 4 and
green by 2, after the shift by 8 and before the division, exactly when the
location is PRE and the format is raw Bayer; at the POST location, whatever the
format, and for every other format, the stored value is `(R << 8) / (w * h)`. -/
theorem read_avg_stats_scaling (lo hi : Nat) (vcap : dcmipp_statcap_device) (e : irq_event)
    (hpix : u32 (vcap.stat_region.width * vcap.stat_region.height) ≠ 0) :
    ∃ v, dcmipp_statcap_read_avg_stats lo hi vcap e = some v ∧
      (vcap.stat_location = DCMIPP_P1STXCR_SRC_LOC_PRE →
        lo ≤ vcap.frame_format ∧ vcap.frame_format ≤ hi →
        vcap.local_buf.pre.average_RGB.length = 3 →
        v.local_buf.pre.average_RGB =
          [u32 (u32 (u32 e.P1STXSR0 <<< 8) * 4) /
              u32 (vcap.stat_region.width * vcap.stat_region.height),
           u32 (u32 (u32 e.P1STXSR1 <<< 8) * 2) /
              u32 (vcap.stat_region.width * vcap.stat_region.height),
           u32 (u32 (u32 e.P1STXSR2 <<< 8) * 4) /
              u32 (vcap.stat_region.width * vcap.stat_region.height)]) ∧
      (vcap.stat_location = DCMIPP_P1STXCR_SRC_LOC_PRE →
        ¬ (lo ≤ vcap.frame_format ∧ vcap.frame_format ≤ hi) →
        vcap.local_buf.pre.average_RGB.length = 3 →
        v.local_buf.pre.average_RGB =
          [u32 (u32 e.P1STXSR0 <<< 8) / u32 (vcap.stat_region.width * vcap.stat_region.height),
           u32 (u32 e.P1STXSR1 <<< 8) / u32 (vcap.stat_region.width * vcap.stat_region.height),
           u32 (u32 e.P1STXSR2 <<< 8) /
              u32 (vcap.stat_region.width * vcap.stat_region.height)]) ∧
      (vcap.stat_location ≠ DCMIPP_P1STXCR_SRC_LOC_PRE →
        vcap.local_buf.post.average_RGB.length = 3 →
        v.local_buf.post.average_RGB =
          [u32 (u32 e.P1STXSR0 <<< 8) / u32 (vcap.stat_region.width * vcap.stat_region.height),
           u32 (u32 e.P1STXSR1 <<< 8) / u32 (vcap.stat_region.width * vcap.stat_region.height),
           u32 (u32 e.P1STXSR2 <<< 8) /
              u32 (vcap.stat_region.width * vcap.stat_region.height)]) := by
  have hp : stat_region_pixels vcap ≠ 0 := hpix
  refine ⟨_, read_avg_stats_eq lo hi vcap e hp, ?_, ?_, ?_⟩
  · intro hloc hfmt hlen
    simp [avr_bins_update, hloc, set3 _ hlen, read_avg_scaled, hfmt, stat_region_pixels,
      reg_read, DCMIPP_P1STXSR, DCMIPP_P1BPRSR, COMP_RED, COMP_GREEN, COMP_BLUE,
      DCMIPP_P1STXCR_SRC_LOC_PRE]
  · intro hloc hfmt hlen
    simp [avr_bins_update, hloc, set3 _ hlen, read_avg_scaled, hfmt, stat_region_pixels,
      reg_read, DCMIPP_P1STXSR, DCMIPP_P1BPRSR, DCMIPP_P1STXCR_SRC_LOC_PRE]
  · intro hloc hlen
    simp [avr_bins_update, hloc, set3 _ hlen, read_avg_scaled, stat_region_pixels,
      reg_read, DCMIPP_P1STXSR, DCMIPP_P1BPRSR]

/-- Witness of `read_avg_stats_scaling`: the sample device at the POST location. -/
theorem read_avg_stats_scaling_witness :
    u32 (sample_post_device.stat_region.width * sample_post_device.stat_region.height) ≠ 0 ∧
    ∃ v, dcmipp_statcap_read_avg_stats 0x3001 0x3020 sample_post_device (sample_event 10) =
        some v ∧
      v.local_buf.post.average_RGB =
        [u32 (u32 10001 <<< 8) / u32 (100 * 100), u32 (u32 10002 <<< 8) / u32 (100 * 100),
         u32 (u32 10003 <<< 8) / u32 (100 * 100)] := by
  obtain ⟨v, hv, -, -, h3⟩ :=
    read_avg_stats_scaling 0x3001 0x3020 sample_post_device (sample_event 10) (by decide)
  exact ⟨by decide, v, hv, h3 (by decide) rfl⟩

/-- C9: under the average PRE or average POST profile, from `COLD_START`, with
VSYNC interrupts only, the state is `PHY_AV_RGB` after one VSYNC and `AV_READ` after
two or more; after every VSYNC the location is PRE for average PRE and POST for
average POST; the first two VSYNCs complete no buffer. -/
theorem average_profile_states (lo hi : Nat) (s : dcmipp_statcap_device) (es : List irq_event)
    (hs : s.streaming = true)
    (hp : s.stat_profile = .V4L2_STAT_PROFILE_AVERAGE_PRE ∨
      s.stat_profile = .V4L2_STAT_PROFILE_AVERAGE_POST)
    (hc : s.capture_state = .COLD_START) (hn : stat_region_pixels s ≠ 0)
    (hv : ∀ x ∈ es, is_vsync x) (hlen : 1 ≤ es.length) :
    ∃ d, irq_run lo hi s es = some d ∧
      (es.length = 1 → d.capture_state = .PHY_AV_RGB) ∧
      (2 ≤ es.length → d.capture_state = .AV_READ) ∧
      (s.stat_profile = .V4L2_STAT_PROFILE_AVERAGE_PRE →
        d.stat_location = DCMIPP_P1STXCR_SRC_LOC_PRE) ∧
      (s.stat_profile = .V4L2_STAT_PROFILE_AVERAGE_POST →
        d.stat_location = DCMIPP_P1STXCR_SRC_LOC_POST) ∧
      (es.length ≤ 2 → d.done = s.done ∧ d.buffers = s.buffers ∧ d.sequence = s.sequence) := by
  have hp' : s.stat_profile ≠ .V4L2_STAT_PROFILE_FULL := by
    rcases hp with h | h <;> rw [h] <;> decide
  have key : ∀ es : List irq_event, (∀ x ∈ es, is_vsync x) →
      ∃ d, irq_run lo hi s es = some d ∧ d.streaming = true ∧
        d.stat_profile = s.stat_profile ∧ d.stat_region = s.stat_region ∧
        (es.length = 0 → d.capture_state = .COLD_START) ∧
        (es.length = 1 → d.capture_state = .PHY_AV_RGB ∧ d.stat_ready = false) ∧
        (2 ≤ es.length → d.capture_state = .AV_READ) ∧
        (1 ≤ es.length → d.stat_location =
          (if s.stat_profile = .V4L2_STAT_PROFILE_AVERAGE_POST then 1 else 0)) ∧
        (es.length ≤ 2 → d.done = s.done ∧ d.buffers = s.buffers ∧ d.sequence = s.sequence) := by
    intro es
    induction es using List.reverseRecOn with
    | nil =>
      intro _
      exact ⟨s, rfl, hs, rfl, rfl, fun _ => hc, by simp, by simp, by simp, fun _ => ⟨rfl, rfl, rfl⟩⟩
    | append_singleton es e ih =>
      intro hv
      obtain ⟨d0, hr, i1, i2, i3, i4, i5, i6, i7, i8⟩ :=
        ih (fun x hx => hv x (List.mem_append_left _ hx))
      have hn0 : stat_region_pixels d0 ≠ 0 := by
        simpa [stat_region_pixels, i3] using hn
      obtain ⟨d, hd, f1, f2, f3, f4, f5, f6⟩ :=
        irq_thread_average_step lo hi d0 e i1 (hv e (by simp)) (by rw [i2]; exact hp') hn0
      refine ⟨d, by rw [irq_run_append, hr]; simpa using hd, f1, f2.trans i2, f3.trans i3,
        ?_, ?_, ?_, ?_, ?_⟩
      all_goals simp only [List.length_append, List.length_singleton]
      · intro h; omega
      · intro h
        have hz : es.length = 0 := by omega
        exact ⟨(f4 (i4 hz)).1, (f4 (i4 hz)).2.1⟩
      · intro h
        by_cases h1 : es.length = 1
        · exact (f5 (i5 h1).1).1
        · exact (f6 (i6 (by omega))).1
      · intro _
        by_cases hz : es.length = 0
        · rw [(f4 (i4 hz)).2.2.1, i2]
        · by_cases h1 : es.length = 1
          · rw [(f5 (i5 h1).1).2.2.1]; exact i7 (by omega)
          · rw [(f6 (i6 (by omega))).2.2]; exact i7 (by omega)
      · intro h
        obtain ⟨q1, q2, q3⟩ := i8 (by omega)
        by_cases hz : es.length = 0
        · obtain ⟨-, -, -, r1, r2, r3⟩ := f4 (i4 hz)
          exact ⟨r2.trans q1, r1.trans q2, r3.trans q3⟩
        · have h1 : es.length = 1 := by omega
          obtain ⟨-, -, -, r⟩ := f5 (i5 h1).1
          obtain ⟨r1, r2, r3⟩ := r (i5 h1).2
          exact ⟨r2.trans q1, r1.trans q2, r3.trans q3⟩
  obtain ⟨d, hr, -, -, -, -, k1, k2, k3, k4⟩ := key es hv
  refine ⟨d, hr, fun h => (k1 h).1, k2, ?_, ?_, k4⟩
  · intro h; rw [k3 hlen, h]; rfl
  · intro h; rw [k3 hlen, h]; rfl

/-- Witness of `average_profile_states`: four sample VSYNCs under average POST. -/
theorem average_profile_states_witness :
    ∃ d, irq_run 0x3001 0x3020
        { sample_device with stat_profile := .V4L2_STAT_PROFILE_AVERAGE_POST }
        (sample_events 4) = some d ∧
      d.capture_state = .AV_READ ∧ d.stat_location = DCMIPP_P1STXCR_SRC_LOC_POST := by
  obtain ⟨d, h1, -, h3, -, h5, -⟩ := average_profile_states 0x3001 0x3020
    { sample_device with stat_profile := .V4L2_STAT_PROFILE_AVERAGE_POST } (sample_events 4)
    rfl (Or.inr rfl) rfl (by decide) (by decide) (by decide)
  exact ⟨d, h1, h3 (by decide), h5 rfl⟩

/-- C10, as the claim states it, fails once the 32-bit counter wraps: from a device
with sequence counter 0 and nothing completed, after 4294967296 rounds of one
buffer queued and completed, 4294967296 buffers are complete and the next
completed buffer carries sequence number 0, not 4294967296. -/
theorem buffer_done_sequence_wraps :
    sample_idle_device.sequence = 0 ∧ sample_idle_device.done = [] ∧
    (queue_done_rounds sample_idle_device (sample_buf 7) 0 4294967296).done.length =
      4294967296 ∧
    (queue_done_rounds sample_idle_device (sample_buf 7) 0 4294967297).done.getLast?.map
      (fun b => b.sequence) = some 0 := by
  refine ⟨rfl, rfl, (queue_done_rounds_spec _ _ _ rfl rfl rfl 4294967296).2.2, ?_⟩
  obtain ⟨h1, h2, -⟩ :=
    queue_done_rounds_spec sample_idle_device (sample_buf 7) 0 rfl rfl rfl 4294967296
  rw [(queue_done_rounds_succ sample_idle_device (sample_buf 7) 0 4294967296 h1).2.2]
  simp [h2]

/-- C10, amended: `dcmipp_statcap_buffer_done` on an empty queue changes nothing;
on a non-empty queue it removes exactly the head, completes it in the DONE state
with payload `local_buf` and the current value of the sequence counter, and
increments the counter modulo 2^32, the rest of the queue keeping its order.
Hence, from a stream start (counter 0, nothing completed), after any calls of
`dcmipp_statcap_buf_queue` and `dcmipp_statcap_buffer_done` the completed buffers
are the first inserted ones in insertion order, the `j`-th of them (from 0)
carries sequence number `j mod 2^32`, and the pending queue is the rest. -/
theorem buffer_done_fifo_sequence (v0 : dcmipp_statcap_device) (cs : List queue_call)
    (h0 : v0.sequence = 0) (hd : v0.done = []) :
    (∀ (vcap : dcmipp_statcap_device) (now : Nat),
      vcap.buffers = [] → dcmipp_statcap_buffer_done vcap now = vcap) ∧
    (∀ (vcap : dcmipp_statcap_device) (now : Nat) (b : dcmipp_buf) (rest : List dcmipp_buf),
      vcap.buffers = b :: rest →
        (dcmipp_statcap_buffer_done vcap now).buffers = rest ∧
        (dcmipp_statcap_buffer_done vcap now).done = vcap.done ++
          [{ b with data := vcap.local_buf, bytesused := sizeof_stat_buf,
                    sequence := vcap.sequence, timestamp := now,
                    state := .VB2_BUF_STATE_DONE }] ∧
        (dcmipp_statcap_buffer_done vcap now).sequence = (vcap.sequence + 1) % 4294967296) ∧
    (queue_run v0 cs).buffers =
      (v0.buffers ++ queued_by cs).drop (queue_run v0 cs).done.length ∧
    (queue_run v0 cs).done.map (fun b => b.id) =
      ((v0.buffers ++ queued_by cs).take (queue_run v0 cs).done.length).map (fun b => b.id) ∧
    (∀ j b, (queue_run v0 cs).done[j]? = some b →
      b.sequence = j % 4294967296 ∧ b.state = .VB2_BUF_STATE_DONE ∧
      b.data = v0.local_buf ∧ b.bytesused = sizeof_stat_buf) ∧
    (queue_run v0 cs).sequence = (queue_run v0 cs).done.length % 4294967296 := by
  obtain ⟨A, k1, k2, k3, k4, k5⟩ := queue_run_invariant v0.local_buf cs v0 [] rfl
    (by simp [hd]) (by simp [hd]) (by simp [hd, h0]) (by simp [hd])
  simp only [List.nil_append] at k1
  refine ⟨?_, ?_, ?_, ?_, k5, k4⟩
  · intro vcap now hb
    simp [dcmipp_statcap_buffer_done, hb]
  · intro vcap now b rest hb
    simp [dcmipp_statcap_buffer_done, hb, u32]
  · rw [k1, List.drop_left' k2]
  · rw [k1, List.take_left' k2, k3]

/-- Witness of `buffer_done_fifo_sequence`: the sample calls complete buffers 1, 2, 3
with sequence numbers 0, 1, 2. -/
theorem buffer_done_fifo_sequence_witness :
    (queue_run sample_idle_device sample_queue_calls).done.map
      (fun b => (b.id, b.sequence, b.timestamp)) = [(1, 0, 40), (2, 1, 80), (3, 2, 160)] ∧
    (queue_run sample_idle_device sample_queue_calls).sequence =
      (queue_run sample_idle_device sample_queue_calls).done.length % 4294967296 :=
  ⟨by decide,
    (buffer_done_fifo_sequence sample_idle_device sample_queue_calls rfl rfl).2.2.2.2.2⟩

/-- C11: the geometry check of the region write adds `left` and `width` (and `top`
and `height`) in 32 bits. On the sample device in `AV_READ` with a 100x100 region
and a 640x480 frame, the one-region write with `left = 4294967000`, `width = 400`,
`top = 0`, `height = 1` has `left + width > 640`, yet it returns 0, stores the
region with `left = -296`, resets `capture_state` to `COLD_START` and programs the
size register. Whenever the check as the code computes it fails, the write returns
`-EINVAL` and `stat_region`, `capture_state` and all registers are as before. -/
theorem region_check_wraps :
    (640 < 4294967000 + 400 ∧
      (dcmipp_statcap_s_ctrl sample_av_read_device wrapping_region sample_ctrl_env).1 = 0 ∧
      (dcmipp_statcap_s_ctrl sample_av_read_device wrapping_region sample_ctrl_env).2.stat_region =
        { left := -296, top := 0, width := 400, height := 1 } ∧
      sample_av_read_device.stat_region = { left := 0, top := 0, width := 100, height := 100 } ∧
      (dcmipp_statcap_s_ctrl sample_av_read_device wrapping_region
        sample_ctrl_env).2.capture_state = .COLD_START ∧
      sample_av_read_device.capture_state = .AV_READ ∧
      (dcmipp_statcap_s_ctrl sample_av_read_device wrapping_region sample_ctrl_env).2.regs
        DCMIPP_P1STSZR = 0x80010190 ∧
      sample_av_read_device.regs DCMIPP_P1STSZR = 0) ∧
    (∀ (vcap : dcmipp_statcap_device) (region : v4l2_ctrl_isp_stat_region) (k : ctrl_env),
      k.pm_runtime_get_if_in_use ≠ 0 → (vcap.s_subdev = true ∨ k.remote_subdev = true) →
      region.nb_regions = 1 → 0 ≤ k.get_selection →
      ¬ (region.width = 0 ∧ region.height = 0 ∧ region.left = 0 ∧ region.top = 0) →
      (region.width = 0 ∨ region.height = 0 ∨
        u32 (region.left + region.width) > u32 k.sel_r.width ∨
        u32 (region.top + region.height) > u32 k.sel_r.height) →
      (dcmipp_statcap_s_ctrl vcap (.V4L2_CID_ISP_STAT_REGION region) k).1 = -EINVAL ∧
      (dcmipp_statcap_s_ctrl vcap (.V4L2_CID_ISP_STAT_REGION region) k).2.stat_region =
        vcap.stat_region ∧
      (dcmipp_statcap_s_ctrl vcap (.V4L2_CID_ISP_STAT_REGION region) k).2.capture_state =
        vcap.capture_state ∧
      (dcmipp_statcap_s_ctrl vcap (.V4L2_CID_ISP_STAT_REGION region) k).2.regs = vcap.regs) := by
  refine ⟨by decide, ?_⟩
  intro vcap region k h1 h2 h3 h4 h5 h6
  have hs : (!vcap.s_subdev && !k.remote_subdev) = false := by
    rcases h2 with h | h <;> simp [h]
  have hnb : ¬ region.nb_regions > DCMIPP_NB_STAT_REGION := by rw [h3]; decide
  have hg : ¬ k.get_selection < 0 := by omega
  have hz : ¬ (region.nb_regions = 0 ∨
      (region.width = 0 ∧ region.height = 0 ∧ region.left = 0 ∧ region.top = 0)) := by
    rw [h3]; simp only [one_ne_zero, false_or]; exact h5
  unfold dcmipp_statcap_s_ctrl
  simp only [h1, if_false, hs, hnb, hg, hz, h6, if_true]
  simp

/-! ## The engine under the events of the framework: claims C25 and C29 -/

theorem read_avg_stats_keeps_state (lo hi : Nat) (s h : dcmipp_statcap_device) (e : irq_event)
    (hh : dcmipp_statcap_read_avg_stats lo hi s e = some h) :
    h.capture_state = s.capture_state ∧ h.stat_profile = s.stat_profile := by
  by_cases hz : stat_region_pixels s = 0
  · simp [dcmipp_statcap_read_avg_stats, read_avg_value, hz] at hh
  · rw [read_avg_stats_eq lo hi s e hz] at hh
    simp only [Option.some.injEq] at hh
    subst hh
    exact ⟨rfl, rfl⟩

theorem irq_harvest_keeps_state (lo hi : Nat) (s h : dcmipp_statcap_device) (e : irq_event)
    (hh : irq_harvest lo hi s e = some h) :
    h.capture_state = s.capture_state ∧ h.stat_profile = s.stat_profile := by
  obtain ⟨streaming, buffers, done, s_subdev, sequence, frame_format, stat_region, avg_filter,
    bin_comp, stat_profile, stat_location, stat_ready, capture_state, prev_capture_state, regs,
    local_buf⟩ := s
  cases capture_state
  case PHY_BIN_0_SHA_BIN_1 =>
    simp only [irq_harvest] at hh
    have k := read_avg_stats_keeps_state lo hi _ h e hh
    simpa [write_stxcr_eq] using k
  case AV_READ =>
    simp only [irq_harvest] at hh
    have k := read_avg_stats_keeps_state lo hi _ h e hh
    simpa [write_stxcr_eq] using k
  all_goals
    by_cases h1 : prev_capture_state = .PHY_BIN_3_SHA_AV_RGB <;>
    by_cases h2 : stat_location = 0 <;>
    by_cases h3 : stat_profile = .V4L2_STAT_PROFILE_AVERAGE_POST <;>
    simp [irq_harvest, read_bins_eq, write_stxcr_eq,
      DCMIPP_P1STXCR_SRC_LOC_PRE, DCMIPP_P1STXCR_SRC_LOC_POST, h1, h2, h3] at hh <;>
    subst hh <;> simp [h3]

theorem consistent_of_cold (d : dcmipp_statcap_device) (h : d.capture_state = .COLD_START) :
    profile_consistent d :=
  ⟨fun _ => Or.inl h, fun _ => Or.inl h⟩

theorem consistent_of_same (v d : dcmipp_statcap_device) (hv : profile_consistent v)
    (h1 : d.capture_state = v.capture_state) (h2 : d.stat_profile = v.stat_profile) :
    profile_consistent d := by
  unfold profile_consistent at hv ⊢
  rw [h1, h2]
  exact hv

theorem s_ctrl_state (v : dcmipp_statcap_device) (c : v4l2_ctrl) (k : ctrl_env) :
    (dcmipp_statcap_s_ctrl v c k).2.capture_state = .COLD_START ∨
    ((dcmipp_statcap_s_ctrl v c k).2.capture_state = v.capture_state ∧
      (dcmipp_statcap_s_ctrl v c k).2.stat_profile = v.stat_profile) := by
  unfold dcmipp_statcap_s_ctrl
  cases c with
  | V4L2_CID_ISP_STAT_REGION region =>
    simp only []
    split_ifs <;> simp [reg_clear, reg_set, reg_write]
  | V4L2_CID_ISP_STAT_AVG_FILTER val => simp only []; split_ifs <;> simp
  | V4L2_CID_ISP_STAT_BIN_COMP val => simp only []; split_ifs <;> simp
  | V4L2_CID_ISP_STAT_PROFILE val => simp only []; split_ifs <;> simp

theorem s_ctrl_consistent (v : dcmipp_statcap_device) (c : v4l2_ctrl) (k : ctrl_env)
    (hv : profile_consistent v) : profile_consistent (dcmipp_statcap_s_ctrl v c k).2 := by
  rcases s_ctrl_state v c k with h | ⟨h1, h2⟩
  · exact consistent_of_cold _ h
  · exact consistent_of_same v _ hv h1 h2

theorem ctrl_handler_setup_consistent (l : List (v4l2_ctrl × ctrl_env)) :
    ∀ v : dcmipp_statcap_device, profile_consistent v →
      profile_consistent (v4l2_ctrl_handler_setup v l).2 := by
  induction l with
  | nil => intro v hv; exact hv
  | cons x l ih =>
    intro v hv
    obtain ⟨c, k⟩ := x
    simp only [v4l2_ctrl_handler_setup]
    split_ifs
    · exact s_ctrl_consistent v c k hv
    · exact ih _ (s_ctrl_consistent v c k hv)

theorem start_streaming_consistent (v : dcmipp_statcap_device) (k : stream_env)
    (hv : profile_consistent v) : profile_consistent (dcmipp_statcap_start_streaming v k).2 := by
  have hp : ∀ w : dcmipp_statcap_device, profile_consistent w →
      profile_consistent (dcmipp_pipeline_s_stream w k).2 := by
    intro w hw
    unfold dcmipp_pipeline_s_stream
    split_ifs <;> exact hw
  have hr : ∀ (w : dcmipp_statcap_device) (st : vb2_buffer_state), profile_consistent w →
      profile_consistent (return_all_buffers w st) :=
    fun w st hw => consistent_of_same w _ hw rfl rfl
  have h0 : profile_consistent { v with sequence := 0 } := consistent_of_same v _ hv rfl rfl
  unfold dcmipp_statcap_start_streaming
  simp only []
  split_ifs
  · exact hr _ _ h0
  · exact hr _ _ h0
  · exact hr _ _ (hp _ h0)
  · exact hr _ _ (hp _ h0)
  · exact hr _ _ (consistent_of_same _ _ (hp _ h0) rfl rfl)
  · exact hr _ _ (ctrl_handler_setup_consistent _ _
      (consistent_of_same _ _ (hp _ h0) rfl rfl))
  · exact ctrl_handler_setup_consistent _ _ (consistent_of_same _ _ (hp _ h0) rfl rfl)

theorem stop_streaming_consistent (v : dcmipp_statcap_device) (k : stream_env) :
    profile_consistent (dcmipp_statcap_stop_streaming v k) := by
  apply consistent_of_cold
  unfold dcmipp_statcap_stop_streaming dcmipp_pipeline_s_stream return_all_buffers
  simp only []
  split_ifs <;> rfl

theorem update_state_consistent (v : dcmipp_statcap_device) (hv : profile_consistent v) :
    profile_consistent (irq_update_state v) := by
  obtain ⟨streaming, buffers, done, s_subdev, sequence, frame_format, stat_region, avg_filter,
    bin_comp, stat_profile, stat_location, stat_ready, capture_state, prev_capture_state, regs,
    local_buf⟩ := v
  unfold profile_consistent at hv ⊢
  cases stat_profile <;> cases capture_state <;>
    simp [irq_update_state, stat_capture_state.toNat, stat_capture_state.succ,
      full_profile_states] at hv ⊢

theorem irq_thread_consistent (lo hi : Nat) (v d : dcmipp_statcap_device) (e : irq_event)
    (hv : profile_consistent v) (h : dcmipp_statcap_irq_thread lo hi v e = some d) :
    profile_consistent d := by
  unfold dcmipp_statcap_irq_thread at h
  split_ifs at h
  · simp only [Option.some.injEq] at h; subst h; exact hv
  · simp only [Option.some.injEq] at h; subst h; exact hv
  · cases hh : irq_harvest lo hi v e with
    | none => simp [hh] at h
    | some w =>
      simp only [hh, Option.map_some', Option.some.injEq] at h
      subst h
      obtain ⟨k1, k2⟩ := irq_harvest_keeps_state lo hi v w e hh
      have hw : profile_consistent w := consistent_of_same v w hv k1 k2
      apply update_state_consistent
      split_ifs
      · apply consistent_of_same w _ hw
        · unfold dcmipp_statcap_buffer_done; cases w.buffers <;> rfl
        · unfold dcmipp_statcap_buffer_done; cases w.buffers <;> rfl
      · exact hw

theorem engine_run_consistent (lo hi : Nat) (evs : List engine_event) :
    ∀ v d : dcmipp_statcap_device, profile_consistent v → engine_run lo hi v evs = some d →
      profile_consistent d := by
  induction evs with
  | nil => intro v d hv h; simp only [engine_run, Option.some.injEq] at h; subst h; exact hv
  | cons ev evs ih =>
    intro v d hv h
    simp only [engine_run] at h
    cases hs : engine_step lo hi v ev with
    | none => simp [hs] at h
    | some w =>
      simp only [hs, Option.some_bind] at h
      refine ih w d ?_ h
      cases ev with
      | s_ctrl c k =>
        simp only [engine_step, Option.some.injEq] at hs; subst hs
        exact s_ctrl_consistent v c k hv
      | start_streaming k =>
        simp only [engine_step, Option.some.injEq] at hs; subst hs
        exact start_streaming_consistent v k hv
      | stop_streaming k =>
        simp only [engine_step, Option.some.injEq] at hs; subst hs
        exact stop_streaming_consistent v k
      | vb2_streaming flag =>
        simp only [engine_step, Option.some.injEq] at hs; subst hs
        exact consistent_of_same v _ hv rfl rfl
      | irq e => exact irq_thread_consistent lo hi v w e hv hs

/-- C29: for every sequence of control writes, stream starts and stops, changes of the
streaming flag and VSYNC steps applied to the statistics engine from the state
`dcmipp_statcap_ent_init` leaves, the capture state fits the profile: under the `FULL`
profile it is `COLD_START` or one of the five `PHY_*_SHA_*` states, so its value never
exceeds that of `PHY_BIN_3_SHA_AV_RGB`; under `AVERAGE_PRE` or `AVERAGE_POST` it is
`COLD_START`, `PHY_AV_RGB` or `AV_READ`. -/
theorem capture_state_fits_profile (lo hi : Nat) (regs : Nat → Nat) (evs : List engine_event)
    (d : dcmipp_statcap_device)
    (h : engine_run lo hi (dcmipp_statcap_ent_init regs) evs = some d) :
    (d.stat_profile = .V4L2_STAT_PROFILE_FULL →
      (d.capture_state = .COLD_START ∨ d.capture_state ∈ full_profile_states) ∧
      d.capture_state.toNat ≤ stat_capture_state.PHY_BIN_3_SHA_AV_RGB.toNat) ∧
    (d.stat_profile ≠ .V4L2_STAT_PROFILE_FULL →
      d.capture_state = .COLD_START ∨ d.capture_state = .PHY_AV_RGB ∨
        d.capture_state = .AV_READ) := by
  have hc := engine_run_consistent lo hi evs (dcmipp_statcap_ent_init regs) d
    (consistent_of_cold _ rfl) h
  refine ⟨fun hf => ⟨hc.1 hf, ?_⟩, hc.2⟩
  rcases hc.1 hf with h1 | h1
  · rw [h1]; decide
  · simp only [full_profile_states, List.mem_cons, List.mem_singleton, List.not_mem_nil,
      or_false] at h1
    rcases h1 with h1 | h1 | h1 | h1 | h1 <;> rw [h1] <;> decide

theorem capture_state_fits_profile_witness :
    ∃ d, engine_run 0x3001 0x3020 (dcmipp_statcap_ent_init (fun _ => 0)) (sample_session.take 4)
        = some d ∧
      d.stat_profile = .V4L2_STAT_PROFILE_AVERAGE_PRE ∧
      (d.capture_state = .COLD_START ∨ d.capture_state = .PHY_AV_RGB ∨
        d.capture_state = .AV_READ) := by
  obtain ⟨d, hd⟩ := Option.isSome_iff_exists.mp
    (show (engine_run 0x3001 0x3020 (dcmipp_statcap_ent_init (fun _ => 0))
      (sample_session.take 4)).isSome = true by decide)
  have hp : (engine_run 0x3001 0x3020 (dcmipp_statcap_ent_init (fun _ => 0))
      (sample_session.take 4)).map (fun x => x.stat_profile) =
      some .V4L2_STAT_PROFILE_AVERAGE_PRE := by decide
  rw [hd] at hp
  have hp' : d.stat_profile = .V4L2_STAT_PROFILE_AVERAGE_PRE := by simpa using hp
  exact ⟨d, hd, hp',
    (capture_state_fits_profile 0x3001 0x3020 (fun _ => 0) _ d hd).2 (by rw [hp']; decide)⟩

/-- C25: at a VSYNC in state `PHY_AV_RGB_SHA_BIN_0` reached from `PHY_BIN_3_SHA_AV_RGB`
the harvest succeeds and the three values read from `P1STXSR(0..2)` are stored in
`bins[9..11]` of the accumulator of the previous location: of `pre` when `stat_location`
is `POST`, of `post` when it is `PRE`. The averages of that accumulator and the whole
accumulator of the other location are left as they were, and `stat_ready` is set when
`stat_location` is `PRE` and keeps its value when it is `POST`. Besides the two
accumulators the step refreshes the bad pixel count, as every VSYNC does. -/
theorem fourth_bins_go_to_previous_location (lo hi : Nat) (s : dcmipp_statcap_device)
    (e : irq_event)
    (hc : s.capture_state = .PHY_AV_RGB_SHA_BIN_0)
    (hp : s.prev_capture_state = .PHY_BIN_3_SHA_AV_RGB) :
    ∃ h, irq_harvest lo hi s e = some h ∧
      h.local_buf.bad_pixel_count = reg_read e DCMIPP_P1BPRSR &&& DCMIPP_P1BPRSR_BADCNT_MASK ∧
      (s.stat_location = DCMIPP_P1STXCR_SRC_LOC_POST →
        h.local_buf.pre.bins =
          ((s.local_buf.pre.bins.set 9 (reg_read e (DCMIPP_P1STXSR 0))).set 10
            (reg_read e (DCMIPP_P1STXSR 1))).set 11 (reg_read e (DCMIPP_P1STXSR 2)) ∧
        h.local_buf.pre.average_RGB = s.local_buf.pre.average_RGB ∧
        h.local_buf.post = s.local_buf.post ∧
        h.stat_ready = s.stat_ready) ∧
      (s.stat_location = DCMIPP_P1STXCR_SRC_LOC_PRE →
        h.local_buf.post.bins =
          ((s.local_buf.post.bins.set 9 (reg_read e (DCMIPP_P1STXSR 0))).set 10
            (reg_read e (DCMIPP_P1STXSR 1))).set 11 (reg_read e (DCMIPP_P1STXSR 2)) ∧
        h.local_buf.post.average_RGB = s.local_buf.post.average_RGB ∧
        h.local_buf.pre = s.local_buf.pre ∧
        h.stat_ready = true) := by
  obtain ⟨streaming, buffers, done, s_subdev, sequence, frame_format, stat_region, avg_filter,
    bin_comp, stat_profile, stat_location, stat_ready, capture_state, prev_capture_state, regs,
    local_buf⟩ := s
  simp only at hc hp
  subst hc hp
  by_cases h0 : stat_location = 0
  · subst h0
    simp [irq_harvest, read_bins_eq, write_stxcr_eq, DCMIPP_P1STXCR_SRC_LOC_PRE,
      DCMIPP_P1STXCR_SRC_LOC_POST, lnot, avr_bins_update, reg_read, DCMIPP_P1STXSR,
      DCMIPP_P1BPRSR]
  · by_cases h1 : stat_location = 1
    · subst h1
      simp [irq_harvest, read_bins_eq, write_stxcr_eq, DCMIPP_P1STXCR_SRC_LOC_PRE,
        DCMIPP_P1STXCR_SRC_LOC_POST, lnot, avr_bins_update, reg_read, DCMIPP_P1STXSR,
        DCMIPP_P1BPRSR]
    · simp [irq_harvest, read_bins_eq, write_stxcr_eq, DCMIPP_P1STXCR_SRC_LOC_PRE,
        DCMIPP_P1STXCR_SRC_LOC_POST, lnot, avr_bins_update, reg_read, DCMIPP_P1STXSR,
        DCMIPP_P1BPRSR, h0, h1]

theorem fourth_bins_go_to_previous_location_witness :
    sample_second_cycle_device.capture_state = .PHY_AV_RGB_SHA_BIN_0 ∧
    sample_second_cycle_device.prev_capture_state = .PHY_BIN_3_SHA_AV_RGB ∧
    sample_second_cycle_device.stat_location = DCMIPP_P1STXCR_SRC_LOC_POST ∧
    ∃ h, irq_harvest 0x3001 0x3020 sample_second_cycle_device (sample_event 7) = some h ∧
      h.local_buf.pre.bins =
        ((sample_second_cycle_device.local_buf.pre.bins.set 9
            (reg_read (sample_event 7) (DCMIPP_P1STXSR 0))).set 10
          (reg_read (sample_event 7) (DCMIPP_P1STXSR 1))).set 11
          (reg_read (sample_event 7) (DCMIPP_P1STXSR 2)) ∧
      h.local_buf.post = sample_second_cycle_device.local_buf.post ∧
      h.stat_ready = sample_second_cycle_device.stat_ready := by
  obtain ⟨h, h1, _, h3, _⟩ :=
    fourth_bins_go_to_previous_location 0x3001 0x3020 sample_second_cycle_device
      (sample_event 7) (by decide) (by decide)
  have h5 := h3 (by decide)
  exact ⟨by decide, by decide, by decide, h, h1, h5.1, h5.2.2.1, h5.2.2.2⟩

end Statcap

namespace Pixelcap

open Statcap (u32 BIT GENMASK EINVAL vb2_buffer_state)

/-! ## Auxiliary facts and claims on the pixel capture engine -/

theorem testBit_u32 (x i : Nat) (h : i < 32) : (u32 x).testBit i = x.testBit i := by
  unfold u32
  rw [show (4294967296 : Nat) = 2 ^ 32 by norm_num, Nat.testBit_mod_two_pow]
  simp [h]

theorem cptreq_after_set (x : Nat) : (u32 (x ||| DCMIPP_PxFCTCR_CPTREQ)).testBit 3 = true := by
  rw [testBit_u32 _ _ (by norm_num), Nat.testBit_lor]
  have : DCMIPP_PxFCTCR_CPTREQ.testBit 3 = true := by decide
  simp [this]

theorem cptreq_after_clear (x : Nat) :
    (u32 (x &&& (0xFFFFFFFF ^^^ u32 DCMIPP_PxFCTCR_CPTREQ))).testBit 3 = false := by
  rw [testBit_u32 _ _ (by norm_num), Nat.testBit_land]
  have : (0xFFFFFFFF ^^^ u32 DCMIPP_PxFCTCR_CPTREQ).testBit 3 = false := by decide
  simp [this]

theorem start_capture_fields (v : dcmipp_pixelcap_device) (b : dcmipp_buf) :
    (dcmipp_start_capture v b).format = v.format ∧
    (dcmipp_start_capture v b).buffers = v.buffers ∧
    (dcmipp_start_capture v b).done = v.done ∧
    (dcmipp_start_capture v b).sequence = v.sequence ∧
    (dcmipp_start_capture v b).s_subdev = v.s_subdev ∧
    (dcmipp_start_capture v b).state = v.state ∧
    (dcmipp_start_capture v b).active = v.active ∧
    (dcmipp_start_capture v b).next = v.next ∧
    (dcmipp_start_capture v b).pipe_id = v.pipe_id ∧
    (dcmipp_start_capture v b).cmier = v.cmier ∧
    (dcmipp_start_capture v b).cmsr2 = v.cmsr2 ∧
    (dcmipp_start_capture v b).count = v.count ∧
    (dcmipp_start_capture v b).frame_skip_ratio = v.frame_skip_ratio ∧
    (dcmipp_start_capture v b).vsync_frame_refresh_cnt = 1 ∧
    ((dcmipp_start_capture v b).regs (DCMIPP_PxFCTCR v.pipe_id)).testBit 3 = true := by
  unfold dcmipp_start_capture
  by_cases h0 : b.paddrs0 = 0 <;> by_cases h1 : b.paddrs1 = 0 <;> by_cases h2 : b.paddrs2 = 0 <;>
    simp [h0, h1, h2, reg_set, reg_write, cptreq_after_set]

theorem pipeline_s_stream_fields (v : dcmipp_pixelcap_device) (k : stream_env) :
    (dcmipp_pipeline_s_stream v k).2.format = v.format ∧
    (dcmipp_pipeline_s_stream v k).2.buffers = v.buffers ∧
    (dcmipp_pipeline_s_stream v k).2.done = v.done ∧
    (dcmipp_pipeline_s_stream v k).2.sequence = v.sequence ∧
    (dcmipp_pipeline_s_stream v k).2.state = v.state ∧
    (dcmipp_pipeline_s_stream v k).2.active = v.active ∧
    (dcmipp_pipeline_s_stream v k).2.next = v.next ∧
    (dcmipp_pipeline_s_stream v k).2.regs = v.regs ∧
    (dcmipp_pipeline_s_stream v k).2.pipe_id = v.pipe_id ∧
    (dcmipp_pipeline_s_stream v k).2.cmier = v.cmier ∧
    (dcmipp_pipeline_s_stream v k).2.cmsr2 = v.cmsr2 ∧
    (dcmipp_pipeline_s_stream v k).2.count = v.count ∧
    (dcmipp_pipeline_s_stream v k).2.vsync_frame_refresh_cnt = v.vsync_frame_refresh_cnt := by
  unfold dcmipp_pipeline_s_stream
  cases k.frame_skip_rate <;> split_ifs <;> simp

theorem fctcr_ne (id : Nat) :
    DCMIPP_PxFCTCR id ≠ DCMIPP_PxPPCR id ∧ DCMIPP_PxFCTCR id ≠ DCMIPP_CMIER ∧
    DCMIPP_PxFCTCR id ≠ DCMIPP_PxFSCR id ∧ DCMIPP_PxFCTCR id ≠ DCMIPP_PxPPM0AR1 id ∧
    DCMIPP_PxFCTCR id ≠ DCMIPP_PxPPM0PR id ∧ DCMIPP_PxFCTCR id ≠ DCMIPP_P1PPM1AR1 ∧
    DCMIPP_PxFCTCR id ≠ DCMIPP_P1PPM1PR ∧ DCMIPP_PxFCTCR id ≠ DCMIPP_P1PPM2AR1 := by
  unfold DCMIPP_PxFCTCR DCMIPP_PxPPCR DCMIPP_PxFSCR DCMIPP_PxPPM0AR1 DCMIPP_PxPPM0PR
  by_cases h : id = 1 <;> simp [h] <;> decide

theorem pipeline_s_stream_ratio (v : dcmipp_pixelcap_device) (k : stream_env)
    (h : (dcmipp_pipeline_s_stream v k).1 = 0) (r : Nat) (hr : k.frame_skip_rate = some r) :
    (dcmipp_pipeline_s_stream v k).2.frame_skip_ratio = u32 r := by
  unfold dcmipp_pipeline_s_stream at h ⊢
  rw [hr] at h ⊢
  have hE : (-(EINVAL : Int)) ≠ 0 := by decide
  split_ifs at h ⊢ <;> first | rfl | (exact absurd h hE)

theorem start_streaming_fields (vcap : dcmipp_pixelcap_device) (k : stream_env)
    (hfmt : (dcmipp_pixelcap_pix_map_by_pixelformat vcap.format.pixelformat).isSome = true)
    (hret : (dcmipp_pixelcap_start_streaming vcap k).1 = 0) :
    (∀ b rest, vcap.buffers = b :: rest →
      (dcmipp_pixelcap_start_streaming vcap k).2.next = some b ∧
      (dcmipp_pixelcap_start_streaming vcap k).2.buffers = b :: rest ∧
      (dcmipp_pixelcap_start_streaming vcap k).2.state = .DCMIPP_RUNNING ∧
      (dcmipp_pixelcap_start_streaming vcap k).2.vsync_frame_refresh_cnt = 1 ∧
      ((dcmipp_pixelcap_start_streaming vcap k).2.regs
        (DCMIPP_PxFCTCR vcap.pipe_id)).testBit 3 = true) ∧
    (vcap.buffers = [] →
      (dcmipp_pixelcap_start_streaming vcap k).2.next = none ∧
      (dcmipp_pixelcap_start_streaming vcap k).2.buffers = [] ∧
      (dcmipp_pixelcap_start_streaming vcap k).2.state = .DCMIPP_WAIT_FOR_BUFFER ∧
      (dcmipp_pixelcap_start_streaming vcap k).2.regs (DCMIPP_PxFCTCR vcap.pipe_id) =
        vcap.regs (DCMIPP_PxFCTCR vcap.pipe_id)) ∧
    (dcmipp_pixelcap_start_streaming vcap k).2.sequence = 0 ∧
    (dcmipp_pixelcap_start_streaming vcap k).2.count = count_zero ∧
    (dcmipp_pixelcap_start_streaming vcap k).2.active = vcap.active ∧
    (dcmipp_pixelcap_start_streaming vcap k).2.done = vcap.done ∧
    (dcmipp_pixelcap_start_streaming vcap k).2.format = vcap.format ∧
    (dcmipp_pixelcap_start_streaming vcap k).2.pipe_id = vcap.pipe_id ∧
    (∀ r, k.frame_skip_rate = some r →
      (dcmipp_pixelcap_start_streaming vcap k).2.frame_skip_ratio = u32 r) := by
  obtain ⟨vpix, hvp⟩ := Option.isSome_iff_exists.mp hfmt
  have hp := pipeline_s_stream_fields { vcap with sequence := 0, count := count_zero } k
  have hq := pipeline_s_stream_ratio { vcap with sequence := 0, count := count_zero } k
  obtain ⟨n1, n2, n3, n4, n5, n6, n7, n8⟩ := fctcr_ne vcap.pipe_id
  unfold dcmipp_pixelcap_start_streaming at hret ⊢
  simp only [] at hret ⊢
  generalize dcmipp_pipeline_s_stream { vcap with sequence := 0, count := count_zero } k = r
    at hp hq hret ⊢
  obtain ⟨ret, v⟩ := r
  obtain ⟨p1, p2, p3, p4, p5, p6, p7, p8, p9, p10, p11, p12, p13⟩ := hp
  simp only [] at p1 p2 p3 p4 p5 p6 p7 p8 p9 p10 p11 p12 p13 hq hret ⊢
  by_cases h1 : k.pm_runtime_resume_and_get < 0
  · simp only [h1, if_true] at hret; omega
  by_cases h2 : k.media_pipeline_start = 0
  swap
  · simp only [h1, h2, if_false, if_true, ne_eq, not_false_eq_true] at hret
  by_cases h3 : ret = 0
  swap
  · simp only [h1, h2, h3, if_false, if_true, ne_eq, not_true_eq_false, not_false_eq_true] at hret
  have hq' := hq h3
  simp only [h1, h2, h3, if_false, ne_eq, not_true_eq_false, p1, hvp, reg_set, reg_write, p2]
  cases hb : vcap.buffers with
  | nil =>
    simp [p4, p12, p8, p9, n1, n2, n3, p6, p3, p1]
    exact hq'
  | cons b rest =>
    clear hret
    have hs := start_capture_fields
    simp [hs, p4, p12, p2, hb, p6, p3, p1, p9]
    exact hq'

/-- C12: when `dcmipp_pixelcap_start_streaming` returns 0 (the format being one
of the pixel map table): with a non-empty queue, `next` is the head of the queue,
the queue is kept, the state is `RUNNING`, the refresh counter is 1 and bit 3
(`CPTREQ`) of the capture control register is set; with an empty queue, `next` is
absent, the state is `WAIT_FOR_BUFFER` and the capture control register holds the
value it had before the call. In both cases the sequence counter is 0 and every
statistics counter is 0. -/
theorem start_streaming_success (vcap : dcmipp_pixelcap_device) (k : stream_env)
    (hfmt : (dcmipp_pixelcap_pix_map_by_pixelformat vcap.format.pixelformat).isSome = true)
    (hret : (dcmipp_pixelcap_start_streaming vcap k).1 = 0) :
    (∀ b rest, vcap.buffers = b :: rest →
      (dcmipp_pixelcap_start_streaming vcap k).2.next = some b ∧
      (dcmipp_pixelcap_start_streaming vcap k).2.buffers = b :: rest ∧
      (dcmipp_pixelcap_start_streaming vcap k).2.state = .DCMIPP_RUNNING ∧
      (dcmipp_pixelcap_start_streaming vcap k).2.vsync_frame_refresh_cnt = 1 ∧
      ((dcmipp_pixelcap_start_streaming vcap k).2.regs
        (DCMIPP_PxFCTCR vcap.pipe_id)).testBit 3 = true) ∧
    (vcap.buffers = [] →
      (dcmipp_pixelcap_start_streaming vcap k).2.next = none ∧
      (dcmipp_pixelcap_start_streaming vcap k).2.buffers = [] ∧
      (dcmipp_pixelcap_start_streaming vcap k).2.state = .DCMIPP_WAIT_FOR_BUFFER ∧
      (dcmipp_pixelcap_start_streaming vcap k).2.regs (DCMIPP_PxFCTCR vcap.pipe_id) =
        vcap.regs (DCMIPP_PxFCTCR vcap.pipe_id)) ∧
    (dcmipp_pixelcap_start_streaming vcap k).2.sequence = 0 ∧
    (dcmipp_pixelcap_start_streaming vcap k).2.count = count_zero := by
  obtain ⟨h1, h2, h3, h4, _⟩ := start_streaming_fields vcap k hfmt hret
  exact ⟨h1, h2, h3, h4⟩

theorem start_streaming_success_witness :
    (sample_started 2 1).next = some (sample_buf 1) ∧
    (sample_started 2 1).state = .DCMIPP_RUNNING ∧
    (sample_started 2 1).vsync_frame_refresh_cnt = 1 ∧
    ((sample_started 2 1).regs (DCMIPP_PxFCTCR (sample_queued 2).pipe_id)).testBit 3 = true ∧
    (sample_started 2 1).sequence = 0 ∧ (sample_started 2 1).count = count_zero := by
  obtain ⟨h, -, h3, h4⟩ :=
    start_streaming_success (sample_queued 2) (sample_stream_env 1) (by decide) (by decide)
  obtain ⟨a1, -, a3, a4, a5⟩ := h (sample_buf 1) [sample_buf 2] (by decide)
  exact ⟨a1, a3, a4, a5, h3, h4⟩

theorem list_next_entry_split (pre post : List dcmipp_buf) (a nb : dcmipp_buf)
    (hpre : ∀ x ∈ pre, x.id ≠ a.id) :
    list_next_entry (pre ++ a :: nb :: post) a = some nb := by
  unfold list_next_entry
  have : (pre ++ a :: nb :: post).dropWhile (fun b => b.id ≠ a.id) = a :: nb :: post := by
    induction pre with
    | nil => simp [List.dropWhile]
    | cons x xs ih =>
      have hx : x.id ≠ a.id := hpre x (List.mem_cons_self _ _)
      have hxs : ∀ y ∈ xs, y.id ≠ a.id := fun y hy => hpre y (List.mem_cons_of_mem _ hy)
      have := ih hxs
      simp only [ne_eq, decide_not] at this ⊢
      simp [List.dropWhile, hx, this]
  rw [this]

/-- C13: `dcmipp_pixelcap_buf_queue` appends the buffer at the tail of the queue.
If the state was `WAIT_FOR_BUFFER`, then after the call `next` is that buffer, bit 3
(`CPTREQ`) of the capture control register is set, the refresh counter is 1 and the
state is `RUNNING`. Otherwise state, `active`, `next`, the refresh counter and all
registers are as before. -/
theorem buf_queue_effect (vcap : dcmipp_pixelcap_device) (b : dcmipp_buf) :
    (dcmipp_pixelcap_buf_queue vcap b).buffers = vcap.buffers ++ [b] ∧
    (vcap.state = .DCMIPP_WAIT_FOR_BUFFER →
      (dcmipp_pixelcap_buf_queue vcap b).next = some b ∧
      ((dcmipp_pixelcap_buf_queue vcap b).regs (DCMIPP_PxFCTCR vcap.pipe_id)).testBit 3 = true ∧
      (dcmipp_pixelcap_buf_queue vcap b).vsync_frame_refresh_cnt = 1 ∧
      (dcmipp_pixelcap_buf_queue vcap b).state = .DCMIPP_RUNNING) ∧
    (vcap.state ≠ .DCMIPP_WAIT_FOR_BUFFER →
      (dcmipp_pixelcap_buf_queue vcap b).state = vcap.state ∧
      (dcmipp_pixelcap_buf_queue vcap b).active = vcap.active ∧
      (dcmipp_pixelcap_buf_queue vcap b).next = vcap.next ∧
      (dcmipp_pixelcap_buf_queue vcap b).vsync_frame_refresh_cnt =
        vcap.vsync_frame_refresh_cnt ∧
      (dcmipp_pixelcap_buf_queue vcap b).regs = vcap.regs) := by
  have hs := start_capture_fields
  unfold dcmipp_pixelcap_buf_queue
  by_cases h : vcap.state = .DCMIPP_WAIT_FOR_BUFFER
  · simp [h, hs]
  · simp [h]

theorem ppm0ar1_ne (id : Nat) :
    DCMIPP_PxPPM0AR1 id ≠ DCMIPP_P1PPM1AR1 ∧ DCMIPP_PxPPM0AR1 id ≠ DCMIPP_P1PPM2AR1 := by
  unfold DCMIPP_PxPPM0AR1
  by_cases h : id = 1 <;> simp [h] <;> decide

/-- C15: `dcmipp_pixelcap_set_next_frame_or_stop` called with an empty next slot.
If the queue holds exactly one buffer, the call clears bit 3 (`CPTREQ`) of the
capture control register, leaves `next` absent and sets the state to
`WAIT_FOR_BUFFER`; no other register changes, in particular none of the three
address registers. Otherwise, when `active` is in the queue with the buffer `nb`
right after it, `next` becomes `nb`, the plane-0 address register holds the plane-0
address of `nb`, and state, `active` and the queue are as before. -/
theorem set_next_frame_or_stop_next_empty (vcap : dcmipp_pixelcap_device)
    (hn : vcap.next = none) :
    (vcap.buffers.length = 1 →
      ∃ d, dcmipp_pixelcap_set_next_frame_or_stop vcap = some d ∧
        (d.regs (DCMIPP_PxFCTCR vcap.pipe_id)).testBit 3 = false ∧
        d.next = none ∧ d.state = .DCMIPP_WAIT_FOR_BUFFER ∧
        (∀ r, r ≠ DCMIPP_PxFCTCR vcap.pipe_id → d.regs r = vcap.regs r) ∧
        d.regs (DCMIPP_PxPPM0AR1 vcap.pipe_id) = vcap.regs (DCMIPP_PxPPM0AR1 vcap.pipe_id) ∧
        d.regs DCMIPP_P1PPM1AR1 = vcap.regs DCMIPP_P1PPM1AR1 ∧
        d.regs DCMIPP_P1PPM2AR1 = vcap.regs DCMIPP_P1PPM2AR1) ∧
    (vcap.buffers.length ≠ 1 →
      ∀ pre post a nb, vcap.active = some a → vcap.buffers = pre ++ a :: nb :: post →
        (∀ x ∈ pre, x.id ≠ a.id) →
        ∃ d, dcmipp_pixelcap_set_next_frame_or_stop vcap = some d ∧
          d.next = some nb ∧
          d.regs (DCMIPP_PxPPM0AR1 vcap.pipe_id) = u32 nb.paddrs0 ∧
          d.state = vcap.state ∧ d.active = some a ∧ d.buffers = vcap.buffers) := by
  obtain ⟨n1, n2, n3, n4, n5, n6, n7, n8⟩ := fctcr_ne vcap.pipe_id
  constructor
  · intro hl
    refine ⟨{ reg_clear vcap (DCMIPP_PxFCTCR vcap.pipe_id) DCMIPP_PxFCTCR_CPTREQ with
              next := none, state := .DCMIPP_WAIT_FOR_BUFFER }, ?_, ?_⟩
    · unfold dcmipp_pixelcap_set_next_frame_or_stop list_is_singular
      simp [hn, hl]
    · simp [reg_clear, reg_write, cptreq_after_clear, Ne.symm n4, Ne.symm n6, Ne.symm n8]
      intro r hr
      simp [hr]
  · intro hl pre post a nb ha hb hpre
    have hne := list_next_entry_split pre post a nb hpre
    rw [← hb] at hne
    unfold dcmipp_pixelcap_set_next_frame_or_stop list_is_singular
    obtain ⟨m1, m2⟩ := ppm0ar1_ne vcap.pipe_id
    have hfalse : ¬ (True ∧ false = true) := by simp
    simp only [hn, ha, hne, hl, decide_False, Option.isNone_none, hfalse, if_false]
    refine ⟨_, rfl, ?_⟩
    by_cases h1 : nb.paddrs1 = 0 <;> by_cases h2 : nb.paddrs2 = 0 <;>
      simp [h1, h2, reg_write, m1, m2]

theorem set_next_frame_or_stop_next_empty_witness :
    ∃ d, dcmipp_pixelcap_set_next_frame_or_stop (sample_swapped 1) = some d ∧
      (d.regs (DCMIPP_PxFCTCR (sample_swapped 1).pipe_id)).testBit 3 = false ∧
      d.next = none ∧ d.state = .DCMIPP_WAIT_FOR_BUFFER := by
  obtain ⟨d, h1, h2, h3, h4, -⟩ :=
    (set_next_frame_or_stop_next_empty (sample_swapped 1) (by decide)).1 (by decide)
  exact ⟨d, h1, h2, h3, h4⟩

/-- C16: `dcmipp_pixelcap_process_frame`. With an active buffer `a`: the queue
loses the entries with the identity of `a`, `a` is completed in the `DONE` state
with the sequence counter as its number, the frame-end time and payload
`sizeimage`, the sequence counter advances by one (32 bits), `active` becomes absent
and the counters `errors`, `overrun`, `nactive`, `underrun` are as before. With no
active buffer: `nactive` and `errors` each advance by one (32 bits) and state,
`next`, the queue, the sequence counter and the completed buffers are as before. -/
theorem process_frame_effect (vcap : dcmipp_pixelcap_device) (now : Nat) :
    (∀ a, vcap.active = some a →
      (dcmipp_pixelcap_process_frame vcap now).buffers = list_del_init vcap.buffers a ∧
      (∀ x ∈ (dcmipp_pixelcap_process_frame vcap now).buffers, x.id ≠ a.id) ∧
      (dcmipp_pixelcap_process_frame vcap now).done = vcap.done ++
        [{ a with sequence := vcap.sequence, field := V4L2_FIELD_NONE, timestamp := now,
                  bytesused := vcap.format.sizeimage,
                  state := vb2_buffer_state.VB2_BUF_STATE_DONE }] ∧
      (dcmipp_pixelcap_process_frame vcap now).sequence = u32 (vcap.sequence + 1) ∧
      (dcmipp_pixelcap_process_frame vcap now).active = none ∧
      (dcmipp_pixelcap_process_frame vcap now).count.errors = vcap.count.errors ∧
      (dcmipp_pixelcap_process_frame vcap now).count.overrun = vcap.count.overrun ∧
      (dcmipp_pixelcap_process_frame vcap now).count.nactive = vcap.count.nactive ∧
      (dcmipp_pixelcap_process_frame vcap now).count.underrun = vcap.count.underrun) ∧
    (vcap.active = none →
      (dcmipp_pixelcap_process_frame vcap now).count.nactive = u32 (vcap.count.nactive + 1) ∧
      (dcmipp_pixelcap_process_frame vcap now).count.errors = u32 (vcap.count.errors + 1) ∧
      (dcmipp_pixelcap_process_frame vcap now).state = vcap.state ∧
      (dcmipp_pixelcap_process_frame vcap now).next = vcap.next ∧
      (dcmipp_pixelcap_process_frame vcap now).buffers = vcap.buffers ∧
      (dcmipp_pixelcap_process_frame vcap now).sequence = vcap.sequence ∧
      (dcmipp_pixelcap_process_frame vcap now).done = vcap.done) := by
  constructor
  · intro a ha
    simp [dcmipp_pixelcap_process_frame, ha, dcmipp_buffer_done, list_del_init]
  · intro ha
    simp [dcmipp_pixelcap_process_frame, ha]

theorem stop_streaming_fields (vcap : dcmipp_pixelcap_device) (k : stream_env) :
    ((dcmipp_pixelcap_stop_streaming vcap k).regs (DCMIPP_PxFCTCR vcap.pipe_id)).testBit 3 =
      false ∧
    (dcmipp_pixelcap_stop_streaming vcap k).done = vcap.done ++
      vcap.buffers.map (fun b => { b with state := vb2_buffer_state.VB2_BUF_STATE_ERROR }) ∧
    (dcmipp_pixelcap_stop_streaming vcap k).buffers = [] ∧
    (dcmipp_pixelcap_stop_streaming vcap k).active = none ∧
    (dcmipp_pixelcap_stop_streaming vcap k).state = .DCMIPP_STOPPED ∧
    (dcmipp_pixelcap_stop_streaming vcap k).sequence = vcap.sequence ∧
    (dcmipp_pixelcap_stop_streaming vcap k).next = vcap.next ∧
    (dcmipp_pixelcap_stop_streaming vcap k).pipe_id = vcap.pipe_id := by
  obtain ⟨p1, p2, p3, p4, p5, p6, p7, p8, p9, p10, p11, p12, p13⟩ :=
    pipeline_s_stream_fields vcap k
  obtain ⟨n1, n2, n3, n4, n5, n6, n7, n8⟩ := fctcr_ne vcap.pipe_id
  unfold dcmipp_pixelcap_stop_streaming
  simp [reg_clear, reg_write, p2, p3, p4, p7, p9, n3, cptreq_after_clear]

/-- C19: from any device, `dcmipp_pixelcap_stop_streaming` clears bit 3 (`CPTREQ`)
of the capture control register and completes the buffers of the queue, each once,
in queue order, in the `ERROR` state, after what was completed before; the active
and the next buffer, when they are in the queue, are among them. Afterwards the
queue is empty, `active` is absent and the state is `STOPPED`. -/
theorem stop_streaming_effect (vcap : dcmipp_pixelcap_device) (k : stream_env) :
    ((dcmipp_pixelcap_stop_streaming vcap k).regs (DCMIPP_PxFCTCR vcap.pipe_id)).testBit 3 =
      false ∧
    (dcmipp_pixelcap_stop_streaming vcap k).done = vcap.done ++
      vcap.buffers.map (fun b => { b with state := vb2_buffer_state.VB2_BUF_STATE_ERROR }) ∧
    (∀ a, vcap.active = some a → a ∈ vcap.buffers →
      { a with state := vb2_buffer_state.VB2_BUF_STATE_ERROR } ∈
        (dcmipp_pixelcap_stop_streaming vcap k).done) ∧
    (∀ n, vcap.next = some n → n ∈ vcap.buffers →
      { n with state := vb2_buffer_state.VB2_BUF_STATE_ERROR } ∈
        (dcmipp_pixelcap_stop_streaming vcap k).done) ∧
    (dcmipp_pixelcap_stop_streaming vcap k).buffers = [] ∧
    (dcmipp_pixelcap_stop_streaming vcap k).active = none ∧
    (dcmipp_pixelcap_stop_streaming vcap k).state = .DCMIPP_STOPPED := by
  obtain ⟨h1, h2, h3, h4, h5, _⟩ := stop_streaming_fields vcap k
  have hmem : ∀ x, x ∈ vcap.buffers →
      { x with state := vb2_buffer_state.VB2_BUF_STATE_ERROR } ∈
        (dcmipp_pixelcap_stop_streaming vcap k).done := by
    intro x hx
    rw [h2]
    exact List.mem_append_right _
      (List.mem_map_of_mem
        (fun b => { b with state := vb2_buffer_state.VB2_BUF_STATE_ERROR }) hx)
  exact ⟨h1, h2, fun a _ ha => hmem a ha, fun n _ hn => hmem n hn, h3, h4, h5⟩

/-- C20: a second `dcmipp_pixelcap_stop_streaming` right after a first one
completes no buffer, and leaves the queue, `active`, the state and the sequence
counter as the first call left them. -/
theorem stop_streaming_twice (vcap : dcmipp_pixelcap_device) (k1 k2 : stream_env) :
    (dcmipp_pixelcap_stop_streaming (dcmipp_pixelcap_stop_streaming vcap k1) k2).done =
      (dcmipp_pixelcap_stop_streaming vcap k1).done ∧
    (dcmipp_pixelcap_stop_streaming (dcmipp_pixelcap_stop_streaming vcap k1) k2).buffers =
      (dcmipp_pixelcap_stop_streaming vcap k1).buffers ∧
    (dcmipp_pixelcap_stop_streaming (dcmipp_pixelcap_stop_streaming vcap k1) k2).active =
      (dcmipp_pixelcap_stop_streaming vcap k1).active ∧
    (dcmipp_pixelcap_stop_streaming (dcmipp_pixelcap_stop_streaming vcap k1) k2).state =
      (dcmipp_pixelcap_stop_streaming vcap k1).state ∧
    (dcmipp_pixelcap_stop_streaming (dcmipp_pixelcap_stop_streaming vcap k1) k2).sequence =
      (dcmipp_pixelcap_stop_streaming vcap k1).sequence := by
  obtain ⟨_, a2, a3, a4, a5, a6, _⟩ := stop_streaming_fields vcap k1
  obtain ⟨_, b2, b3, b4, b5, b6, _⟩ :=
    stop_streaming_fields (dcmipp_pixelcap_stop_streaming vcap k1) k2
  rw [b2, b3, b4, b5, b6, a3, a4, a5]
  simp

theorem refresh_cnt_expires : u32 (1 + 4294967295) = 0 := by decide

/-- C14, as the claim states it, fails. Sample device, two buffers, skip ratio 1:
after the first VSYNC the state is `RUNNING`, the refresh counter is 1, buffer 1 is
active and buffer 2 is next. The second VSYNC, with no frame end before it, makes
buffer 2 active; buffer 1 is not completed (nothing is) and stays in the queue: it
is the new `next`. -/
theorem vsync_swap_completes_nothing :
    (irq_run (sample_started 2 1) [sample_vsync 10]).map (fun d =>
      (d.state, d.vsync_frame_refresh_cnt, d.active.map (fun b => b.id),
        d.next.map (fun b => b.id))) = some (.DCMIPP_RUNNING, 1, some 1, some 2) ∧
    (irq_run (sample_started 2 1) [sample_vsync 10, sample_vsync 20]).map (fun d =>
      (d.active.map (fun b => b.id), d.next.map (fun b => b.id),
        d.done.map (fun b => b.id), d.buffers.map (fun b => b.id))) =
      some (some 2, some 1, [], [1, 2]) := by
  decide

theorem cmsr2_flags (id : Nat) :
    DCMIPP_CMSR2_PxVSYNCF id &&& DCMIPP_CMSR2_PxOVRF id = 0 ∧
    DCMIPP_CMSR2_PxVSYNCF id &&& DCMIPP_CMSR2_PxFRAMEF id = 0 ∧
    DCMIPP_CMSR2_PxVSYNCF id &&& DCMIPP_CMSR2_PxVSYNCF id ≠ 0 ∧
    DCMIPP_CMSR2_PxFRAMEF id &&& DCMIPP_CMSR2_PxOVRF id = 0 ∧
    DCMIPP_CMSR2_PxFRAMEF id &&& DCMIPP_CMSR2_PxFRAMEF id ≠ 0 ∧
    DCMIPP_CMSR2_PxFRAMEF id &&& DCMIPP_CMSR2_PxVSYNCF id = 0 := by
  unfold DCMIPP_CMSR2_PxVSYNCF DCMIPP_CMSR2_PxOVRF DCMIPP_CMSR2_PxFRAMEF
  by_cases h : id = 1 <;> simp only [h, if_true, if_false] <;> decide

theorem pixelcap_irq_run_append (v : dcmipp_pixelcap_device) (es fs : List (Nat × Nat)) :
    irq_run v (es ++ fs) = (irq_run v es).bind (fun d => irq_run d fs) := by
  induction es generalizing v with
  | nil => simp [irq_run]
  | cons e es ih =>
    obtain ⟨c, t⟩ := e
    simp only [List.cons_append, irq_run]
    cases irq_thread_on v c t with
    | none => rfl
    | some d => simp [ih]

theorem vsync_step (v : dcmipp_pixelcap_device) (b : dcmipp_buf) (rest : List dcmipp_buf)
    (tv : Nat)
    (hb : v.buffers = b :: rest) (ha : v.active = none)
    (hn : v.next = some b) (hs : v.state = .DCMIPP_RUNNING)
    (hc : v.vsync_frame_refresh_cnt = 1) (hr : v.frame_skip_ratio = 1) :
    ∃ d, irq_thread_on v (DCMIPP_CMSR2_PxVSYNCF v.pipe_id) tv = some d ∧
      d.buffers = b :: rest ∧ d.done = v.done ∧ d.sequence = v.sequence ∧
      d.active = some b ∧ d.pipe_id = v.pipe_id ∧ d.format = v.format ∧
      d.frame_skip_ratio = 1 ∧
      (rest = [] → d.state = .DCMIPP_WAIT_FOR_BUFFER ∧ d.next = none) ∧
      (∀ r rest', rest = r :: rest' →
        d.next = some r ∧ d.state = .DCMIPP_RUNNING ∧ d.vsync_frame_refresh_cnt = 1) := by
  obtain ⟨format, buffers, done, sequence, s_subdev, state, active, next, regs, pipe_id, cmier,
    cmsr2, count, cnt, ratio⟩ := v
  simp only at hb ha hn hs hc hr
  subst hb ha hn hs hc hr
  obtain ⟨f1, f2, f3, f4, f5, f6⟩ := cmsr2_flags pipe_id
  have f3' : DCMIPP_CMSR2_PxVSYNCF pipe_id ≠ 0 := by rwa [Nat.and_self] at f3
  cases rest with
  | nil =>
    simp [irq_thread_on, dcmipp_pixelcap_irq_thread, f1, f2, f3',
      refresh_cnt_expires, dcmipp_pixelcap_set_next_frame_or_stop, list_is_singular,
      reg_clear, reg_write]
  | cons r rest' =>
    by_cases h1 : r.paddrs1 = 0 <;> by_cases h2 : r.paddrs2 = 0 <;>
    simp [irq_thread_on, dcmipp_pixelcap_irq_thread, f1, f2, f3',
      refresh_cnt_expires, dcmipp_pixelcap_set_next_frame_or_stop, list_is_singular,
      reg_write, list_next_entry, List.dropWhile, h1, h2]

theorem frame_step (v : dcmipp_pixelcap_device) (b : dcmipp_buf) (rest : List dcmipp_buf)
    (tf : Nat)
    (hb : v.buffers = b :: rest) (hnd : ∀ x ∈ rest, x.id ≠ b.id) (ha : v.active = some b) :
    ∃ d, irq_thread_on v (DCMIPP_CMSR2_PxFRAMEF v.pipe_id) tf = some d ∧
      d.buffers = rest ∧
      d.done = v.done ++ [{ b with sequence := v.sequence, field := V4L2_FIELD_NONE,
                                   timestamp := tf, bytesused := v.format.sizeimage,
                                   state := vb2_buffer_state.VB2_BUF_STATE_DONE }] ∧
      d.sequence = u32 (v.sequence + 1) ∧ d.active = none ∧ d.pipe_id = v.pipe_id ∧
      d.format = v.format ∧ d.frame_skip_ratio = v.frame_skip_ratio ∧
      d.state = v.state ∧ d.next = v.next ∧
      d.vsync_frame_refresh_cnt = v.vsync_frame_refresh_cnt := by
  obtain ⟨format, buffers, done, sequence, s_subdev, state, active, next, regs, pipe_id, cmier,
    cmsr2, count, cnt, ratio⟩ := v
  simp only at hb ha
  subst hb ha
  obtain ⟨f1, f2, f3, f4, f5, f6⟩ := cmsr2_flags pipe_id
  have f5' : DCMIPP_CMSR2_PxFRAMEF pipe_id ≠ 0 := by rwa [Nat.and_self] at f5
  have hfilter : List.filter (fun x => !decide (x.id = b.id)) rest = rest := by
    rw [List.filter_eq_self]
    intro x hx
    simp [hnd x hx]
  simp [irq_thread_on, dcmipp_pixelcap_irq_thread, f4, f5', f6,
    dcmipp_pixelcap_process_frame, dcmipp_buffer_done, list_del_init, hfilter]

theorem round_step (v : dcmipp_pixelcap_device) (b : dcmipp_buf) (rest : List dcmipp_buf)
    (tv tf : Nat)
    (hb : v.buffers = b :: rest) (hnd : ∀ x ∈ rest, x.id ≠ b.id) (ha : v.active = none)
    (hn : v.next = some b) (hs : v.state = .DCMIPP_RUNNING)
    (hc : v.vsync_frame_refresh_cnt = 1) (hr : v.frame_skip_ratio = 1) :
    ∃ d, irq_run v [(DCMIPP_CMSR2_PxVSYNCF v.pipe_id, tv), (DCMIPP_CMSR2_PxFRAMEF v.pipe_id, tf)]
        = some d ∧
      d.buffers = rest ∧
      d.done = v.done ++ [{ b with sequence := v.sequence, field := V4L2_FIELD_NONE,
                                   timestamp := tf, bytesused := v.format.sizeimage,
                                   state := vb2_buffer_state.VB2_BUF_STATE_DONE }] ∧
      d.sequence = u32 (v.sequence + 1) ∧ d.active = none ∧ d.pipe_id = v.pipe_id ∧
      d.format = v.format ∧ d.frame_skip_ratio = 1 ∧
      (rest = [] → d.state = .DCMIPP_WAIT_FOR_BUFFER ∧ d.next = none) ∧
      (∀ r rest', rest = r :: rest' →
        d.next = some r ∧ d.state = .DCMIPP_RUNNING ∧ d.vsync_frame_refresh_cnt = 1) := by
  obtain ⟨d1, e1, a1, a2, a3, a4, a5, a6, a7, a8, a9⟩ := vsync_step v b rest tv hb ha hn hs hc hr
  obtain ⟨d2, e2, b1, b2, b3, b4, b5, b6, b7, b8, b9, b10⟩ := frame_step d1 b rest tf a1 hnd a4
  rw [a5] at e2
  refine ⟨d2, ?_, b1, ?_, ?_, b4, ?_, ?_, ?_, ?_, ?_⟩
  · simp [irq_run, e1, e2]
  · rw [b2, a2, a3, a6]
  · rw [b3, a3]
  · rw [b5, a5]
  · rw [b6, a6]
  · rw [b7, a7]
  · intro h
    rw [b8, b9]
    exact a8 h
  · intro r rest' h
    rw [b8, b9, b10]
    obtain ⟨c1, c2, c3⟩ := a9 r rest' h
    exact ⟨c1, c2, c3⟩

theorem rounds_run (p : Nat) (bs : List dcmipp_buf) :
    ∀ (ts : List (Nat × Nat)) (v : dcmipp_pixelcap_device) (b : dcmipp_buf),
      v.buffers = b :: bs → ((b :: bs).map (fun x => x.id)).Nodup → v.active = none →
      v.next = some b → v.state = .DCMIPP_RUNNING → v.vsync_frame_refresh_cnt = 1 →
      v.frame_skip_ratio = 1 → v.pipe_id = p → ts.length = bs.length + 1 →
      v.sequence + bs.length + 1 ≤ 4294967296 →
      ∃ d, irq_run v (vsync_frame_rounds p ts) = some d ∧
        d.done = v.done ++ frames_done v.format.sizeimage (b :: bs) ts v.sequence ∧
        d.state = .DCMIPP_WAIT_FOR_BUFFER ∧ d.buffers = [] ∧ d.active = none ∧
        d.next = none ∧ d.sequence = u32 (v.sequence + bs.length + 1) := by
  induction bs with
  | nil =>
    intro ts v b hb hnd ha hn hs hc hr hp hl hq
    match ts, hl with
    | [(tv, tf)], _ =>
      obtain ⟨d, e, a1, a2, a3, a4, a5, a6, a7, a8, a9⟩ :=
        round_step v b [] tv tf hb (by simp) ha hn hs hc hr
      rw [hp] at e
      obtain ⟨c1, c2⟩ := a8 rfl
      exact ⟨d, by simpa [vsync_frame_rounds] using e, by simpa [frames_done] using a2, c1, a1, a4,
        c2, by simpa using a3⟩
  | cons r rest ih =>
    intro ts v b hb hnd ha hn hs hc hr hp hl hq
    match ts, hl with
    | (tv, tf) :: ts', hl' =>
      have hnd' : (b.id :: (r :: rest).map (fun x => x.id)).Nodup := by simpa using hnd
      obtain ⟨hnot, hnd2⟩ := List.nodup_cons.mp hnd'
      have hne : ∀ x ∈ r :: rest, x.id ≠ b.id := by
        intro x hx heq
        exact hnot (heq ▸ List.mem_map_of_mem (fun x => x.id) hx)
      obtain ⟨d, e, a1, a2, a3, a4, a5, a6, a7, a8, a9⟩ :=
        round_step v b (r :: rest) tv tf hb hne ha hn hs hc hr
      rw [hp] at e
      obtain ⟨c1, c2, c3⟩ := a9 r rest rfl
      have hl2 : ts'.length = rest.length + 1 := by simpa using hl'
      have hseq : d.sequence = v.sequence + 1 := by
        rw [a3]; unfold u32
        simp only [List.length_cons] at hq
        omega
      have hq2 : d.sequence + rest.length + 1 ≤ 4294967296 := by
        rw [hseq]; simp only [List.length_cons] at hq; omega
      obtain ⟨d', e', g1, g2, g3, g4, g5, g6⟩ :=
        ih ts' d r a1 hnd2 a4 c1 c2 c3 a7 (a5.trans hp) hl2 hq2
      refine ⟨d', ?_, ?_, g2, g3, g4, g5, ?_⟩
      · have : vsync_frame_rounds p ((tv, tf) :: ts') =
            [(DCMIPP_CMSR2_PxVSYNCF p, tv), (DCMIPP_CMSR2_PxFRAMEF p, tf)] ++
              vsync_frame_rounds p ts' := rfl
        rw [this, pixelcap_irq_run_append, e]
        exact e'
      · rw [g1, a2, a6, hseq]
        simp [frames_done]
      · rw [g6, hseq]
        simp only [List.length_cons]
        congr 1
        omega

theorem frames_done_facts (sz : Nat) (bs : List dcmipp_buf) :
    ∀ (ts : List (Nat × Nat)) (seq : Nat), ts.length = bs.length →
      (frames_done sz bs ts seq).map (fun x => x.id) = bs.map (fun x => x.id) ∧
      (frames_done sz bs ts seq).map (fun x => x.sequence) =
        (List.range bs.length).map (fun i => seq + i) ∧
      (∀ x ∈ frames_done sz bs ts seq,
        x.state = vb2_buffer_state.VB2_BUF_STATE_DONE ∧ x.bytesused = sz) := by
  induction bs with
  | nil => intro ts seq _; cases ts <;> simp [frames_done]
  | cons b bs ih =>
    intro ts seq hl
    match ts, hl with
    | (tv, tf) :: ts', hl' =>
      have hl2 : ts'.length = bs.length := by simpa using hl'
      obtain ⟨i1, i2, i3⟩ := ih ts' (seq + 1) hl2
      refine ⟨?_, ?_, ?_⟩
      · simp [frames_done, i1]
      · simp only [frames_done, List.map_cons, i2, List.length_cons, List.range_succ_eq_map,
          List.map_map]
        simp only [Nat.add_zero, List.cons.injEq, true_and]
        apply List.map_congr_left
        intro i _
        simp only [Function.comp]
        omega
      · intro x hx
        simp only [frames_done, List.mem_cons] at hx
        rcases hx with rfl | hx
        · exact ⟨rfl, rfl⟩
        · exact i3 x hx

/-- C17: a device with `n >= 1` queued buffers of distinct identity and no active
buffer is started with skip ratio 1, the start returning 0; the interrupt thread
then runs `n` rounds of a VSYNC followed by a frame end. The run goes through, and
what it completes, after what was completed before, is exactly the `n` buffers in
queue order, each in the `DONE` state, with sequence numbers `0, 1, ..., n - 1`;
the device ends in `WAIT_FOR_BUFFER` with an empty queue. -/
theorem frames_complete_in_queue_order (v0 : dcmipp_pixelcap_device) (k : stream_env)
    (ts : List (Nat × Nat))
    (hfmt : (dcmipp_pixelcap_pix_map_by_pixelformat v0.format.pixelformat).isSome = true)
    (hret : (dcmipp_pixelcap_start_streaming v0 k).1 = 0)
    (hk : k.frame_skip_rate = some 1)
    (hne : 1 ≤ v0.buffers.length) (hbound : v0.buffers.length ≤ 4294967296)
    (hnd : (v0.buffers.map (fun x => x.id)).Nodup)
    (hact : v0.active = none) (hl : ts.length = v0.buffers.length) :
    ∃ d l, irq_run (dcmipp_pixelcap_start_streaming v0 k).2 (vsync_frame_rounds v0.pipe_id ts)
        = some d ∧
      d.done = v0.done ++ l ∧
      l = frames_done v0.format.sizeimage v0.buffers ts 0 ∧
      l.map (fun x => x.id) = v0.buffers.map (fun x => x.id) ∧
      l.map (fun x => x.sequence) = List.range v0.buffers.length ∧
      (∀ x ∈ l, x.state = vb2_buffer_state.VB2_BUF_STATE_DONE) ∧
      d.state = .DCMIPP_WAIT_FOR_BUFFER ∧ d.buffers = [] := by
  obtain ⟨s1, _, s3, _, s5, s6, s7, s8, s9⟩ := start_streaming_fields v0 k hfmt hret
  cases hb : v0.buffers with
  | nil => rw [hb] at hne; simp at hne
  | cons b rest =>
    obtain ⟨q1, q2, q3, q4, _⟩ := s1 b rest hb
    rw [hb] at hnd hl hbound
    have hratio : (dcmipp_pixelcap_start_streaming v0 k).2.frame_skip_ratio = 1 := by
      rw [s9 1 hk]; decide
    obtain ⟨d, e, g1, g2, g3, g4, g5, g6⟩ :=
      rounds_run v0.pipe_id rest ts (dcmipp_pixelcap_start_streaming v0 k).2 b q2 hnd
        (s5.trans hact) q1 q3 q4 hratio s8 (by simpa using hl)
        (by rw [s3]; simp only [List.length_cons] at hbound; omega)
    obtain ⟨i1, i2, i3⟩ := frames_done_facts v0.format.sizeimage (b :: rest) ts 0 hl
    refine ⟨d, _, e, ?_, rfl, i1, ?_, fun x hx => (i3 x hx).1, g2, g3⟩
    · rw [g1, s6, s7, s3]
    · rw [i2]; simp

theorem frames_complete_in_queue_order_witness :
    ∃ d l, irq_run (sample_started 3 1)
        (vsync_frame_rounds 1 [(10, 20), (30, 40), (50, 60)]) = some d ∧
      d.done = l ∧ l.map (fun x => x.id) = [1, 2, 3] ∧
      l.map (fun x => x.sequence) = [0, 1, 2] ∧
      d.state = .DCMIPP_WAIT_FOR_BUFFER ∧ d.buffers = [] := by
  obtain ⟨d, l, h1, h2, -, h4, h5, -, h7, h8⟩ :=
    frames_complete_in_queue_order (sample_queued 3) (sample_stream_env 1)
      [(10, 20), (30, 40), (50, 60)] (by decide) (by decide) rfl (by decide) (by decide)
      (by decide) (by decide) (by decide)
  exact ⟨d, l, h1, h2, h4, h5, h7, h8⟩

theorem vsync_expiring_step (a b : dcmipp_pixelcap_device) (t : Nat)
    (hs : a.state = .DCMIPP_RUNNING) (hc : a.vsync_frame_refresh_cnt = 1)
    (h : irq_thread_on a (DCMIPP_CMSR2_PxVSYNCF a.pipe_id) t = some b) :
    b.active = a.next ∧ b.vsync_frame_refresh_cnt = a.frame_skip_ratio ∧
    b.count.vsync = u32 (a.count.vsync + 1) ∧
    b.frame_skip_ratio = a.frame_skip_ratio ∧ b.pipe_id = a.pipe_id ∧
    b.buffers = a.buffers ∧ b.done = a.done ∧
    (b.state = .DCMIPP_RUNNING →
      ∃ n, b.next = some n ∧ b.regs (DCMIPP_PxPPM0AR1 a.pipe_id) = u32 n.paddrs0) := by
  obtain ⟨format, buffers, done, sequence, s_subdev, state, active, next, regs, pipe_id, cmier,
    cmsr2, count, cnt, ratio⟩ := a
  simp only at hs hc
  subst hs hc
  obtain ⟨f1, f2, f3, f4, f5, f6⟩ := cmsr2_flags pipe_id
  have f3' : DCMIPP_CMSR2_PxVSYNCF pipe_id ≠ 0 := by rwa [Nat.and_self] at f3
  obtain ⟨m1, m2⟩ := ppm0ar1_ne pipe_id
  simp only [irq_thread_on, dcmipp_pixelcap_irq_thread, f1, f2, f3, refresh_cnt_expires,
    ne_eq, not_true_eq_false, if_false, not_false_eq_true, if_true,
    reduceCtorEq] at h
  unfold dcmipp_pixelcap_set_next_frame_or_stop at h
  simp only [] at h
  split_ifs at h with hsing
  · simp only [Option.some.injEq] at h
    subst h
    simp [reg_clear, reg_write]
  · cases hact : active with
    | some x =>
      simp only [hact] at h
      by_cases h1 : x.paddrs1 = 0 <;> by_cases h2 : x.paddrs2 = 0 <;>
        simp only [h1, h2, ne_eq, not_true_eq_false, not_false_eq_true, if_true, if_false,
          Option.some.injEq] at h <;> subst h <;> simp [reg_write, m1, m2]
    | none =>
      simp only [hact] at h
      cases hnx : next with
      | none => simp only [hnx] at h; exact absurd h (by simp)
      | some y =>
        simp only [hnx] at h
        cases hne : list_next_entry buffers y with
        | none => simp only [hne] at h; exact absurd h (by simp)
        | some z =>
          simp only [hne] at h
          by_cases h1 : z.paddrs1 = 0 <;> by_cases h2 : z.paddrs2 = 0 <;>
            simp only [h1, h2, ne_eq, not_true_eq_false, not_false_eq_true, if_true, if_false,
              Option.some.injEq] at h <;> subst h <;> simp [reg_write, m1, m2]

theorem vsync_counting_step (a b : dcmipp_pixelcap_device) (t : Nat)
    (hs : a.state = .DCMIPP_RUNNING) (hc : 2 ≤ a.vsync_frame_refresh_cnt)
    (hc2 : a.vsync_frame_refresh_cnt < 4294967296)
    (h : irq_thread_on a (DCMIPP_CMSR2_PxVSYNCF a.pipe_id) t = some b) :
    b.count.vsync = u32 (a.count.vsync + 1) ∧
    b.vsync_frame_refresh_cnt = a.vsync_frame_refresh_cnt - 1 ∧
    b.active = a.active ∧ b.next = a.next ∧ b.state = a.state ∧ b.buffers = a.buffers ∧
    b.done = a.done ∧ b.regs = a.regs ∧ b.sequence = a.sequence ∧
    b.frame_skip_ratio = a.frame_skip_ratio ∧ b.pipe_id = a.pipe_id := by
  obtain ⟨format, buffers, done, sequence, s_subdev, state, active, next, regs, pipe_id, cmier,
    cmsr2, count, cnt, ratio⟩ := a
  simp only at hs hc hc2
  subst hs
  obtain ⟨f1, f2, f3, f4, f5, f6⟩ := cmsr2_flags pipe_id
  have hdec : u32 (cnt + 4294967295) = cnt - 1 := by unfold u32; omega
  have hnz : cnt - 1 ≠ 0 := by omega
  simp only [irq_thread_on, dcmipp_pixelcap_irq_thread, f1, f2, f3, hdec, hnz,
    ne_eq, not_true_eq_false, if_false, not_false_eq_true, if_true,
    reduceCtorEq, Option.some.injEq] at h
  subst h
  simp

theorem irq_trace_head (v : dcmipp_pixelcap_device) (es : List (Nat × Nat))
    (ds : List dcmipp_pixelcap_device) (h : irq_trace v es = some ds) : ds[0]? = some v := by
  cases es with
  | nil => simp [irq_trace] at h; subst h; simp
  | cons e es =>
    obtain ⟨c, t⟩ := e
    simp only [irq_trace] at h
    cases h1 : irq_thread_on v c t with
    | none => simp [h1] at h
    | some w =>
      simp only [h1, Option.some_bind] at h
      cases h2 : irq_trace w es with
      | none => simp [h2] at h
      | some l => simp [h2] at h; subst h; simp

theorem non_vsync_step (a b : dcmipp_pixelcap_device) (flags t : Nat)
    (hf : flags &&& DCMIPP_CMSR2_PxVSYNCF a.pipe_id = 0)
    (h : irq_thread_on a flags t = some b) :
    b.vsync_frame_refresh_cnt = a.vsync_frame_refresh_cnt ∧
    b.frame_skip_ratio = a.frame_skip_ratio ∧ b.pipe_id = a.pipe_id := by
  obtain ⟨format, buffers, done, sequence, s_subdev, state, active, next, regs, pipe_id, cmier,
    cmsr2, count, cnt, ratio⟩ := a
  simp only at hf
  unfold irq_thread_on dcmipp_pixelcap_irq_thread at h
  by_cases ho : flags &&& DCMIPP_CMSR2_PxOVRF pipe_id = 0 <;>
  by_cases hfr : flags &&& DCMIPP_CMSR2_PxFRAMEF pipe_id = 0 <;>
  cases active <;>
    simp [ho, hfr, hf, dcmipp_pixelcap_process_frame, dcmipp_buffer_done] at h <;>
    subst h <;> simp

theorem vsync_count_cons_vsync (p t : Nat) (es : List (Nat × Nat)) :
    vsync_count p ((DCMIPP_CMSR2_PxVSYNCF p, t) :: es) = vsync_count p es + 1 := by
  have f3 := (cmsr2_flags p).2.2.1
  rw [Nat.and_self] at f3
  simp [vsync_count, List.filter_cons, f3]

theorem vsync_count_cons_other (p : Nat) (e : Nat × Nat) (es : List (Nat × Nat))
    (h : e.1 &&& DCMIPP_CMSR2_PxVSYNCF p = 0) :
    vsync_count p (e :: es) = vsync_count p es := by
  simp [vsync_count, List.filter_cons, h]

theorem trace_schedule (p N : Nat) (hN : 1 ≤ N) (hN2 : N < 4294967296)
    (es : List (Nat × Nat)) :
    ∀ (v : dcmipp_pixelcap_device) (c : Nat) (ds : List dcmipp_pixelcap_device),
      v.pipe_id = p → v.frame_skip_ratio = N → v.vsync_frame_refresh_cnt = c → 1 ≤ c → c ≤ N →
      (∀ e ∈ es, e.1 = DCMIPP_CMSR2_PxVSYNCF p ∨ e.1 &&& DCMIPP_CMSR2_PxVSYNCF p = 0) →
      irq_trace v es = some ds → (∀ d ∈ ds, d.state = .DCMIPP_RUNNING) →
      ∀ j e a b, es[j]? = some e → ds[j]? = some a → ds[j + 1]? = some b →
        e.1 = DCMIPP_CMSR2_PxVSYNCF p →
        ((vsync_count p (es.take j) + N + 1 - c) % N = 0 →
          b.active = a.next ∧ b.vsync_frame_refresh_cnt = N ∧
          b.count.vsync = u32 (a.count.vsync + 1) ∧
          b.buffers = a.buffers ∧ b.done = a.done ∧
          ∃ n, b.next = some n ∧ b.regs (DCMIPP_PxPPM0AR1 p) = u32 n.paddrs0) ∧
        ((vsync_count p (es.take j) + N + 1 - c) % N ≠ 0 →
          b.count.vsync = u32 (a.count.vsync + 1) ∧
          b.vsync_frame_refresh_cnt = a.vsync_frame_refresh_cnt - 1 ∧
          1 ≤ b.vsync_frame_refresh_cnt ∧
          b.active = a.active ∧ b.next = a.next ∧ b.state = a.state ∧
          b.buffers = a.buffers ∧ b.done = a.done ∧ b.regs = a.regs) := by
  induction es with
  | nil =>
    intro v c ds _ _ _ _ _ _ htr _ j e a b he _ _ _
    simp at he
  | cons e0 es ih =>
    intro v c ds hp hr hc h1 h2 hev htr hrun j e a b he ha hb hvs
    obtain ⟨fl, t⟩ := e0
    simp only [irq_trace] at htr
    cases e1 : irq_thread_on v fl t with
    | none => simp [e1] at htr
    | some w =>
      simp only [e1, Option.some_bind] at htr
      cases e2 : irq_trace w es with
      | none => simp [e2] at htr
      | some l =>
        simp only [e2, Option.map_some', Option.some.injEq] at htr
        subst htr
        have hvst : v.state = .DCMIPP_RUNNING := hrun v (List.mem_cons_self _ _)
        have hl : ∀ d ∈ l, d.state = .DCMIPP_RUNNING :=
          fun d hd => hrun d (List.mem_cons_of_mem _ hd)
        have hw0 : l[0]? = some w := irq_trace_head w _ l e2
        have hws : w.state = .DCMIPP_RUNNING := by
          cases l with
          | nil => simp at hw0
          | cons x xs =>
            simp only [List.getElem?_cons_zero, Option.some.injEq] at hw0
            subst hw0
            exact hl _ (List.mem_cons_self _ _)
        have hev' : ∀ e ∈ es, e.1 = DCMIPP_CMSR2_PxVSYNCF p ∨
            e.1 &&& DCMIPP_CMSR2_PxVSYNCF p = 0 :=
          fun x hx => hev x (List.mem_cons_of_mem _ hx)
        have f3 := (cmsr2_flags p).2.2.1
        rcases hev (fl, t) (List.mem_cons_self _ _) with hfl | hfl
        · simp only at hfl
          subst hfl
          rw [← hp] at e1
          by_cases hc1 : c = 1
          · subst hc1
            obtain ⟨x1, x2, x3, x4, x5, x6, x7, x8⟩ := vsync_expiring_step v w t hvst hc e1
            cases j with
            | zero =>
              simp only [List.getElem?_cons_zero, Option.some.injEq] at ha
              simp only [zero_add, List.getElem?_cons_succ] at hb
              rw [hw0] at hb
              simp only [Option.some.injEq] at hb
              subst ha hb
              have hm : (vsync_count p (List.take 0 ((DCMIPP_CMSR2_PxVSYNCF p, t) :: es))
                  + N + 1 - 1) % N = 0 := by simp [vsync_count]
              refine ⟨fun _ => ⟨x1, x2.trans hr, x3, x6, x7, ?_⟩, fun hne => absurd hm hne⟩
              rw [← hp]
              exact x8 hws
            | succ j =>
              simp only [List.getElem?_cons_succ] at he ha hb
              have := ih w N l (x5.trans hp) (x4.trans hr) (x2.trans hr) hN (le_refl N) hev' e2 hl
                j e a b he ha hb hvs
              rw [List.take_succ_cons, vsync_count_cons_vsync]
              have e : (vsync_count p (List.take j es) + 1 + N + 1 - 1) % N =
                  (vsync_count p (List.take j es) + N + 1 - N) % N := by
                have : vsync_count p (List.take j es) + 1 + N + 1 - 1 =
                    (vsync_count p (List.take j es) + N + 1 - N) + N := by omega
                rw [this, Nat.add_mod_right]
              rw [e]
              exact this
          · have hc2 : 2 ≤ v.vsync_frame_refresh_cnt := by omega
            have hc3 : v.vsync_frame_refresh_cnt < 4294967296 := by omega
            obtain ⟨y1, y2, y3, y4, y5, y6, y7, y8, y9, y10, y11⟩ :=
              vsync_counting_step v w t hvst hc2 hc3 e1
            cases j with
            | zero =>
              simp only [List.getElem?_cons_zero, Option.some.injEq] at ha
              simp only [zero_add, List.getElem?_cons_succ] at hb
              rw [hw0] at hb
              simp only [Option.some.injEq] at hb
              subst ha hb
              have hm : (vsync_count p (List.take 0 ((DCMIPP_CMSR2_PxVSYNCF p, t) :: es))
                  + N + 1 - c) % N ≠ 0 := by
                have h0 : vsync_count p (List.take 0 ((DCMIPP_CMSR2_PxVSYNCF p, t) :: es)) = 0 := by
                  simp [vsync_count]
                rw [h0]
                have hlt : 0 + N + 1 - c < N := by omega
                rw [Nat.mod_eq_of_lt hlt]
                omega
              refine ⟨fun h0 => absurd h0 hm, fun _ => ⟨y1, y2, ?_, y3, y4, y5, y6, y7, y8⟩⟩
              omega
            | succ j =>
              simp only [List.getElem?_cons_succ] at he ha hb
              have := ih w (c - 1) l (y11.trans hp) (y10.trans hr) (by omega) (by omega)
                (by omega) hev' e2 hl j e a b he ha hb hvs
              rw [List.take_succ_cons, vsync_count_cons_vsync]
              have e : vsync_count p (List.take j es) + 1 + N + 1 - c =
                  vsync_count p (List.take j es) + N + 1 - (c - 1) := by omega
              rw [e]
              exact this
        · simp only at hfl
          rw [← hp] at hfl
          obtain ⟨z1, z2, z3⟩ := non_vsync_step v w fl t hfl e1
          rw [hp] at hfl
          cases j with
          | zero =>
            simp only [List.getElem?_cons_zero, Option.some.injEq] at he
            subst he
            simp only at hvs
            rw [hvs] at hfl
            exact absurd hfl f3
          | succ j =>
            simp only [List.getElem?_cons_succ] at he ha hb
            have := ih w c l (z3.trans hp) (z2.trans hr) (z1.trans hc) h1 h2 hev' e2 hl
              j e a b he ha hb hvs
            rw [List.take_succ_cons, vsync_count_cons_other p (fl, t) _ hfl]
            exact this

/-- C18: a device with skip ratio `N >= 1` and refresh counter 1, as
`dcmipp_start_capture` leaves it, runs the interrupt thread on events that are
either a VSYNC alone or carry no VSYNC flag, and is `RUNNING` before and after each
of them. At a VSYNC preceded by `m` VSYNCs: if `N` divides `m` (the first VSYNC, then
every `N`-th), the buffer that was next becomes active, the refresh counter is
reloaded with `N`, and the plane-0 address register holds the plane-0 address of
the new `next`; otherwise the refresh counter goes down by one and stays at least 1,
and `active`, `next`, the state, the queue, the completed buffers and all registers
are as before. In both cases the `vsync` counter advances by one (32 bits). -/
theorem skip_ratio_schedule (v : dcmipp_pixelcap_device) (N : Nat) (es : List (Nat × Nat))
    (ds : List dcmipp_pixelcap_device)
    (hN : 1 ≤ N) (hN2 : N < 4294967296) (hr : v.frame_skip_ratio = N)
    (hc : v.vsync_frame_refresh_cnt = 1)
    (hev : ∀ e ∈ es, e.1 = DCMIPP_CMSR2_PxVSYNCF v.pipe_id ∨
      e.1 &&& DCMIPP_CMSR2_PxVSYNCF v.pipe_id = 0)
    (htr : irq_trace v es = some ds)
    (hrun : ∀ d ∈ ds, d.state = .DCMIPP_RUNNING) :
    ∀ j e a b, es[j]? = some e → ds[j]? = some a → ds[j + 1]? = some b →
      e.1 = DCMIPP_CMSR2_PxVSYNCF v.pipe_id →
      (vsync_count v.pipe_id (es.take j) % N = 0 →
        b.active = a.next ∧ b.vsync_frame_refresh_cnt = N ∧
        b.count.vsync = u32 (a.count.vsync + 1) ∧
        b.buffers = a.buffers ∧ b.done = a.done ∧
        ∃ n, b.next = some n ∧ b.regs (DCMIPP_PxPPM0AR1 v.pipe_id) = u32 n.paddrs0) ∧
      (vsync_count v.pipe_id (es.take j) % N ≠ 0 →
        b.count.vsync = u32 (a.count.vsync + 1) ∧
        b.vsync_frame_refresh_cnt = a.vsync_frame_refresh_cnt - 1 ∧
        1 ≤ b.vsync_frame_refresh_cnt ∧
        b.active = a.active ∧ b.next = a.next ∧ b.state = a.state ∧
        b.buffers = a.buffers ∧ b.done = a.done ∧ b.regs = a.regs) := by
  intro j e a b he ha hb hvs
  have := trace_schedule v.pipe_id N hN hN2 es v 1 ds rfl hr hc (le_refl 1) hN hev htr hrun
    j e a b he ha hb hvs
  have e : (vsync_count v.pipe_id (es.take j) + N + 1 - 1) % N =
      vsync_count v.pipe_id (es.take j) % N := by
    have : vsync_count v.pipe_id (es.take j) + N + 1 - 1 =
        vsync_count v.pipe_id (es.take j) + N := by omega
    rw [this, Nat.add_mod_right]
  rw [e] at this
  exact this

theorem option_eq_some_getD {α : Type} (o : Option α) (x : α) (h : o.isSome = true) :
    o = some (o.getD x) := by
  cases o with
  | none => simp at h
  | some y => rfl

theorem skip_ratio_schedule_witness :
    ∃ a b, sample_trace[3]? = some a ∧ sample_trace[4]? = some b ∧
      vsync_count 1 (sample_mixed_events.take 3) % 2 = 0 ∧
      b.active = a.next ∧ b.vsync_frame_refresh_cnt = 2 := by
  have ha := option_eq_some_getD (sample_trace[3]?) sample_device (by decide)
  have hb := option_eq_some_getD (sample_trace[4]?) sample_device (by decide)
  have h := (skip_ratio_schedule (sample_started 3 2) 2 sample_mixed_events sample_trace
    (by decide) (by decide) (by decide) (by decide) (by decide)
    (option_eq_some_getD _ [] (by decide)) (by decide) 3 (sample_vsync 30) _ _ rfl ha hb rfl).1
    (by decide)
  exact ⟨_, _, ha, hb, by decide, h.1, h.2.1⟩

/-! ## Interrupt handler, link validation, format negotiation, counters and buffer
ownership: claims C21 to C24, C28 and C30 -/

theorem lor_low_mask (n a : Nat) : n ||| (2 ^ a - 1) = 2 ^ a * (n / 2 ^ a) + (2 ^ a - 1) := by
  have hb : 2 ^ a - 1 < 2 ^ a := Nat.sub_lt (Nat.two_pow_pos a) Nat.one_pos
  apply Nat.eq_of_testBit_eq
  intro j
  rw [Nat.testBit_mul_pow_two_add _ hb, Nat.testBit_or, Nat.testBit_two_pow_sub_one]
  by_cases hj : j < a
  · simp [hj]
  · have hd : n / 2 ^ a / 2 ^ (j - a) = n / 2 ^ j := by
      rw [Nat.div_div_eq_div_mul, ← Nat.pow_add]
      congr 2
      omega
    simp [hj, Nat.testBit_to_div_mod, hd]

theorem round_up_eq (x a : Nat) (hx : x < 4294967296) (ha : a ≤ 32) :
    round_up x (1 <<< a) = u32 (2 ^ a * ((x + 2 ^ a - 1) / 2 ^ a)) := by
  have hp : 0 < 2 ^ a := Nat.two_pow_pos a
  have hle : 2 ^ a ≤ 4294967296 := by
    have := Nat.pow_le_pow_right (show 0 < 2 by norm_num) ha
    simpa using this
  have hm : u32 (2 ^ a - 1) = 2 ^ a - 1 := by unfold u32; omega
  unfold round_up
  rw [Nat.one_shiftLeft, hm]
  rcases Nat.eq_zero_or_pos x with h0 | h0
  · subst h0
    have h1 : u32 (0 + 4294967295) = 2 ^ 32 - 1 := by decide
    rw [h1, lor_low_mask]
    have h2 : (0 + 2 ^ a - 1) / 2 ^ a = 0 := Nat.div_eq_of_lt (by omega)
    rw [h2]
    obtain ⟨c, hc⟩ : ∃ c, a + c = 32 := ⟨32 - a, by omega⟩
    have h3 : (2 ^ 32 - 1) / 2 ^ a = 2 ^ c - 1 := by
      have h4 : (2:Nat) ^ 32 = 2 ^ a * 2 ^ c := by rw [← Nat.pow_add, hc]
      have hc0 : 0 < 2 ^ c := Nat.two_pow_pos c
      rw [h4]
      have h5 : 2 ^ a * 2 ^ c - 1 = 2 ^ a * (2 ^ c - 1) + (2 ^ a - 1) := by
        rw [Nat.mul_sub, Nat.mul_one]
        have : 2 ^ a ≤ 2 ^ a * 2 ^ c := Nat.le_mul_of_pos_right _ hc0
        omega
      rw [h5, Nat.mul_add_div hp, Nat.div_eq_of_lt (by omega)]
      rfl
    rw [h3]
    have h6 : 2 ^ a * (2 ^ c - 1) + (2 ^ a - 1) + 1 = 2 ^ 32 := by
      have h4 : (2:Nat) ^ 32 = 2 ^ a * 2 ^ c := by rw [← Nat.pow_add, hc]
      have hc0 : 0 < 2 ^ c := Nat.two_pow_pos c
      rw [h4, Nat.mul_sub, Nat.mul_one]
      have : 2 ^ a ≤ 2 ^ a * 2 ^ c := Nat.le_mul_of_pos_right _ hc0
      omega
    rw [h6, Nat.mul_zero]
    decide
  · have h1 : u32 (x + 4294967295) = x - 1 := by unfold u32; omega
    rw [h1, lor_low_mask]
    have h2 : (x + 2 ^ a - 1) / 2 ^ a = (x - 1) / 2 ^ a + 1 := by
      have : x + 2 ^ a - 1 = (x - 1) + 2 ^ a := by omega
      rw [this, Nat.add_div_right _ hp]
    rw [h2, Nat.mul_add, Nat.mul_one]
    have e : 2 ^ a * ((x - 1) / 2 ^ a) + (2 ^ a - 1) + 1 = 2 ^ a * ((x - 1) / 2 ^ a) + 2 ^ a := by
      generalize 2 ^ a * ((x - 1) / 2 ^ a) = q
      generalize 2 ^ a = p at hp
      omega
    rw [e]

theorem ceil_mul_props (x p : Nat) (hp : 0 < p) :
    x ≤ p * ((x + p - 1) / p) ∧ p * ((x + p - 1) / p) < x + p ∧
    ∀ m, p ∣ m → x ≤ m → p * ((x + p - 1) / p) ≤ m := by
  have h1 := Nat.div_add_mod (x + p - 1) p
  have h2 := Nat.mod_lt (x + p - 1) hp
  refine ⟨by omega, by omega, ?_⟩
  intro m hm hx
  obtain ⟨k, rfl⟩ := hm
  apply Nat.mul_le_mul_left
  have h3 : (x + p - 1) / p ≤ (p * k + (p - 1)) / p := Nat.div_le_div_right (by omega)
  have h4 : (p * k + (p - 1)) / p = k := by
    rw [Nat.mul_add_div hp, Nat.div_eq_of_lt (Nat.sub_lt hp Nat.one_pos), Nat.add_zero]
  rw [h4] at h3
  exact h3

theorem table_alignment :
    ∀ m ∈ dcmipp_pixelcap_pix_map_list,
      1 <<< hdw_pixel_alignment m.pixelformat = 4 ∨ 1 <<< hdw_pixel_alignment m.pixelformat = 8 ∨
      1 <<< hdw_pixel_alignment m.pixelformat = 16 := by
  decide

theorem hdw_pixel_alignment_le (pf : v4l2_pix_fmt) : hdw_pixel_alignment pf ≤ 4 := by
  cases pf <;> simp [hdw_pixel_alignment]

theorem round_up_exact (x : Nat) (pf : v4l2_pix_fmt) (hx : x + 16 ≤ 4294967296) :
    round_up x (1 <<< hdw_pixel_alignment pf) =
      2 ^ hdw_pixel_alignment pf *
        ((x + 2 ^ hdw_pixel_alignment pf - 1) / 2 ^ hdw_pixel_alignment pf) := by
  have ha := hdw_pixel_alignment_le pf
  have hp : 0 < 2 ^ hdw_pixel_alignment pf := Nat.two_pow_pos _
  have hle : 2 ^ hdw_pixel_alignment pf ≤ 16 := by
    have := Nat.pow_le_pow_right (show 0 < 2 by norm_num) ha
    simpa using this
  rw [round_up_eq x _ (by omega) (by omega)]
  have := (ceil_mul_props x _ hp).2.1
  unfold u32
  exact Nat.mod_eq_of_lt (by omega)

theorem round_up_nonzero_exact (x : Nat) (pf : v4l2_pix_fmt) (hx : x < 4294967296)
    (hn : round_up x (1 <<< hdw_pixel_alignment pf) ≠ 0) :
    round_up x (1 <<< hdw_pixel_alignment pf) =
      2 ^ hdw_pixel_alignment pf *
        ((x + 2 ^ hdw_pixel_alignment pf - 1) / 2 ^ hdw_pixel_alignment pf) := by
  have ha := hdw_pixel_alignment_le pf
  have hp : 0 < 2 ^ hdw_pixel_alignment pf := Nat.two_pow_pos _
  rw [round_up_eq x _ hx (by omega)] at hn ⊢
  obtain ⟨h1, h2, -⟩ := ceil_mul_props x _ hp
  obtain ⟨c, hc⟩ : ∃ c, hdw_pixel_alignment pf + c = 32 := ⟨32 - hdw_pixel_alignment pf, by omega⟩
  have h4 : (4294967296 : Nat) = 2 ^ hdw_pixel_alignment pf * 2 ^ c := by
    rw [← Nat.pow_add, hc]
  generalize hq : (x + 2 ^ hdw_pixel_alignment pf - 1) / 2 ^ hdw_pixel_alignment pf = q at *
  generalize 2 ^ hdw_pixel_alignment pf = p at *
  generalize 2 ^ c = t at *
  unfold u32 at hn ⊢
  apply Nat.mod_eq_of_lt
  by_contra hge
  have hge' : p * t ≤ p * q := by omega
  have hqt : t ≤ q := Nat.le_of_mul_le_mul_left hge' hp
  have hlt : p * q < p * t + p := by omega
  have hlt' : p * q < p * (t + 1) := by rw [Nat.mul_add, Nat.mul_one]; exact hlt
  have hq2 : q < t + 1 := Nat.lt_of_mul_lt_mul_left hlt'
  have : q = t := by omega
  subst this
  rw [← h4] at hn
  exact hn (by decide)

/-- C22: for every 32-bit status value `s` handed over by the core,
`dcmipp_pixelcap_irq_callback` latches `s AND cmier` in `cmsr2`. When that value is not
zero the handler returns `IRQ_WAKE_THREAD` and the only register written is the
interrupt-clear register `DCMIPP_CMFCR`, which receives exactly that value; when it is
zero the handler returns `IRQ_HANDLED` and no register is written. -/
theorem irq_callback_latches_masked_status (vcap : dcmipp_pixelcap_device) (s : Nat)
    (hs : s < 4294967296) :
    (dcmipp_pixelcap_irq_callback vcap s).2.cmsr2 = s &&& vcap.cmier ∧
    (s &&& vcap.cmier ≠ 0 →
      (dcmipp_pixelcap_irq_callback vcap s).1 = .IRQ_WAKE_THREAD ∧
      (dcmipp_pixelcap_irq_callback vcap s).2.regs DCMIPP_CMFCR = s &&& vcap.cmier ∧
      ∀ r, r ≠ DCMIPP_CMFCR → (dcmipp_pixelcap_irq_callback vcap s).2.regs r = vcap.regs r) ∧
    (s &&& vcap.cmier = 0 →
      (dcmipp_pixelcap_irq_callback vcap s).1 = .IRQ_HANDLED ∧
      (dcmipp_pixelcap_irq_callback vcap s).2.regs = vcap.regs) := by
  have hlt : s &&& vcap.cmier < 4294967296 := Nat.lt_of_le_of_lt Nat.and_le_left hs
  have hu : u32 (s &&& vcap.cmier) = s &&& vcap.cmier := Nat.mod_eq_of_lt hlt
  unfold dcmipp_pixelcap_irq_callback
  by_cases h : s &&& vcap.cmier = 0
  · simp [h]
  · simp [h, reg_write, hu]
    intro r hr
    simp [hr]

theorem irq_callback_latches_masked_status_witness :
    (dcmipp_pixelcap_irq_callback (sample_started 1 1) DCMIPP_CMSR2_P1VSYNCF).1 =
      .IRQ_WAKE_THREAD ∧
    (dcmipp_pixelcap_irq_callback (sample_started 1 1) DCMIPP_CMSR2_P1VSYNCF).2.regs
      DCMIPP_CMFCR = DCMIPP_CMSR2_P1VSYNCF &&& (sample_started 1 1).cmier := by
  obtain ⟨-, h, -⟩ :=
    irq_callback_latches_masked_status (sample_started 1 1) DCMIPP_CMSR2_P1VSYNCF (by decide)
  obtain ⟨h1, h2, -⟩ := h (by decide)
  exact ⟨h1, h2⟩

/-- C24: a VSYNC (without frame-end or overrun flag) processed by
`dcmipp_pixelcap_irq_thread` in state `WAIT_FOR_BUFFER` increments the `vsync` and the
`underrun` counters and no other counter, `errors` included, and leaves the state, the
active and the next buffer, the refresh counter, the pending queue, the completed
buffers, the sequence counter and every register unchanged. -/
theorem vsync_while_waiting_counts_underrun (vcap : dcmipp_pixelcap_device) (flags now : Nat)
    (hs : vcap.state = .DCMIPP_WAIT_FOR_BUFFER)
    (hv : flags &&& DCMIPP_CMSR2_PxVSYNCF vcap.pipe_id ≠ 0)
    (hf : flags &&& DCMIPP_CMSR2_PxFRAMEF vcap.pipe_id = 0)
    (ho : flags &&& DCMIPP_CMSR2_PxOVRF vcap.pipe_id = 0) :
    ∃ d, irq_thread_on vcap flags now = some d ∧
      d.count = { vcap.count with vsync := u32 (vcap.count.vsync + 1),
                                  underrun := u32 (vcap.count.underrun + 1) } ∧
      d.state = vcap.state ∧ d.active = vcap.active ∧ d.next = vcap.next ∧
      d.vsync_frame_refresh_cnt = vcap.vsync_frame_refresh_cnt ∧
      d.buffers = vcap.buffers ∧ d.done = vcap.done ∧ d.sequence = vcap.sequence ∧
      d.regs = vcap.regs := by
  obtain ⟨format, buffers, done, sequence, s_subdev, state, active, next, regs, pipe_id, cmier,
    cmsr2, count, cnt, ratio⟩ := vcap
  simp only at hs hv hf ho
  subst hs
  simp [irq_thread_on, dcmipp_pixelcap_irq_thread, hv, hf, ho]

theorem vsync_while_waiting_counts_underrun_witness :
    ∃ d, irq_thread_on (sample_started 0 1) DCMIPP_CMSR2_P1VSYNCF 10 = some d ∧
      d.count.vsync = 1 ∧ d.count.underrun = 1 ∧ d.count.errors = 0 ∧
      d.state = .DCMIPP_WAIT_FOR_BUFFER := by
  obtain ⟨d, h1, h2, h3, -⟩ :=
    vsync_while_waiting_counts_underrun (sample_started 0 1) DCMIPP_CMSR2_P1VSYNCF 10
      (by decide) (by decide) (by decide) (by decide)
  refine ⟨d, h1, ?_, ?_, ?_, ?_⟩
  · rw [h2]; decide
  · rw [h2]; decide
  · rw [h2]; decide
  · rw [h3]; decide

theorem link_validate_eq (vcap : dcmipp_pixelcap_device) (get_fmt : Int)
    (src : v4l2_mbus_framefmt) (hg : 0 ≤ get_fmt) :
    (dcmipp_pixelcap_link_validate vcap get_fmt src = 0 ↔
      (vcap.format.height = src.height ∧
       vcap.format.width =
         round_up src.width (1 <<< hdw_pixel_alignment vcap.format.pixelformat) ∧
       ∃ m ∈ dcmipp_pixelcap_pix_map_list,
         m.pixelformat = vcap.format.pixelformat ∧ m.code = src.code)) ∧
    (dcmipp_pixelcap_link_validate vcap get_fmt src ≠ 0 →
      dcmipp_pixelcap_link_validate vcap get_fmt src = -EINVAL) := by
  have hg' : ¬ get_fmt < 0 := by omega
  have hE : (-(EINVAL : Int)) ≠ 0 := by decide
  by_cases hw : round_up src.width (1 <<< hdw_pixel_alignment vcap.format.pixelformat) =
      vcap.format.width
  · by_cases hh : src.height = vcap.format.height
    · by_cases ht : (dcmipp_pixelcap_pix_map_list.any (fun m =>
          decide (m.pixelformat = vcap.format.pixelformat ∧ m.code = src.code))) = true
      · have hr : dcmipp_pixelcap_link_validate vcap get_fmt src = 0 := by
          unfold dcmipp_pixelcap_link_validate
          simp only [hg', if_false, hw, hh, ne_eq, not_true_eq_false, or_self, ht, if_true]
        rw [List.any_eq_true] at ht
        obtain ⟨m, hm, hp⟩ := ht
        simp only [decide_eq_true_eq] at hp
        rw [hr]
        exact ⟨⟨fun _ => ⟨hh.symm, hw.symm, m, hm, hp⟩, fun _ => rfl⟩, fun h => absurd rfl h⟩
      · have hr : dcmipp_pixelcap_link_validate vcap get_fmt src = -EINVAL := by
          unfold dcmipp_pixelcap_link_validate
          simp only [hg', if_false, hw, hh, ne_eq, not_true_eq_false, or_self, ht]
          rfl
        have hn : ¬ ∃ m ∈ dcmipp_pixelcap_pix_map_list,
            m.pixelformat = vcap.format.pixelformat ∧ m.code = src.code := by
          intro ⟨m, hm, hp⟩
          apply ht
          rw [List.any_eq_true]
          exact ⟨m, hm, by simpa using hp⟩
        rw [hr]
        exact ⟨⟨fun h => absurd h hE, fun h => absurd h.2.2 hn⟩, fun _ => rfl⟩
    · have hr : dcmipp_pixelcap_link_validate vcap get_fmt src = -EINVAL := by
        unfold dcmipp_pixelcap_link_validate
        simp only [hg', if_false, hw, hh, ne_eq, not_true_eq_false, not_false_eq_true, false_or,
          if_true]
      rw [hr]
      exact ⟨⟨fun h => absurd h hE, fun h => absurd h.1.symm hh⟩, fun _ => rfl⟩
  · have hr : dcmipp_pixelcap_link_validate vcap get_fmt src = -EINVAL := by
      unfold dcmipp_pixelcap_link_validate
      simp only [hg', if_false, hw, ne_eq, not_false_eq_true, true_or, if_true]
    rw [hr]
    exact ⟨⟨fun h => absurd h hE, fun h => absurd h.2.1.symm hw⟩, fun _ => rfl⟩

/-- C23, counterexample: with an upstream width of 4294967295 pixels the 32-bit rounding
of `round_up` wraps to 0, so a capture format of width 0 is accepted although the capture
width is below the upstream width. -/
theorem link_validate_accepts_wrapped_width :
    dcmipp_pixelcap_link_validate sample_zero_width_device 0 sample_wide_source = 0 ∧
    sample_zero_width_device.format.width = 0 ∧ sample_wide_source.width = 4294967295 ∧
    1 <<< hdw_pixel_alignment sample_zero_width_device.format.pixelformat = 8 ∧
    ¬ (sample_wide_source.width ≤ sample_zero_width_device.format.width) := by
  decide

/-- C23, amended: when the upstream format can be read (its width being a 32-bit value),
`dcmipp_pixelcap_link_validate` returns 0 if and only if the capture height equals the
upstream height, the capture width equals `round_up` of the upstream width to the pixel
alignment of the capture format, computed in 32 bits, and the pair (capture pixel format,
upstream bus code) is in the pixel map table; otherwise it returns `-EINVAL`. The 32-bit
`round_up` is the smallest multiple of the alignment not below the upstream width
whenever the upstream width is at most 2^32 - 16. Every accepted capture width other
than 0 is that smallest multiple: it is not below the upstream width and exceeds it by
less than the alignment, which is 4, 8 or 16. -/
theorem link_validate_accepts_aligned_width (vcap : dcmipp_pixelcap_device) (get_fmt : Int)
    (src : v4l2_mbus_framefmt) (hg : 0 ≤ get_fmt) (hw : src.width < 4294967296) :
    (dcmipp_pixelcap_link_validate vcap get_fmt src = 0 ↔
      (vcap.format.height = src.height ∧
       vcap.format.width =
         round_up src.width (1 <<< hdw_pixel_alignment vcap.format.pixelformat) ∧
       ∃ m ∈ dcmipp_pixelcap_pix_map_list,
         m.pixelformat = vcap.format.pixelformat ∧ m.code = src.code)) ∧
    (dcmipp_pixelcap_link_validate vcap get_fmt src ≠ 0 →
      dcmipp_pixelcap_link_validate vcap get_fmt src = -EINVAL) ∧
    (src.width + 16 ≤ 4294967296 →
      round_up src.width (1 <<< hdw_pixel_alignment vcap.format.pixelformat) =
        2 ^ hdw_pixel_alignment vcap.format.pixelformat *
          ((src.width + 2 ^ hdw_pixel_alignment vcap.format.pixelformat - 1) /
            2 ^ hdw_pixel_alignment vcap.format.pixelformat)) ∧
    (dcmipp_pixelcap_link_validate vcap get_fmt src = 0 → vcap.format.width ≠ 0 →
      src.width ≤ vcap.format.width ∧
      vcap.format.width < src.width + 1 <<< hdw_pixel_alignment vcap.format.pixelformat ∧
      1 <<< hdw_pixel_alignment vcap.format.pixelformat ∣ vcap.format.width ∧
      (∀ w, 1 <<< hdw_pixel_alignment vcap.format.pixelformat ∣ w → src.width ≤ w →
        vcap.format.width ≤ w) ∧
      (1 <<< hdw_pixel_alignment vcap.format.pixelformat = 4 ∨
       1 <<< hdw_pixel_alignment vcap.format.pixelformat = 8 ∨
       1 <<< hdw_pixel_alignment vcap.format.pixelformat = 16)) := by
  obtain ⟨h1, h2⟩ := link_validate_eq vcap get_fmt src hg
  refine ⟨h1, h2, fun h => round_up_exact _ _ h, ?_⟩
  intro hacc hnz
  obtain ⟨-, hwid, m, hm, hpf, -⟩ := h1.mp hacc
  have hal := table_alignment m hm
  rw [hpf] at hal
  rw [hwid] at hnz
  have hex := round_up_nonzero_exact src.width vcap.format.pixelformat hw hnz
  rw [hwid, hex, Nat.one_shiftLeft]
  obtain ⟨c1, c2, c3⟩ := ceil_mul_props src.width (2 ^ hdw_pixel_alignment vcap.format.pixelformat)
    (Nat.two_pow_pos _)
  rw [Nat.one_shiftLeft] at hal
  exact ⟨c1, c2, Nat.dvd_mul_right _ _, c3, hal⟩

theorem link_validate_accepts_aligned_width_witness :
    dcmipp_pixelcap_link_validate sample_device 0 sample_source = 0 ∧
    sample_source.width ≤ sample_device.format.width ∧
    sample_device.format.width <
      sample_source.width + 1 <<< hdw_pixel_alignment sample_device.format.pixelformat := by
  obtain ⟨h1, h2, -⟩ :=
    (link_validate_accepts_aligned_width sample_device 0 sample_source (by decide)
      (by decide)).2.2.2 (by decide) (by decide)
  exact ⟨by decide, h1, h2⟩

theorem default_pix_map :
    dcmipp_pixelcap_pix_map_by_pixelformat fmt_default_pixelformat =
      some ⟨.MEDIA_BUS_FMT_RGB888_1X24, .V4L2_PIX_FMT_RGB565, 1, DCMIPP_PxPPCR_FORMAT_RGB565, 0⟩ := by
  decide

theorem try_fmt_fields (k : fmt_env) (pipe_id : Nat) (format : v4l2_pix_format) :
    ∃ f, dcmipp_pixelcap_try_fmt_vid_cap k pipe_id format = some f ∧
      f.width = round_up
        (clamp_t format.width k.DCMIPP_FRAME_MIN_WIDTH k.DCMIPP_FRAME_MAX_WIDTH)
        (1 <<< hdw_pixel_alignment f.pixelformat) ∧
      f.height = clamp_t format.height k.DCMIPP_FRAME_MIN_HEIGHT k.DCMIPP_FRAME_MAX_HEIGHT ∧
      (∃ m, dcmipp_pixelcap_pix_map_by_pixelformat f.pixelformat = some m ∧
        ¬ (m.plane_nb > 1 ∧ pipe_id ≠ 1)) ∧
      ((∃ m, dcmipp_pixelcap_pix_map_by_pixelformat format.pixelformat = some m ∧
        ¬ (m.plane_nb > 1 ∧ pipe_id ≠ 1)) → f.pixelformat = format.pixelformat) := by
  have hd := default_pix_map
  unfold dcmipp_pixelcap_try_fmt_vid_cap
  cases hl : dcmipp_pixelcap_pix_map_by_pixelformat format.pixelformat with
  | none =>
    simp [hd]
  | some m =>
    by_cases hpl : m.plane_nb > 1 ∧ pipe_id ≠ 1
    · simp [hd, hpl]
    · simp [hl, hpl]
      intro h1
      by_contra h2
      exact hpl ⟨h1, h2⟩

/-- C30, counterexample: with width limits 1 and 4294967295 (minimum below maximum) and a
requested width of 4294967295, the first call returns width 0, which is below the clamped
request 4294967295, and the call on that result returns width 8: the width is not kept. -/
theorem try_fmt_width_wraps :
    (dcmipp_pixelcap_try_fmt_vid_cap wide_fmt_env 1 wide_format).map
      (fun f => (f.pixelformat, f.width, f.height)) =
      some (.V4L2_PIX_FMT_RGB565, 0, 480) ∧
    ((dcmipp_pixelcap_try_fmt_vid_cap wide_fmt_env 1 wide_format).bind
      (dcmipp_pixelcap_try_fmt_vid_cap wide_fmt_env 1)).map
      (fun f => (f.pixelformat, f.width, f.height)) =
      some (.V4L2_PIX_FMT_RGB565, 8, 480) ∧
    wide_fmt_env.DCMIPP_FRAME_MIN_WIDTH ≤ wide_fmt_env.DCMIPP_FRAME_MAX_WIDTH ∧
    wide_fmt_env.DCMIPP_FRAME_MIN_HEIGHT ≤ wide_fmt_env.DCMIPP_FRAME_MAX_HEIGHT ∧
    clamp_t wide_format.width wide_fmt_env.DCMIPP_FRAME_MIN_WIDTH
      wide_fmt_env.DCMIPP_FRAME_MAX_WIDTH = 4294967295 := by
  decide

theorem clamp_t_bounds (v lo hi : Nat) (h : lo ≤ hi) (hh : hi < 4294967296) :
    lo ≤ clamp_t v lo hi ∧ clamp_t v lo hi ≤ hi := by
  have e1 : u32 lo = lo := Nat.mod_eq_of_lt (by omega)
  have e2 : u32 hi = hi := Nat.mod_eq_of_lt hh
  unfold clamp_t
  rw [e1, e2]
  split_ifs <;> omega

theorem clamp_t_of_mem (v lo hi : Nat) (h1 : lo ≤ v) (h2 : v ≤ hi) (hh : hi < 4294967296) :
    clamp_t v lo hi = v := by
  have e1 : u32 lo = lo := Nat.mod_eq_of_lt (by omega)
  have e2 : u32 hi = hi := Nat.mod_eq_of_lt hh
  have e3 : u32 v = v := Nat.mod_eq_of_lt (by omega)
  unfold clamp_t
  rw [e1, e2, e3]
  split_ifs <;> omega

theorem clamp_t_of_ge (v lo hi : Nat) (h1 : hi ≤ v) (hv : v < 4294967296) :
    clamp_t v lo hi = hi := by
  have e2 : u32 hi = hi := Nat.mod_eq_of_lt (by omega)
  have e3 : u32 v = v := Nat.mod_eq_of_lt hv
  unfold clamp_t
  rw [e2, e3]
  simp [h1]

theorem round_up_clamp_idem (v lo hi : Nat) (pf : v4l2_pix_fmt) (h : lo ≤ hi)
    (hh : hi + 16 ≤ 4294967296) :
    round_up (clamp_t (round_up (clamp_t v lo hi) (1 <<< hdw_pixel_alignment pf)) lo hi)
        (1 <<< hdw_pixel_alignment pf) =
      round_up (clamp_t v lo hi) (1 <<< hdw_pixel_alignment pf) ∧
    1 <<< hdw_pixel_alignment pf ∣ round_up (clamp_t v lo hi) (1 <<< hdw_pixel_alignment pf) ∧
    clamp_t v lo hi ≤ round_up (clamp_t v lo hi) (1 <<< hdw_pixel_alignment pf) := by
  obtain ⟨b1, b2⟩ := clamp_t_bounds v lo hi h (by omega)
  have ha := hdw_pixel_alignment_le pf
  have hp : 0 < 2 ^ hdw_pixel_alignment pf := Nat.two_pow_pos _
  have hle : 2 ^ hdw_pixel_alignment pf ≤ 16 := by
    have := Nat.pow_le_pow_right (show 0 < 2 by norm_num) ha
    simpa using this
  have e1 := round_up_exact (clamp_t v lo hi) pf (by omega)
  obtain ⟨c1, c2, c3⟩ := ceil_mul_props (clamp_t v lo hi) _ hp
  rw [e1]
  generalize hc : clamp_t v lo hi = c at *
  generalize hR : 2 ^ hdw_pixel_alignment pf *
    ((c + 2 ^ hdw_pixel_alignment pf - 1) / 2 ^ hdw_pixel_alignment pf) = R at *
  have hdvd : 2 ^ hdw_pixel_alignment pf ∣ R := hR ▸ Nat.dvd_mul_right _ _
  refine ⟨?_, by rw [Nat.one_shiftLeft]; exact hdvd, c1⟩
  by_cases hge : hi ≤ R
  · rw [clamp_t_of_ge R lo hi hge (by omega), round_up_exact hi pf hh]
    obtain ⟨d1, d2, d3⟩ := ceil_mul_props hi _ hp
    apply Nat.le_antisymm
    · exact d3 R hdvd hge
    · exact c3 _ (Nat.dvd_mul_right _ _) (by omega)
  · rw [clamp_t_of_mem R lo hi (by omega) (by omega) (by omega), round_up_exact R pf (by omega)]
    obtain ⟨d1, d2, d3⟩ := ceil_mul_props R _ hp
    apply Nat.le_antisymm
    · exact d3 R hdvd (le_refl R)
    · exact d1

/-- C30, amended: for every requested format and every pipe, and for all frame size
limits with minimum not above maximum whose maximum width is at most 2^32 - 16 and whose
maximum height fits in 32 bits, `dcmipp_pixelcap_try_fmt_vid_cap` returns a format, the
call on that result returns a format with the same pixel format, width and height, and
the resulting width is a multiple of the pixel alignment of the resulting pixel format
and is not below the requested width clamped to the width limits. -/
theorem try_fmt_idempotent (k : fmt_env) (pipe_id : Nat) (format : v4l2_pix_format)
    (hw : k.DCMIPP_FRAME_MIN_WIDTH ≤ k.DCMIPP_FRAME_MAX_WIDTH)
    (hwf : k.DCMIPP_FRAME_MAX_WIDTH + 16 ≤ 4294967296)
    (hh : k.DCMIPP_FRAME_MIN_HEIGHT ≤ k.DCMIPP_FRAME_MAX_HEIGHT)
    (hhf : k.DCMIPP_FRAME_MAX_HEIGHT < 4294967296) :
    ∃ f1 f2, dcmipp_pixelcap_try_fmt_vid_cap k pipe_id format = some f1 ∧
      dcmipp_pixelcap_try_fmt_vid_cap k pipe_id f1 = some f2 ∧
      f2.pixelformat = f1.pixelformat ∧ f2.width = f1.width ∧ f2.height = f1.height ∧
      1 <<< hdw_pixel_alignment f1.pixelformat ∣ f1.width ∧
      clamp_t format.width k.DCMIPP_FRAME_MIN_WIDTH k.DCMIPP_FRAME_MAX_WIDTH ≤ f1.width := by
  obtain ⟨f1, e1, w1, h1, p1, -⟩ := try_fmt_fields k pipe_id format
  obtain ⟨f2, e2, w2, h2, -, q2⟩ := try_fmt_fields k pipe_id f1
  have hpf : f2.pixelformat = f1.pixelformat := q2 p1
  obtain ⟨r1, r2, r3⟩ := round_up_clamp_idem format.width k.DCMIPP_FRAME_MIN_WIDTH
    k.DCMIPP_FRAME_MAX_WIDTH f1.pixelformat hw hwf
  obtain ⟨b1, b2⟩ := clamp_t_bounds format.height k.DCMIPP_FRAME_MIN_HEIGHT
    k.DCMIPP_FRAME_MAX_HEIGHT hh hhf
  refine ⟨f1, f2, e1, e2, hpf, ?_, ?_, ?_, ?_⟩
  · rw [w2, hpf, w1, r1]
  · rw [h2, h1, clamp_t_of_mem _ _ _ b1 b2 hhf]
  · rw [w1]; exact r2
  · rw [w1]; exact r3

theorem try_fmt_idempotent_witness :
    ∃ f1 f2, dcmipp_pixelcap_try_fmt_vid_cap sample_fmt_env 2
        { sample_device.format with width := 641, pixelformat := .V4L2_PIX_FMT_NV12 } = some f1 ∧
      dcmipp_pixelcap_try_fmt_vid_cap sample_fmt_env 2 f1 = some f2 ∧
      f2.pixelformat = f1.pixelformat ∧ f2.width = f1.width ∧ f2.height = f1.height :=  by
  obtain ⟨f1, f2, h1, h2, h3, h4, h5, -⟩ :=
    try_fmt_idempotent sample_fmt_env 2
      { sample_device.format with width := 641, pixelformat := .V4L2_PIX_FMT_NV12 }
      (by decide) (by decide) (by decide) (by decide)
  exact ⟨f1, f2, h1, h2, h3, h4, h5⟩

theorem irq_overrun_part_fields (v : dcmipp_pixelcap_device) :
    (irq_overrun_part v).pipe_id = v.pipe_id ∧ (irq_overrun_part v).cmsr2 = v.cmsr2 ∧
    (irq_overrun_part v).buffers = v.buffers ∧ (irq_overrun_part v).done = v.done ∧
    (irq_overrun_part v).state = v.state ∧ (irq_overrun_part v).active = v.active ∧
    (irq_overrun_part v).next = v.next ∧ (irq_overrun_part v).cmier = v.cmier ∧
    (irq_overrun_part v).regs = v.regs ∧ (irq_overrun_part v).sequence = v.sequence := by
  unfold irq_overrun_part
  split_ifs <;> simp

theorem process_frame_fields (v : dcmipp_pixelcap_device) (now : Nat) :
    (dcmipp_pixelcap_process_frame v now).pipe_id = v.pipe_id ∧
    (dcmipp_pixelcap_process_frame v now).cmsr2 = v.cmsr2 ∧
    (dcmipp_pixelcap_process_frame v now).state = v.state ∧
    (dcmipp_pixelcap_process_frame v now).next = v.next ∧
    (dcmipp_pixelcap_process_frame v now).cmier = v.cmier ∧
    (dcmipp_pixelcap_process_frame v now).regs = v.regs := by
  unfold dcmipp_pixelcap_process_frame
  cases v.active <;> simp [dcmipp_buffer_done]

theorem irq_frame_part_fields (v : dcmipp_pixelcap_device) (now : Nat) :
    (irq_frame_part v now).pipe_id = v.pipe_id ∧ (irq_frame_part v now).cmsr2 = v.cmsr2 ∧
    (irq_frame_part v now).state = v.state ∧ (irq_frame_part v now).next = v.next ∧
    (irq_frame_part v now).cmier = v.cmier ∧ (irq_frame_part v now).regs = v.regs := by
  unfold irq_frame_part
  split_ifs
  · have h := process_frame_fields
      { v with count := { v.count with frame := u32 (v.count.frame + 1) } } now
    simpa using h
  · simp

theorem irq_thread_parts (v : dcmipp_pixelcap_device) (now : Nat) :
    dcmipp_pixelcap_irq_thread v now =
      irq_vsync_part (irq_frame_part (irq_overrun_part v) now) := by
  obtain ⟨format, buffers, done, sequence, s_subdev, state, active, next, regs, pipe_id, cmier,
    cmsr2, count, cnt, ratio⟩ := v
  by_cases ho : cmsr2 &&& DCMIPP_CMSR2_PxOVRF pipe_id = 0 <;>
  by_cases hfr : cmsr2 &&& DCMIPP_CMSR2_PxFRAMEF pipe_id = 0 <;>
  cases active <;>
    simp [dcmipp_pixelcap_irq_thread, irq_vsync_part, irq_frame_part, irq_overrun_part, ho, hfr,
      dcmipp_pixelcap_process_frame, dcmipp_buffer_done]

theorem program_next_fields (v : dcmipp_pixelcap_device) (n : dcmipp_buf) :
    let w := (if n.paddrs2 ≠ 0 then
        reg_write (if n.paddrs1 ≠ 0 then
          reg_write (reg_write v (DCMIPP_PxPPM0AR1 v.pipe_id) n.paddrs0) DCMIPP_P1PPM1AR1 n.paddrs1
          else reg_write v (DCMIPP_PxPPM0AR1 v.pipe_id) n.paddrs0) DCMIPP_P1PPM2AR1 n.paddrs2
      else (if n.paddrs1 ≠ 0 then
          reg_write (reg_write v (DCMIPP_PxPPM0AR1 v.pipe_id) n.paddrs0) DCMIPP_P1PPM1AR1 n.paddrs1
          else reg_write v (DCMIPP_PxPPM0AR1 v.pipe_id) n.paddrs0))
    w.buffers = v.buffers ∧ w.done = v.done ∧ w.active = v.active ∧ w.next = v.next ∧
    w.state = v.state ∧ w.cmier = v.cmier ∧ w.count = v.count ∧ w.sequence = v.sequence ∧
    w.pipe_id = v.pipe_id := by
  intro w
  by_cases h1 : n.paddrs1 = 0 <;> by_cases h2 : n.paddrs2 = 0 <;>
    simp [w, h1, h2, reg_write]

theorem set_next_frame_or_stop_cases (v d : dcmipp_pixelcap_device)
    (h : dcmipp_pixelcap_set_next_frame_or_stop v = some d) :
    d.buffers = v.buffers ∧ d.done = v.done ∧ d.active = v.active ∧ d.cmier = v.cmier ∧
    d.count = v.count ∧ d.sequence = v.sequence ∧ d.pipe_id = v.pipe_id ∧
    ((v.next = none ∧ list_is_singular v.buffers = true ∧ d.next = none ∧
        d.state = .DCMIPP_WAIT_FOR_BUFFER) ∨
     (¬ (v.next = none ∧ list_is_singular v.buffers = true) ∧ d.state = v.state ∧
        ∃ n, d.next = some n ∧
          (v.next = some n ∨
            (v.next = none ∧ ∃ a, v.active = some a ∧
              list_next_entry v.buffers a = some n)))) := by
  obtain ⟨format, buffers, done, sequence, s_subdev, state, active, next, regs, pipe_id, cmier,
    cmsr2, count, cnt, ratio⟩ := v
  unfold dcmipp_pixelcap_set_next_frame_or_stop at h
  simp only [] at h ⊢
  cases next with
  | some n =>
    rw [if_neg (by simp)] at h
    simp only [Option.some.injEq] at h
    have hp := program_next_fields
      { format := format, buffers := buffers, done := done, sequence := sequence,
        s_subdev := s_subdev, state := state, active := active, next := some n, regs := regs,
        pipe_id := pipe_id, cmier := cmier, cmsr2 := cmsr2, count := count,
        vsync_frame_refresh_cnt := cnt, frame_skip_ratio := ratio } n
    simp only [] at hp
    rw [h] at hp
    obtain ⟨q1, q2, q3, q4, q5, q6, q7, q8, q9⟩ := hp
    refine ⟨q1, q2, q3, q6, q7, q8, q9, Or.inr ⟨by simp, q5, n, q4, Or.inl rfl⟩⟩
  | none =>
    by_cases hs : list_is_singular buffers = true
    · rw [if_pos (by simp [hs])] at h
      simp only [Option.some.injEq] at h
      subst h
      simp [reg_clear, reg_write, hs]
    · rw [if_neg (by simp [hs])] at h
      cases active with
      | none => simp at h
      | some a =>
        simp only [] at h
        cases hn : list_next_entry buffers a with
        | none => simp [hn] at h
        | some n =>
          simp only [hn, Option.some.injEq] at h
          have hp := program_next_fields
            { format := format, buffers := buffers, done := done, sequence := sequence,
              s_subdev := s_subdev, state := state, active := some a, next := some n,
              regs := regs, pipe_id := pipe_id, cmier := cmier, cmsr2 := cmsr2, count := count,
              vsync_frame_refresh_cnt := cnt, frame_skip_ratio := ratio } n
          simp only [] at hp
          rw [h] at hp
          obtain ⟨q1, q2, q3, q4, q5, q6, q7, q8, q9⟩ := hp
          refine ⟨q1, q2, q3, q6, q7, q8, q9,
            Or.inr ⟨by simp [hs], q5, n, q4, Or.inr ⟨rfl, a, rfl, hn⟩⟩⟩

theorem overrun_part_counters (v : dcmipp_pixelcap_device) (V : Nat)
    (h : counters_consistent v V) : counters_consistent (irq_overrun_part v) V := by
  unfold counters_consistent at h ⊢
  unfold irq_overrun_part
  split_ifs
  · simp only [u32] at h ⊢
    omega
  · exact h

theorem frame_part_counters (v : dcmipp_pixelcap_device) (now V : Nat)
    (h : counters_consistent v V) : counters_consistent (irq_frame_part v now) V := by
  unfold counters_consistent at h ⊢
  unfold irq_frame_part dcmipp_pixelcap_process_frame
  split_ifs
  · cases v.active with
    | none =>
      simp only [u32] at h ⊢
      omega
    | some a =>
      simp only [u32, dcmipp_buffer_done] at h ⊢
      omega
  · exact h

theorem set_next_frame_or_stop_counters (v d : dcmipp_pixelcap_device)
    (h : dcmipp_pixelcap_set_next_frame_or_stop v = some d) :
    d.count = v.count ∧ d.sequence = v.sequence ∧ d.pipe_id = v.pipe_id := by
  obtain ⟨-, -, -, -, q5, q6, q7, -⟩ := set_next_frame_or_stop_cases v d h
  exact ⟨q5, q6, q7⟩

theorem vsync_part_counters (v d : dcmipp_pixelcap_device) (V : Nat)
    (h : irq_vsync_part v = some d) (hc : counters_consistent v V) :
    d.pipe_id = v.pipe_id ∧
    (v.cmsr2 &&& DCMIPP_CMSR2_PxVSYNCF v.pipe_id ≠ 0 → counters_consistent d (V + 1)) ∧
    (v.cmsr2 &&& DCMIPP_CMSR2_PxVSYNCF v.pipe_id = 0 → counters_consistent d V) := by
  unfold irq_vsync_part at h
  by_cases hv : v.cmsr2 &&& DCMIPP_CMSR2_PxVSYNCF v.pipe_id = 0
  · simp only [hv, ne_eq, not_true_eq_false, if_false, Option.some.injEq] at h
    subst h
    exact ⟨rfl, fun x => absurd hv x, fun _ => hc⟩
  · simp only [hv, ne_eq, not_false_eq_true, if_true] at h
    refine ⟨?_, fun _ => ?_, fun x => absurd x hv⟩
    · split_ifs at h
      · simp only [Option.some.injEq] at h; subst h; rfl
      · exact (set_next_frame_or_stop_counters _ _ h).2.2
      · simp only [Option.some.injEq] at h; subst h; rfl
    · unfold counters_consistent at hc ⊢
      split_ifs at h
      · simp only [Option.some.injEq] at h
        subst h
        simp only [u32] at hc ⊢
        omega
      · obtain ⟨e1, e2, -⟩ := set_next_frame_or_stop_counters _ _ h
        rw [e1, e2]
        simp only [u32] at hc ⊢
        omega
      · simp only [Option.some.injEq] at h
        subst h
        simp only [u32] at hc ⊢
        omega

theorem irq_thread_on_counters (v d : dcmipp_pixelcap_device) (flags now V : Nat)
    (h : irq_thread_on v flags now = some d) (hc : counters_consistent v V) :
    d.pipe_id = v.pipe_id ∧
    counters_consistent d (V + vsync_count v.pipe_id [(flags, now)]) := by
  unfold irq_thread_on at h
  rw [irq_thread_parts] at h
  have hc0 : counters_consistent { v with cmsr2 := flags } V := hc
  have h1 := overrun_part_counters _ V hc0
  have h2 := frame_part_counters _ now V h1
  obtain ⟨o1, o2, -⟩ := irq_overrun_part_fields { v with cmsr2 := flags }
  obtain ⟨f1, f2, -⟩ := irq_frame_part_fields (irq_overrun_part { v with cmsr2 := flags }) now
  obtain ⟨p, q1, q2⟩ := vsync_part_counters _ d V h h2
  rw [f1, o1] at p
  rw [f1, f2, o1, o2] at q1 q2
  refine ⟨p, ?_⟩
  by_cases hv : flags &&& DCMIPP_CMSR2_PxVSYNCF v.pipe_id = 0
  · have : vsync_count v.pipe_id [(flags, now)] = 0 := by simp [vsync_count, hv]
    rw [this]; exact q2 hv
  · have : vsync_count v.pipe_id [(flags, now)] = 1 := by simp [vsync_count, hv]
    rw [this]; exact q1 hv

theorem vsync_count_cons (p : Nat) (e : Nat × Nat) (es : List (Nat × Nat)) :
    vsync_count p (e :: es) = vsync_count p [e] + vsync_count p es := by
  unfold vsync_count
  by_cases h : e.1 &&& DCMIPP_CMSR2_PxVSYNCF p = 0
  · simp [h]
  · simp [h]; omega

theorem irq_run_counters (es : List (Nat × Nat)) :
    ∀ (v d : dcmipp_pixelcap_device) (V : Nat), irq_run v es = some d →
      counters_consistent v V → counters_consistent d (V + vsync_count v.pipe_id es) := by
  induction es with
  | nil =>
    intro v d V h hc
    simp only [irq_run, Option.some.injEq] at h
    subst h
    simpa [vsync_count] using hc
  | cons e es ih =>
    intro v d V h hc
    obtain ⟨flags, now⟩ := e
    simp only [irq_run] at h
    cases h1 : irq_thread_on v flags now with
    | none => simp [h1] at h
    | some w =>
      simp only [h1, Option.some_bind] at h
      obtain ⟨p, q⟩ := irq_thread_on_counters v w flags now V h1 hc
      have := ih w d _ h q
      rw [p] at this
      rw [vsync_count_cons, ← Nat.add_assoc]
      exact this

theorem start_streaming_counters (v : dcmipp_pixelcap_device) (k : stream_env) :
    (dcmipp_pixelcap_start_streaming v k).2.count = count_zero ∧
    (dcmipp_pixelcap_start_streaming v k).2.sequence = 0 ∧
    (dcmipp_pixelcap_start_streaming v k).2.pipe_id = v.pipe_id := by
  have hp := pipeline_s_stream_fields { v with sequence := 0, count := count_zero } k
  obtain ⟨p1, p2, p3, p4, p5, p6, p7, p8, p9, p10, p11, p12, p13⟩ := hp
  have hs := start_capture_fields
  unfold dcmipp_pixelcap_start_streaming
  simp only []
  split_ifs
  · simp [start_streaming_err]
  · simp [start_streaming_err]
  · simp [start_streaming_err, p4, p12, p9]
  · split
    · simp [start_streaming_err, p4, p12, p9]
    · split
      · simp [reg_set, reg_write, p4, p12, p9]
      · simp [reg_set, reg_write, p4, p12, p9, hs]

theorem all_flags_facts :
    (sample_all_flags 0).1 &&& DCMIPP_CMSR2_PxOVRF 1 ≠ 0 ∧
    (sample_all_flags 0).1 &&& DCMIPP_CMSR2_PxFRAMEF 1 ≠ 0 ∧
    (sample_all_flags 0).1 &&& DCMIPP_CMSR2_PxVSYNCF 1 ≠ 0 := by decide

theorem waiting_all_flags_step (v : dcmipp_pixelcap_device) (flags t : Nat)
    (hs : v.state = .DCMIPP_WAIT_FOR_BUFFER) (ha : v.active = none)
    (f1 : flags &&& DCMIPP_CMSR2_PxOVRF v.pipe_id ≠ 0)
    (f2 : flags &&& DCMIPP_CMSR2_PxFRAMEF v.pipe_id ≠ 0)
    (f3 : flags &&& DCMIPP_CMSR2_PxVSYNCF v.pipe_id ≠ 0) :
    ∃ d, irq_thread_on v flags t = some d ∧
      d.state = .DCMIPP_WAIT_FOR_BUFFER ∧ d.active = none ∧ d.pipe_id = v.pipe_id ∧
      d.count.errors = u32 (u32 (v.count.errors + 1) + 1) ∧
      d.count.overrun = u32 (v.count.overrun + 1) ∧
      d.count.nactive = u32 (v.count.nactive + 1) ∧
      d.count.frame = u32 (v.count.frame + 1) ∧
      d.count.vsync = u32 (v.count.vsync + 1) ∧
      d.count.underrun = u32 (v.count.underrun + 1) ∧
      d.count.buffers = v.count.buffers := by
  obtain ⟨format, buffers, done, sequence, s_subdev, state, active, next, regs, pipe_id, cmier,
    cmsr2, count, cnt, ratio⟩ := v
  simp only at hs ha f1 f2 f3
  subst hs ha
  simp [irq_thread_on, dcmipp_pixelcap_irq_thread, dcmipp_pixelcap_process_frame, f1, f2, f3]

theorem waiting_all_flags_run (n : Nat) :
    ∀ (v : dcmipp_pixelcap_device), v.state = .DCMIPP_WAIT_FOR_BUFFER → v.active = none →
      v.pipe_id = 1 →
      ∃ d, irq_run v (List.replicate (n + 1) (sample_all_flags 0)) = some d ∧
        d.count.errors = u32 (v.count.errors + 2 * (n + 1)) ∧
        d.count.overrun = u32 (v.count.overrun + (n + 1)) ∧
        d.count.nactive = u32 (v.count.nactive + (n + 1)) ∧
        d.count.frame = u32 (v.count.frame + (n + 1)) ∧
        d.count.vsync = u32 (v.count.vsync + (n + 1)) ∧
        d.count.underrun = u32 (v.count.underrun + (n + 1)) ∧
        d.count.buffers = v.count.buffers := by
  induction n with
  | zero =>
    intro v hs ha hp
    obtain ⟨f1, f2, f3⟩ := all_flags_facts
    rw [← hp] at f1 f2 f3
    obtain ⟨w, hw, w1, w2, w3, w4, w5, w6, w7, w8, w9, w10⟩ :=
      waiting_all_flags_step v (sample_all_flags 0).1 0 hs ha f1 f2 f3
    refine ⟨w, ?_, ?_⟩
    · show (irq_thread_on v (sample_all_flags 0).1 (sample_all_flags 0).2).bind _ = _
      have : (sample_all_flags 0).2 = 0 := rfl
      rw [this, hw]
      rfl
    · rw [w4, w5, w6, w7, w8, w9, w10]
      simp only [u32]
      refine ⟨?_, ?_, ?_, ?_, ?_, ?_, ?_⟩ <;> first | trivial | omega
  | succ n ih =>
    intro v hs ha hp
    obtain ⟨f1, f2, f3⟩ := all_flags_facts
    rw [← hp] at f1 f2 f3
    obtain ⟨w, hw, w1, w2, w3, w4, w5, w6, w7, w8, w9, w10⟩ :=
      waiting_all_flags_step v (sample_all_flags 0).1 0 hs ha f1 f2 f3
    obtain ⟨d, hd, d1, d2, d3, d4, d5, d6, d7⟩ := ih w w1 w2 (w3.trans hp)
    refine ⟨d, ?_, ?_⟩
    · rw [List.replicate_succ]
      show (irq_thread_on v (sample_all_flags 0).1 (sample_all_flags 0).2).bind _ = _
      have : (sample_all_flags 0).2 = 0 := rfl
      rw [this, hw]
      exact hd
    · rw [d1, d2, d3, d4, d5, d6, d7, w4, w5, w6, w7, w8, w9, w10]
      simp only [u32]
      refine ⟨?_, ?_, ?_, ?_, ?_, ?_, ?_⟩ <;> first | trivial | omega

theorem wrap_head_facts :
    ∃ w, irq_run (sample_started 1 1) [sample_vsync 0, sample_all_flags 0] = some w ∧
      w.state = .DCMIPP_WAIT_FOR_BUFFER ∧ w.active = none ∧ w.pipe_id = 1 ∧
      w.count = { errors := 1, overrun := 1, buffers := 1, vsync := 2, frame := 1,
                  underrun := 1, nactive := 0 } := by
  refine ⟨(irq_run (sample_started 1 1) [sample_vsync 0, sample_all_flags 0]).getD
    sample_device, option_eq_some_getD _ _ (by decide), by decide, by decide, by decide,
    by decide⟩

theorem wrap_run (n : Nat) :
    ∃ d, irq_run (sample_started 1 1)
        ([sample_vsync 0, sample_all_flags 0] ++ List.replicate (n + 1) (sample_all_flags 0))
          = some d ∧
      d.count.errors = u32 (1 + 2 * (n + 1)) ∧
      d.count.overrun = u32 (1 + (n + 1)) ∧
      d.count.nactive = u32 (0 + (n + 1)) ∧
      d.count.frame = u32 (1 + (n + 1)) ∧
      d.count.vsync = u32 (2 + (n + 1)) ∧
      d.count.underrun = u32 (1 + (n + 1)) ∧
      d.count.buffers = 1 := by
  obtain ⟨w, hw, w1, w2, w3, w4⟩ := wrap_head_facts
  obtain ⟨d, hd, d1, d2, d3, d4, d5, d6, d7⟩ := waiting_all_flags_run n w w1 w2 w3
  refine ⟨d, ?_, ?_⟩
  · rw [pixelcap_irq_run_append, hw]
    exact hd
  · rw [d1, d2, d3, d4, d5, d6, d7, w4]
    exact ⟨rfl, rfl, rfl, rfl, rfl, rfl, rfl⟩

/-- C28, counterexample: the counters are 32 bits wide and wrap. After a successful start
with one buffer, a VSYNC followed by 4294967295 interrupts carrying the overrun, frame-end
and VSYNC flags leaves `errors` different from `overrun + nactive` and `underrun` above
`vsync`; one interrupt more leaves `frame` different from `buffers + nactive`. -/
theorem counters_wrap_after_many_interrupts :
    (dcmipp_pixelcap_start_streaming (sample_queued 1) (sample_stream_env 1)).1 = 0 ∧
    (∃ d, irq_run (dcmipp_pixelcap_start_streaming (sample_queued 1) (sample_stream_env 1)).2
        ([sample_vsync 0, sample_all_flags 0] ++
          List.replicate 4294967294 (sample_all_flags 0)) = some d ∧
      d.count.errors ≠ d.count.overrun + d.count.nactive ∧
      ¬ d.count.underrun ≤ d.count.vsync) ∧
    (∃ d, irq_run (dcmipp_pixelcap_start_streaming (sample_queued 1) (sample_stream_env 1)).2
        ([sample_vsync 0, sample_all_flags 0] ++
          List.replicate 4294967295 (sample_all_flags 0)) = some d ∧
      d.count.frame ≠ d.count.buffers + d.count.nactive) := by
  refine ⟨by decide, ?_, ?_⟩
  · obtain ⟨d, hd, d1, d2, d3, d4, d5, d6, d7⟩ := wrap_run 4294967293
    refine ⟨d, hd, ?_, ?_⟩
    · rw [d1, d2, d3]; decide
    · rw [d5, d6]; decide
  · obtain ⟨d, hd, d1, d2, d3, d4, d5, d6, d7⟩ := wrap_run 4294967294
    refine ⟨d, hd, ?_⟩
    rw [d3, d4, d7]; decide

/-- C28, amended: for every sequence of interrupts processed by
`dcmipp_pixelcap_irq_thread` after `dcmipp_pixelcap_start_streaming`, the counters satisfy
`errors = overrun + nactive` and `frame = buffers + nactive` modulo 2^32, hence exactly
whenever the sum is below 2^32, `buffers` equals the sequence counter, and
`underrun ≤ vsync` as long as fewer than 2^32 VSYNCs have been processed. -/
theorem counters_relations_modulo (v : dcmipp_pixelcap_device) (k : stream_env)
    (events : List (Nat × Nat)) (d : dcmipp_pixelcap_device)
    (h : irq_run (dcmipp_pixelcap_start_streaming v k).2 events = some d) :
    d.count.errors = u32 (d.count.overrun + d.count.nactive) ∧
    d.count.frame = u32 (d.count.buffers + d.count.nactive) ∧
    d.count.buffers = d.sequence ∧
    (vsync_count v.pipe_id events < 4294967296 → d.count.underrun ≤ d.count.vsync) ∧
    (d.count.overrun + d.count.nactive < 4294967296 →
      d.count.errors = d.count.overrun + d.count.nactive) ∧
    (d.count.buffers + d.count.nactive < 4294967296 →
      d.count.frame = d.count.buffers + d.count.nactive) := by
  obtain ⟨c1, c2, c3⟩ := start_streaming_counters v k
  have h0 : counters_consistent (dcmipp_pixelcap_start_streaming v k).2 0 := by
    unfold counters_consistent
    rw [c1, c2]
    decide
  have h1 := irq_run_counters events _ d 0 h h0
  rw [c3, Nat.zero_add] at h1
  obtain ⟨e1, e2, e3, e4, e5, e6⟩ := h1
  refine ⟨e1, e2, e3, ?_, ?_, ?_⟩
  · intro hv
    rw [e4]
    simp only [u32]
    omega
  · intro hv
    rw [e1]
    exact Nat.mod_eq_of_lt hv
  · intro hv
    rw [e2]
    exact Nat.mod_eq_of_lt hv

theorem counters_relations_modulo_witness :
    ∃ d, irq_run (dcmipp_pixelcap_start_streaming (sample_queued 3) (sample_stream_env 2)).2
        sample_mixed_events = some d ∧
      d.count.errors = u32 (d.count.overrun + d.count.nactive) ∧
      d.count.frame = u32 (d.count.buffers + d.count.nactive) ∧
      d.count.buffers = d.sequence ∧ d.count.underrun ≤ d.count.vsync := by
  obtain ⟨d, hd⟩ := Option.isSome_iff_exists.mp
    (show (irq_run (dcmipp_pixelcap_start_streaming (sample_queued 3) (sample_stream_env 2)).2
      sample_mixed_events).isSome = true by decide)
  obtain ⟨h1, h2, h3, h4, -⟩ :=
    counters_relations_modulo (sample_queued 3) (sample_stream_env 2) sample_mixed_events d hd
  exact ⟨d, hd, h1, h2, h3, h4 (by decide)⟩

theorem engine_inv_congr (v w : dcmipp_pixelcap_device)
    (h1 : w.buffers = v.buffers) (h2 : w.done = v.done)
    (h4 : w.state = v.state) (h5 : w.active = v.active) (h6 : w.next = v.next)
    (hi : engine_inv v) : engine_inv w := by
  unfold engine_inv at hi ⊢
  rw [h1, h2, h4, h5, h6]
  exact hi

theorem list_del_init_first (a n : dcmipp_buf) (rest : List dcmipp_buf)
    (h : ((a :: n :: rest).map (fun b => b.id)).Nodup) :
    list_del_init (a :: n :: rest) a = n :: rest := by
  simp only [List.map_cons, List.nodup_cons, List.mem_cons, List.mem_map, not_or,
    not_exists, not_and] at h
  obtain ⟨⟨h1, h2⟩, -, -⟩ := h
  unfold list_del_init
  rw [List.filter_cons_of_neg (by simp)]
  apply List.filter_eq_self.mpr
  intro b hb
  simp only [List.mem_cons] at hb
  rcases hb with rfl | hb
  · simpa using fun e => h1 e.symm
  · simpa using fun e => h2 b hb e

theorem list_del_init_second (a n : dcmipp_buf) (rest : List dcmipp_buf)
    (h : ((n :: a :: rest).map (fun b => b.id)).Nodup) :
    list_del_init (n :: a :: rest) a = n :: rest := by
  simp only [List.map_cons, List.nodup_cons, List.mem_cons, List.mem_map, not_or,
    not_exists, not_and] at h
  obtain ⟨⟨h1, -⟩, h3, -⟩ := h
  unfold list_del_init
  rw [List.filter_cons_of_pos (by simpa using h1), List.filter_cons_of_neg (by simp)]
  congr 1
  apply List.filter_eq_self.mpr
  intro b hb
  simpa using fun e => h3 b hb e

theorem list_del_init_single (a : dcmipp_buf) : list_del_init [a] a = [] := by
  simp [list_del_init]

theorem list_next_entry_first (n m : dcmipp_buf) (rest : List dcmipp_buf) :
    list_next_entry (n :: m :: rest) n = some m := by
  simp [list_next_entry, List.dropWhile]

theorem list_del_init_nodup (l : List dcmipp_buf) (a : dcmipp_buf)
    (h : (l.map (fun b => b.id)).Nodup) : ((list_del_init l a).map (fun b => b.id)).Nodup := by
  unfold list_del_init
  exact h.sublist ((List.filter_sublist l).map _)

theorem list_del_init_mem (l : List dcmipp_buf) (a q : dcmipp_buf)
    (h : q ∈ list_del_init l a) : q ∈ l ∧ q.id ≠ a.id := by
  unfold list_del_init at h
  simpa using h

theorem overrun_part_inv (v : dcmipp_pixelcap_device) (hi : engine_inv v) :
    engine_inv (irq_overrun_part v) := by
  obtain ⟨-, -, o3, o4, o5, o6, o7, o8, o9, -⟩ := irq_overrun_part_fields v
  exact engine_inv_congr v _ o3 o4 o5 o6 o7 hi

theorem process_frame_inv (v : dcmipp_pixelcap_device) (now : Nat) (hi : engine_inv v) :
    engine_inv (dcmipp_pixelcap_process_frame v now) := by
  obtain ⟨format, buffers, done, sequence, s_subdev, state, active, next, regs, pipe_id, cmier,
    cmsr2, count, cnt, ratio⟩ := v
  unfold dcmipp_pixelcap_process_frame
  cases active with
  | none => exact engine_inv_congr _ _ rfl rfl rfl rfl rfl hi
  | some a =>
    unfold engine_inv at hi ⊢
    simp only [dcmipp_buffer_done] at hi ⊢
    obtain ⟨i1, i2, i4, i5, i6⟩ := hi
    refine ⟨list_del_init_nodup _ _ i1, ?_, ?_, ?_, ?_⟩
    · intro b hb q hq
      obtain ⟨q1, q2⟩ := list_del_init_mem _ _ _ hq
      simp only [List.mem_append, List.mem_singleton] at hb
      rcases hb with hb | rfl
      · exact i2 b hb q q1
      · exact q2
    · intro _
      trivial
    · intro hs
      obtain ⟨j1, j2⟩ := i5 hs
      refine ⟨j1, Or.inl ⟨trivial, ?_⟩⟩
      rcases j2 with ⟨j3, -⟩ | ⟨x, j3, j4⟩
      · simp at j3
      · simp only [Option.some.injEq] at j3
        subst j3
        rw [j4]
        exact list_del_init_single a
    · intro hs
      obtain ⟨n, j1, j2⟩ := i6 hs
      refine ⟨n, j1, Or.inl ⟨trivial, ?_⟩⟩
      rcases j2 with ⟨j3, -⟩ | ⟨x, rest, j3, j4⟩
      · simp at j3
      · simp only [Option.some.injEq] at j3
        subst j3
        rcases j4 with j4 | j4
        · rw [j4] at i1 ⊢
          exact ⟨rest, list_del_init_first a n rest i1⟩
        · rw [j4] at i1 ⊢
          exact ⟨rest, list_del_init_second a n rest i1⟩

theorem frame_part_inv (v : dcmipp_pixelcap_device) (now : Nat) (hi : engine_inv v) :
    engine_inv (irq_frame_part v now) := by
  unfold irq_frame_part
  split_ifs
  · apply process_frame_inv
    exact engine_inv_congr v _ rfl rfl rfl rfl rfl hi
  · exact hi

theorem set_next_frame_or_stop_total (v : dcmipp_pixelcap_device)
    (h : v.next ≠ none ∨ list_is_singular v.buffers = true ∨
      ∃ a m, v.active = some a ∧ list_next_entry v.buffers a = some m) :
    ∃ d, dcmipp_pixelcap_set_next_frame_or_stop v = some d := by
  obtain ⟨format, buffers, done, sequence, s_subdev, state, active, next, regs, pipe_id, cmier,
    cmsr2, count, cnt, ratio⟩ := v
  simp only [] at h
  unfold dcmipp_pixelcap_set_next_frame_or_stop
  simp only []
  cases next with
  | some n =>
    rw [if_neg (by simp)]
    exact ⟨_, rfl⟩
  | none =>
    by_cases hs : list_is_singular buffers = true
    · rw [if_pos (by simp [hs])]
      exact ⟨_, rfl⟩
    · rw [if_neg (by simp [hs])]
      rcases h with h | h | ⟨a, m, h1, h2⟩
      · exact absurd rfl h
      · exact absurd h hs
      · subst h1
        simp only [h2]
        exact ⟨_, rfl⟩

theorem vsync_swap_inv (v : dcmipp_pixelcap_device) (hi : engine_inv v)
    (hs : v.state = .DCMIPP_RUNNING) (w : dcmipp_pixelcap_device)
    (w1 : w.buffers = v.buffers) (w2 : w.done = v.done)
    (w4 : w.state = v.state) (w5 : w.active = v.next) (w6 : w.next = v.active) :
    ∃ d, dcmipp_pixelcap_set_next_frame_or_stop w = some d ∧ engine_inv d := by
  obtain ⟨i1, i2, i4, i5, i6⟩ := hi
  obtain ⟨n, j1, j2⟩ := i6 hs
  rw [j1] at w5
  have htot : ∃ d, dcmipp_pixelcap_set_next_frame_or_stop w = some d := by
    apply set_next_frame_or_stop_total
    rcases j2 with ⟨j3, rest, j4⟩ | ⟨a, rest, j3, j4⟩
    · cases rest with
      | nil => exact Or.inr (Or.inl (by rw [w1, j4]; rfl))
      | cons m rest =>
        exact Or.inr (Or.inr ⟨n, m, w5, by rw [w1, j4]; exact list_next_entry_first n m rest⟩)
    · exact Or.inl (by rw [w6, j3]; simp)
  obtain ⟨d, hd⟩ := htot
  refine ⟨d, hd, ?_⟩
  obtain ⟨q1, q2, q3, -, -, -, -, q8⟩ := set_next_frame_or_stop_cases w d hd
  unfold engine_inv
  rw [q1, q2, q3, w1, w2, w5]
  refine ⟨i1, i2, ?_, ?_, ?_⟩
  · intro hst
    rcases q8 with ⟨-, -, -, q9⟩ | ⟨-, q9, -⟩
    · rw [q9] at hst; cases hst
    · rw [q9, w4, hs] at hst; cases hst
  · intro hst
    rcases q8 with ⟨k1, k2, k3, -⟩ | ⟨-, q9, -⟩
    · refine ⟨k3, Or.inr ⟨n, rfl, ?_⟩⟩
      rw [w6] at k1
      rcases j2 with ⟨-, rest, j4⟩ | ⟨a, rest, j3, -⟩
      · rw [w1, j4] at k2
        cases rest with
        | nil => exact j4
        | cons m rest => simp [list_is_singular] at k2
      · rw [j3] at k1; cases k1
    · rw [q9, w4, hs] at hst; cases hst
  · intro hst
    rcases q8 with ⟨-, -, -, q9⟩ | ⟨k0, -, m, k1, k2⟩
    · rw [q9] at hst; cases hst
    · refine ⟨m, k1, Or.inr ⟨n, ?_⟩⟩
      rw [w6] at k2
      rcases j2 with ⟨j3, rest, j4⟩ | ⟨a, rest, j3, j4⟩
      · rcases k2 with k2 | ⟨-, a, k3, k4⟩
        · rw [j3] at k2; cases k2
        · rw [w5] at k3
          simp only [Option.some.injEq] at k3
          subst k3
          rw [w1, j4] at k4
          cases rest with
          | nil => simp [list_next_entry, List.dropWhile] at k4
          | cons x rest =>
            rw [list_next_entry_first] at k4
            simp only [Option.some.injEq] at k4
            subst k4
            exact ⟨rest, rfl, Or.inl j4⟩
      · rcases k2 with k2 | ⟨k3, -⟩
        · rw [j3] at k2
          simp only [Option.some.injEq] at k2
          subst k2
          rcases j4 with j4 | j4
          · exact ⟨rest, rfl, Or.inr j4⟩
          · exact ⟨rest, rfl, Or.inl j4⟩
        · rw [j3] at k3; cases k3

theorem vsync_part_inv (v : dcmipp_pixelcap_device) (hi : engine_inv v)
    (hs : v.state ≠ .DCMIPP_STOPPED) :
    ∃ d, irq_vsync_part v = some d ∧ engine_inv d := by
  unfold irq_vsync_part
  by_cases hv : v.cmsr2 &&& DCMIPP_CMSR2_PxVSYNCF v.pipe_id = 0
  · rw [if_neg (by simp [hv])]
    exact ⟨v, rfl, hi⟩
  · rw [if_pos hv]
    simp only []
    by_cases hw : v.state = .DCMIPP_WAIT_FOR_BUFFER
    · rw [if_pos hw]
      exact ⟨_, rfl, engine_inv_congr v _ rfl rfl rfl rfl rfl hi⟩
    · rw [if_neg hw]
      have hr : v.state = .DCMIPP_RUNNING := by
        cases h : v.state
        · exact absurd h hs
        · exact absurd h hw
        · rfl
      by_cases hc : u32 (v.vsync_frame_refresh_cnt + 4294967295) = 0
      · rw [if_pos hc]
        exact vsync_swap_inv v hi hr _ rfl rfl rfl rfl rfl
      · rw [if_neg hc]
        exact ⟨_, rfl, engine_inv_congr v _ rfl rfl rfl rfl rfl hi⟩

theorem irq_deliver_inv (v : dcmipp_pixelcap_device) (flags now : Nat) (hi : engine_inv v)
    (hg : v.state = .DCMIPP_STOPPED → flags &&& v.cmier = 0) :
    ∃ d, irq_deliver v flags now = some d ∧ engine_inv d := by
  unfold irq_deliver dcmipp_pixelcap_irq_callback
  simp only []
  by_cases hm : flags &&& v.cmier = 0
  · rw [if_pos hm]
    exact ⟨_, rfl, engine_inv_congr v _ rfl rfl rfl rfl rfl hi⟩
  · rw [if_neg hm]
    simp only []
    have hs : v.state ≠ .DCMIPP_STOPPED := fun hs => hm (hg hs)
    have h1 : engine_inv
        (reg_write { v with cmsr2 := flags &&& v.cmier } DCMIPP_CMFCR (flags &&& v.cmier)) :=
      engine_inv_congr v _ rfl rfl rfl rfl rfl hi
    rw [irq_thread_parts]
    have h2 := overrun_part_inv _ h1
    have h3 := frame_part_inv _ now h2
    apply vsync_part_inv _ h3
    obtain ⟨-, -, -, -, o5, -⟩ := irq_overrun_part_fields
      (reg_write { v with cmsr2 := flags &&& v.cmier } DCMIPP_CMFCR (flags &&& v.cmier))
    obtain ⟨-, -, f3, -⟩ := irq_frame_part_fields
      (irq_overrun_part (reg_write { v with cmsr2 := flags &&& v.cmier }
        DCMIPP_CMFCR (flags &&& v.cmier))) now
    rw [f3, o5]
    exact hs

theorem buf_queue_inv (v : dcmipp_pixelcap_device) (b : dcmipp_buf) (hi : engine_inv v)
    (hq : b.id ∉ v.buffers.map (fun x => x.id)) (hd : b.id ∉ v.done.map (fun x => x.id)) :
    engine_inv (dcmipp_pixelcap_buf_queue v b) := by
  obtain ⟨i1, i2, i4, i5, i6⟩ := hi
  have n1 : ((v.buffers ++ [b]).map (fun x => x.id)).Nodup := by
    rw [List.map_append]
    apply List.Nodup.append i1 (by simp)
    intro x hx hx2
    simp only [List.map_cons, List.map_nil, List.mem_singleton] at hx2
    subst hx2
    exact hq hx
  have n2 : ∀ x ∈ v.done, ∀ q ∈ v.buffers ++ [b], q.id ≠ x.id := by
    intro x hx q hq2
    simp only [List.mem_append, List.mem_singleton] at hq2
    rcases hq2 with hq2 | rfl
    · exact i2 x hx q hq2
    · intro e
      exact hd (by rw [e]; exact List.mem_map_of_mem _ hx)
  unfold dcmipp_pixelcap_buf_queue
  simp only []
  by_cases hw : v.state = .DCMIPP_WAIT_FOR_BUFFER
  · rw [if_pos hw]
    obtain ⟨-, s2, s3, -, -, -, s7, s8, -⟩ :=
      start_capture_fields { v with buffers := v.buffers ++ [b], next := some b } b
    unfold engine_inv
    simp only [s2, s3, s7, s8]
    refine ⟨n1, n2, fun h => dcmipp_state.noConfusion h,
      fun h => dcmipp_state.noConfusion h, fun _ => ?_⟩
    refine ⟨b, rfl, ?_⟩
    rcases (i5 hw).2 with ⟨j1, j2⟩ | ⟨x, j1, j2⟩
    · exact Or.inl ⟨j1, [], by rw [j2]; rfl⟩
    · exact Or.inr ⟨x, [], j1, Or.inl (by rw [j2]; rfl)⟩
  · rw [if_neg hw]
    unfold engine_inv
    simp only []
    refine ⟨n1, n2, i4, fun h => absurd h hw, fun h => ?_⟩
    obtain ⟨n, j1, j2⟩ := i6 h
    refine ⟨n, j1, ?_⟩
    rcases j2 with ⟨j3, rest, j4⟩ | ⟨a, rest, j3, j4 | j4⟩
    · exact Or.inl ⟨j3, rest ++ [b], by rw [j4]; rfl⟩
    · exact Or.inr ⟨a, rest ++ [b], j3, Or.inl (by rw [j4]; rfl)⟩
    · exact Or.inr ⟨a, rest ++ [b], j3, Or.inr (by rw [j4]; rfl)⟩

theorem stop_streaming_inv (v : dcmipp_pixelcap_device) (k : stream_env) :
    engine_inv (dcmipp_pixelcap_stop_streaming v k) := by
  obtain ⟨-, s2, s3, s4, s5, -, -, -⟩ := stop_streaming_fields v k
  unfold engine_inv
  rw [s2, s3, s4, s5]
  refine ⟨by simp, by simp, fun _ => rfl,
    fun h => dcmipp_state.noConfusion h, fun h => dcmipp_state.noConfusion h⟩

theorem start_streaming_err_inv (w : dcmipp_pixelcap_device)
    (hs : w.state = .DCMIPP_STOPPED) : engine_inv (start_streaming_err w) := by
  unfold engine_inv start_streaming_err
  simp only []
  rw [hs]
  refine ⟨by simp, by simp, fun _ => trivial,
    fun h => dcmipp_state.noConfusion h, fun h => dcmipp_state.noConfusion h⟩

theorem start_streaming_inv (v : dcmipp_pixelcap_device) (k : stream_env) (hi : engine_inv v)
    (hs : v.state = .DCMIPP_STOPPED) :
    engine_inv (dcmipp_pixelcap_start_streaming v k).2 := by
  have h0 : engine_inv { v with sequence := 0, count := count_zero } :=
    engine_inv_congr v _ rfl rfl rfl rfl rfl hi
  obtain ⟨p1, p2, p3, p4, p5, p6, p7, p8, p9, p10, p11, p12, p13⟩ :=
    pipeline_s_stream_fields { v with sequence := 0, count := count_zero } k
  have h1 : engine_inv (dcmipp_pipeline_s_stream { v with sequence := 0, count := count_zero } k).2 :=
    engine_inv_congr _ _ p2 p3 p5 p6 p7 h0
  have hs1 : (dcmipp_pipeline_s_stream { v with sequence := 0, count := count_zero } k).2.state
      = .DCMIPP_STOPPED := by rw [p5]; exact hs
  unfold dcmipp_pixelcap_start_streaming
  simp only []
  generalize dcmipp_pipeline_s_stream { v with sequence := 0, count := count_zero } k = r
    at p2 p3 p5 p6 p7 h1 hs1
  obtain ⟨ret, w⟩ := r
  simp only [] at p2 p3 p5 p6 p7 h1 hs1 ⊢
  split_ifs
  · exact start_streaming_err_inv _ hs
  · exact start_streaming_err_inv _ hs
  · exact start_streaming_err_inv _ hs1
  · split
    · exact start_streaming_err_inv _ hs1
    · rename_i vpix _
      obtain ⟨i1, i2, i4, i5, i6⟩ := h1
      have ha : w.active = none := by rw [p6]; exact hi.2.2.1 hs
      split
      · rename_i hb
        simp only [reg_set, reg_write] at hb ⊢
        unfold engine_inv
        simp only []
        refine ⟨i1, i2, fun h => dcmipp_state.noConfusion h,
          fun _ => ⟨trivial, Or.inl ⟨ha, hb⟩⟩, fun h => dcmipp_state.noConfusion h⟩
      · rename_i buf rest hb
        simp only [reg_set, reg_write] at hb ⊢
        have hsf := start_capture_fields
        unfold engine_inv
        simp only [hsf]
        refine ⟨i1, i2, fun h => dcmipp_state.noConfusion h,
          fun h => dcmipp_state.noConfusion h, fun _ => ⟨buf, rfl, Or.inl ⟨ha, rest, hb⟩⟩⟩

theorem ent_init_inv (pipe_id : Nat) (regs : Nat → Nat) (w h : Nat) :
    engine_inv (dcmipp_pixelcap_ent_init pipe_id regs w h) := by
  unfold engine_inv dcmipp_pixelcap_ent_init
  simp

theorem engine_step_inv (v : dcmipp_pixelcap_device) (ev : engine_event) (hi : engine_inv v)
    (hg : ∀ flags now, ev = .irq flags now →
      v.state = .DCMIPP_STOPPED → flags &&& v.cmier = 0) :
    ∃ d, engine_step v ev = some d ∧ engine_inv d := by
  cases ev with
  | start_streaming k =>
    simp only [engine_step]
    by_cases hs : v.state = .DCMIPP_STOPPED
    · rw [if_pos hs]
      exact ⟨_, rfl, start_streaming_inv v k hi hs⟩
    · rw [if_neg hs]
      exact ⟨_, rfl, hi⟩
  | buf_queue buf =>
    simp only [engine_step]
    by_cases hq : buf.id ∈ v.buffers.map (fun b => b.id) ∨ buf.id ∈ v.done.map (fun b => b.id)
    · rw [if_pos hq]
      exact ⟨_, rfl, hi⟩
    · rw [if_neg hq]
      exact ⟨_, rfl, buf_queue_inv v buf hi (fun h => hq (Or.inl h)) (fun h => hq (Or.inr h))⟩
  | irq flags now => exact irq_deliver_inv v flags now hi (hg flags now rfl)
  | stop_streaming k => exact ⟨_, rfl, stop_streaming_inv v k⟩

theorem engine_run_inv (evs : List engine_event) :
    ∀ v : dcmipp_pixelcap_device, engine_inv v → stopped_irqs_masked v evs = true →
      ∃ d, engine_run v evs = some d ∧ engine_inv d := by
  induction evs with
  | nil => intro v hi _; exact ⟨v, rfl, hi⟩
  | cons ev evs ih =>
    intro v hi hq
    simp only [stopped_irqs_masked, Bool.and_eq_true] at hq
    obtain ⟨hq1, hq2⟩ := hq
    have hg : ∀ flags now, ev = .irq flags now →
        v.state = .DCMIPP_STOPPED → flags &&& v.cmier = 0 := by
      intro flags now he
      subst he
      simp only [decide_eq_true_eq] at hq1
      exact hq1
    obtain ⟨w, hw, hiw⟩ := engine_step_inv v ev hi hg
    rw [hw] at hq2
    obtain ⟨d, hd, hid⟩ := ih w hiw hq2
    refine ⟨d, ?_, hid⟩
    simp only [engine_run, hw, Option.some_bind]
    exact hd

theorem engine_inv_ownership (d : dcmipp_pixelcap_device) (hi : engine_inv d) :
    (∀ a n, d.active = some a → d.next = some n → a.id ≠ n.id) ∧
    (∀ a, d.active = some a → a ∈ d.buffers ∧ ∀ b ∈ d.done, b.id ≠ a.id) ∧
    (∀ q ∈ d.buffers, ∀ b ∈ d.done, b.id ≠ q.id) ∧
    (d.state ≠ .DCMIPP_STOPPED →
      ∀ n, d.next = some n → n ∈ d.buffers ∧ ∀ b ∈ d.done, b.id ≠ n.id) := by
  obtain ⟨i1, i2, i4, i5, i6⟩ := hi
  have hq : ∀ q ∈ d.buffers, ∀ b ∈ d.done, b.id ≠ q.id :=
    fun q hq b hb e => i2 b hb q hq e.symm
  have ha : ∀ a, d.active = some a → a ∈ d.buffers := by
    intro a h
    cases hs : d.state with
    | DCMIPP_STOPPED => rw [i4 hs] at h; cases h
    | DCMIPP_WAIT_FOR_BUFFER =>
      rcases (i5 hs).2 with ⟨j1, -⟩ | ⟨x, j1, j2⟩
      · rw [j1] at h; cases h
      · rw [j1] at h
        simp only [Option.some.injEq] at h
        subst h
        rw [j2]; simp
    | DCMIPP_RUNNING =>
      obtain ⟨n, -, j2⟩ := i6 hs
      rcases j2 with ⟨j1, -⟩ | ⟨x, rest, j1, j2 | j2⟩
      · rw [j1] at h; cases h
      · rw [j1] at h
        simp only [Option.some.injEq] at h
        subst h
        rw [j2]; simp
      · rw [j1] at h
        simp only [Option.some.injEq] at h
        subst h
        rw [j2]; simp
  have hn : d.state ≠ .DCMIPP_STOPPED → ∀ n, d.next = some n → n ∈ d.buffers := by
    intro hst n h
    cases hs : d.state with
    | DCMIPP_STOPPED => exact absurd hs hst
    | DCMIPP_WAIT_FOR_BUFFER => rw [(i5 hs).1] at h; cases h
    | DCMIPP_RUNNING =>
      obtain ⟨m, j0, j2⟩ := i6 hs
      rw [j0] at h
      simp only [Option.some.injEq] at h
      subst h
      rcases j2 with ⟨-, rest, j2⟩ | ⟨x, rest, -, j2 | j2⟩ <;> rw [j2] <;> simp
  refine ⟨?_, fun a h => ⟨ha a h, hq a (ha a h)⟩, hq, fun hst n h => ⟨hn hst n h, hq n (hn hst n h)⟩⟩
  intro a n h1 h2
  cases hs : d.state with
  | DCMIPP_STOPPED => rw [i4 hs] at h1; cases h1
  | DCMIPP_WAIT_FOR_BUFFER => rw [(i5 hs).1] at h2; cases h2
  | DCMIPP_RUNNING =>
    obtain ⟨m, j0, j2⟩ := i6 hs
    rw [j0] at h2
    simp only [Option.some.injEq] at h2
    subst h2
    rcases j2 with ⟨j1, -⟩ | ⟨x, rest, j1, j2⟩
    · rw [j1] at h1; cases h1
    · rw [j1] at h1
      simp only [Option.some.injEq] at h1
      subst h1
      rcases j2 with j2 | j2
      · rw [j2] at i1
        simp only [List.map_cons, List.nodup_cons, List.mem_cons, not_or] at i1
        exact i1.1.1
      · rw [j2] at i1
        simp only [List.map_cons, List.nodup_cons, List.mem_cons, not_or] at i1
        exact fun e => i1.1.1 e.symm

/-- C21, counterexample: a buffer is queued, the stream is started and then stopped. The
stop returns the buffer to vb2 and empties the queue but leaves `next` as it was, so
afterwards `next` refers to a completed buffer that is not in the pending queue. The
stop also leaves the flags of `vcap->cmier` set: a VSYNC handed to the interrupt handler
after the stop wakes the thread, which has no case for the `STOPPED` state, and
afterwards `active` and `next` both refer to that completed buffer. -/
theorem stopped_next_refers_to_returned_buffer :
    engine_run (dcmipp_pixelcap_ent_init 1 (fun _ => 0) 640 480) sample_stop_events =
      some sample_stopped_device ∧
    sample_stopped_device.next = some (sample_buf 1) ∧
    sample_buf 1 ∉ sample_stopped_device.buffers ∧
    (∃ b ∈ sample_stopped_device.done, b.id = (sample_buf 1).id) ∧
    engine_run (dcmipp_pixelcap_ent_init 1 (fun _ => 0) 640 480) sample_late_vsync_events =
      some sample_late_vsync_device ∧
    sample_late_vsync_device.active = some (sample_buf 1) ∧
    sample_late_vsync_device.next = some (sample_buf 1) ∧
    sample_late_vsync_device.buffers = [] ∧
    (∃ b ∈ sample_late_vsync_device.done, b.id = (sample_buf 1).id) := by
  refine ⟨option_eq_some_getD _ _ (by decide), by decide, by decide, ?_,
    option_eq_some_getD _ _ (by decide), by decide, by decide, by decide, ?_⟩
  · exact ⟨{ sample_buf 1 with state := .VB2_BUF_STATE_ERROR }, by decide, rfl⟩
  · exact ⟨{ sample_buf 1 with state := .VB2_BUF_STATE_ERROR }, by decide, rfl⟩

/-- C21, amended: for every sequence of stream starts, buffer queueings, interrupts
(VSYNC, frame end, overrun, in any combination) and stream stops applied to the capture
engine from the state `dcmipp_pixelcap_ent_init` leaves, in which every interrupt that
arrives while the state is `STOPPED` carries none of the flags of `vcap->cmier` (so that
the handler does not wake the thread in that state), every event is processed without
undefined behaviour and afterwards: `active` and `next` never refer to the same buffer;
`active`, when present, is in the pending queue and is not completed; no buffer of the
pending queue is completed; and, while the state is not `STOPPED`, `next`, when present,
is in the pending queue and is not completed. -/
theorem buffer_ownership (pipe_id : Nat) (regs : Nat → Nat) (w h : Nat)
    (evs : List engine_event)
    (hq : stopped_irqs_masked (dcmipp_pixelcap_ent_init pipe_id regs w h) evs = true) :
    ∃ d, engine_run (dcmipp_pixelcap_ent_init pipe_id regs w h) evs = some d ∧
      (∀ a n, d.active = some a → d.next = some n → a.id ≠ n.id) ∧
      (∀ a, d.active = some a → a ∈ d.buffers ∧ ∀ b ∈ d.done, b.id ≠ a.id) ∧
      (∀ q ∈ d.buffers, ∀ b ∈ d.done, b.id ≠ q.id) ∧
      (d.state ≠ .DCMIPP_STOPPED →
        ∀ n, d.next = some n → n ∈ d.buffers ∧ ∀ b ∈ d.done, b.id ≠ n.id) := by
  obtain ⟨d, hd, hi⟩ := engine_run_inv evs _ (ent_init_inv pipe_id regs w h) hq
  exact ⟨d, hd, engine_inv_ownership d hi⟩

theorem buffer_ownership_witness :
    ∃ d, engine_run (dcmipp_pixelcap_ent_init 1 (fun _ => 0) 640 480) sample_engine_events
        = some d ∧
      (∀ a n, d.active = some a → d.next = some n → a.id ≠ n.id) ∧
      (∀ a, d.active = some a → a ∈ d.buffers ∧ ∀ b ∈ d.done, b.id ≠ a.id) ∧
      (∀ q ∈ d.buffers, ∀ b ∈ d.done, b.id ≠ q.id) ∧
      (d.state ≠ .DCMIPP_STOPPED →
        ∀ n, d.next = some n → n ∈ d.buffers ∧ ∀ b ∈ d.done, b.id ≠ n.id) :=
  buffer_ownership 1 (fun _ => 0) 640 480 sample_engine_events (by decide)

/-! ## The VSYNC swap: claim C14 -/

theorem irq_before_vsync_fields (v : dcmipp_pixelcap_device) (flags now : Nat) :
    let w := irq_frame_part (irq_overrun_part { v with cmsr2 := flags }) now
    w.state = v.state ∧ w.next = v.next ∧ w.cmsr2 = flags ∧ w.pipe_id = v.pipe_id ∧
    w.vsync_frame_refresh_cnt = v.vsync_frame_refresh_cnt ∧
    w.frame_skip_ratio = v.frame_skip_ratio ∧
    (flags &&& DCMIPP_CMSR2_PxFRAMEF v.pipe_id = 0 →
      w.done = v.done ∧ w.buffers = v.buffers ∧ w.active = v.active ∧
      w.sequence = v.sequence ∧ w.regs = v.regs) ∧
    (flags &&& DCMIPP_CMSR2_PxFRAMEF v.pipe_id ≠ 0 →
      w.done = (dcmipp_pixelcap_process_frame v now).done ∧
      w.buffers = (dcmipp_pixelcap_process_frame v now).buffers ∧ w.active = none) := by
  obtain ⟨format, buffers, done, sequence, s_subdev, state, active, next, regs, pipe_id, cmier,
    cmsr2, count, cnt, ratio⟩ := v
  by_cases ho : flags &&& DCMIPP_CMSR2_PxOVRF pipe_id = 0 <;>
  by_cases hfr : flags &&& DCMIPP_CMSR2_PxFRAMEF pipe_id = 0 <;>
  cases active <;>
    simp [irq_frame_part, irq_overrun_part, ho, hfr, dcmipp_pixelcap_process_frame,
      dcmipp_buffer_done]

theorem vsync_part_expiry (w : dcmipp_pixelcap_device)
    (hs : w.state = .DCMIPP_RUNNING) (hc : w.vsync_frame_refresh_cnt = 1)
    (hv : w.cmsr2 &&& DCMIPP_CMSR2_PxVSYNCF w.pipe_id ≠ 0) :
    irq_vsync_part w =
      dcmipp_pixelcap_set_next_frame_or_stop
        { w with
          count := { w.count with vsync := u32 (w.count.vsync + 1) }
          vsync_frame_refresh_cnt := w.frame_skip_ratio
          active := w.next
          next := w.active } := by
  unfold irq_vsync_part
  simp [hs, hc, hv, refresh_cnt_expires]

theorem vsync_swap_general (vcap d : dcmipp_pixelcap_device) (flags now : Nat)
    (hs : vcap.state = .DCMIPP_RUNNING) (hc : vcap.vsync_frame_refresh_cnt = 1)
    (hv : flags &&& DCMIPP_CMSR2_PxVSYNCF vcap.pipe_id ≠ 0)
    (h : irq_thread_on vcap flags now = some d) :
    d.active = vcap.next ∧
    (flags &&& DCMIPP_CMSR2_PxFRAMEF vcap.pipe_id = 0 →
      d.done = vcap.done ∧ d.buffers = vcap.buffers ∧ d.sequence = vcap.sequence) ∧
    (flags &&& DCMIPP_CMSR2_PxFRAMEF vcap.pipe_id ≠ 0 →
      d.done = (dcmipp_pixelcap_process_frame vcap now).done ∧
      d.buffers = (dcmipp_pixelcap_process_frame vcap now).buffers) := by
  unfold irq_thread_on at h
  rw [irq_thread_parts] at h
  have hw := irq_before_vsync_fields vcap flags now
  simp only [] at hw
  generalize irq_frame_part (irq_overrun_part { vcap with cmsr2 := flags }) now = w at h hw
  obtain ⟨w1, w2, w3, w4, w5, w6, w7, w8⟩ := hw
  rw [vsync_part_expiry w (by rw [w1]; exact hs) (by rw [w5]; exact hc)
    (by rw [w3, w4]; exact hv)] at h
  obtain ⟨q1, q2, q3, -, -, q6, -, -⟩ := set_next_frame_or_stop_cases _ d h
  simp only [] at q1 q2 q3 q6
  refine ⟨by rw [q3, w2], fun hf => ?_, fun hf => ?_⟩
  · obtain ⟨a1, a2, -, a4, -⟩ := w7 hf
    exact ⟨by rw [q2, a1], by rw [q1, a2], by rw [q6, a4]⟩
  · obtain ⟨a1, a2, -⟩ := w8 hf
    exact ⟨by rw [q2, a1], by rw [q1, a2]⟩

theorem vsync_swap_with_active (vcap : dcmipp_pixelcap_device) (a : dcmipp_buf)
    (flags now : Nat)
    (hs : vcap.state = .DCMIPP_RUNNING) (hc : vcap.vsync_frame_refresh_cnt = 1)
    (hv : flags &&& DCMIPP_CMSR2_PxVSYNCF vcap.pipe_id ≠ 0)
    (hf : flags &&& DCMIPP_CMSR2_PxFRAMEF vcap.pipe_id = 0)
    (ha : vcap.active = some a) :
    ∃ d, irq_thread_on vcap flags now = some d ∧
      d.active = vcap.next ∧ d.next = some a ∧
      d.buffers = vcap.buffers ∧ d.done = vcap.done ∧ d.sequence = vcap.sequence ∧
      d.state = .DCMIPP_RUNNING ∧ d.vsync_frame_refresh_cnt = vcap.frame_skip_ratio ∧
      d.regs (DCMIPP_PxPPM0AR1 vcap.pipe_id) = u32 a.paddrs0 ∧
      (a.paddrs1 ≠ 0 → d.regs DCMIPP_P1PPM1AR1 = u32 a.paddrs1) ∧
      (a.paddrs2 ≠ 0 → d.regs DCMIPP_P1PPM2AR1 = u32 a.paddrs2) := by
  obtain ⟨format, buffers, done, sequence, s_subdev, state, active, next, regs, pipe_id, cmier,
    cmsr2, count, cnt, ratio⟩ := vcap
  simp only at hs hc hv hf ha
  subst hs hc ha
  obtain ⟨m1, m2⟩ := ppm0ar1_ne pipe_id
  have m3 : DCMIPP_P1PPM1AR1 ≠ DCMIPP_P1PPM2AR1 := by decide
  unfold irq_thread_on dcmipp_pixelcap_irq_thread
  by_cases ho : flags &&& DCMIPP_CMSR2_PxOVRF pipe_id = 0 <;>
  by_cases h1 : a.paddrs1 = 0 <;> by_cases h2 : a.paddrs2 = 0 <;>
    simp [ho, hv, hf, h1, h2, refresh_cnt_expires, dcmipp_pixelcap_set_next_frame_or_stop,
      reg_write, m1, m2, m3]

theorem vsync_swap_after_frame_end (vcap : dcmipp_pixelcap_device) (n : dcmipp_buf)
    (flags now : Nat)
    (hs : vcap.state = .DCMIPP_RUNNING) (hc : vcap.vsync_frame_refresh_cnt = 1)
    (hv : flags &&& DCMIPP_CMSR2_PxVSYNCF vcap.pipe_id ≠ 0)
    (hf : flags &&& DCMIPP_CMSR2_PxFRAMEF vcap.pipe_id = 0)
    (ha : vcap.active = none) (hn : vcap.next = some n)
    (hq : list_is_singular vcap.buffers = true ∨
      ∃ m, list_next_entry vcap.buffers n = some m) :
    ∃ d, irq_thread_on vcap flags now = some d ∧
      d.active = some n ∧ d.buffers = vcap.buffers ∧ d.done = vcap.done ∧
      d.sequence = vcap.sequence ∧
      (list_is_singular vcap.buffers = true →
        d.next = none ∧ d.state = .DCMIPP_WAIT_FOR_BUFFER) ∧
      (list_is_singular vcap.buffers ≠ true →
        d.next = list_next_entry vcap.buffers n ∧ d.state = .DCMIPP_RUNNING) := by
  have hw := irq_before_vsync_fields vcap flags now
  have hth : irq_thread_on vcap flags now =
      irq_vsync_part (irq_frame_part (irq_overrun_part { vcap with cmsr2 := flags }) now) := by
    unfold irq_thread_on
    rw [irq_thread_parts]
  simp only [] at hw
  rw [hth]
  generalize irq_frame_part (irq_overrun_part { vcap with cmsr2 := flags }) now = w at hw
  obtain ⟨w1, w2, w3, w4, w5, w6, w7, -⟩ := hw
  obtain ⟨a1, a2, a3, a4, -⟩ := w7 hf
  rw [vsync_part_expiry w (by rw [w1]; exact hs) (by rw [w5]; exact hc)
    (by rw [w3, w4]; exact hv)]
  have hex : ∃ d, dcmipp_pixelcap_set_next_frame_or_stop
      { w with
        count := { w.count with vsync := u32 (w.count.vsync + 1) }
        vsync_frame_refresh_cnt := w.frame_skip_ratio
        active := w.next
        next := w.active } = some d := by
    apply set_next_frame_or_stop_total
    rcases hq with hq | ⟨m, hm⟩
    · exact Or.inr (Or.inl (by simp only [a2]; exact hq))
    · exact Or.inr (Or.inr ⟨n, m, by simp only [w2]; exact hn, by simp only [a2]; exact hm⟩)
  obtain ⟨d, hd⟩ := hex
  obtain ⟨q1, q2, q3, -, -, q6, -, q8⟩ := set_next_frame_or_stop_cases _ d hd
  simp only [] at q1 q2 q3 q6 q8
  rw [a2, a3, ha, w2, hn, w1, hs] at q8
  refine ⟨d, hd, by rw [q3, w2, hn], by rw [q1, a2], by rw [q2, a1], by rw [q6, a4], ?_, ?_⟩
  · intro hsing
    rcases q8 with ⟨-, -, k3, k4⟩ | ⟨k0, -⟩
    · exact ⟨k3, k4⟩
    · exact absurd ⟨rfl, hsing⟩ k0
  · intro hsing
    rcases q8 with ⟨-, k2, -⟩ | ⟨-, k1, m, k3, k4⟩
    · exact absurd k2 hsing
    · refine ⟨?_, k1⟩
      rcases k4 with k4 | ⟨-, x, k5, k6⟩
      · cases k4
      · simp only [Option.some.injEq] at k5
        subst k5
        rw [k3, k6]

/-- C14, amended: on every VSYNC processed by `dcmipp_pixelcap_irq_thread` in the `RUNNING`
state with the refresh counter at 1, whatever the other flags: whenever the thread
returns, `next` has become the new `active`; the VSYNC handling completes nothing and
removes nothing from the queue: without the frame-end flag the completed buffers, the
queue and the sequence counter are as before, with it they are exactly what the frame-end
handling `dcmipp_pixelcap_process_frame` leaves. Without the frame-end flag and with an
active buffer `a`, the thread returns: `a` is swapped into the next slot, stays in the
queue, is not completed and is programmed again as the next capture address (plane 0
always, planes 1 and 2 when their address is not 0), the state stays `RUNNING` and the
refresh counter is reloaded. Without the frame-end flag and with no active buffer (the
frame end has already cleared it), `next = n` and a queue that holds `n` alone or `n`
with a successor, the thread returns with `n` active and nothing completed; the state
becomes `WAIT_FOR_BUFFER` with no next buffer when the queue is singular, and otherwise
the successor of `n` becomes next. -/
theorem vsync_swap_without_frame_end (vcap : dcmipp_pixelcap_device) (flags now : Nat)
    (hs : vcap.state = .DCMIPP_RUNNING) (hc : vcap.vsync_frame_refresh_cnt = 1)
    (hv : flags &&& DCMIPP_CMSR2_PxVSYNCF vcap.pipe_id ≠ 0) :
    (∀ d, irq_thread_on vcap flags now = some d →
      d.active = vcap.next ∧
      (flags &&& DCMIPP_CMSR2_PxFRAMEF vcap.pipe_id = 0 →
        d.done = vcap.done ∧ d.buffers = vcap.buffers ∧ d.sequence = vcap.sequence) ∧
      (flags &&& DCMIPP_CMSR2_PxFRAMEF vcap.pipe_id ≠ 0 →
        d.done = (dcmipp_pixelcap_process_frame vcap now).done ∧
        d.buffers = (dcmipp_pixelcap_process_frame vcap now).buffers)) ∧
    (flags &&& DCMIPP_CMSR2_PxFRAMEF vcap.pipe_id = 0 → ∀ a, vcap.active = some a →
      ∃ d, irq_thread_on vcap flags now = some d ∧
        d.active = vcap.next ∧ d.next = some a ∧
        d.buffers = vcap.buffers ∧ d.done = vcap.done ∧ d.sequence = vcap.sequence ∧
        d.state = .DCMIPP_RUNNING ∧ d.vsync_frame_refresh_cnt = vcap.frame_skip_ratio ∧
        d.regs (DCMIPP_PxPPM0AR1 vcap.pipe_id) = u32 a.paddrs0 ∧
        (a.paddrs1 ≠ 0 → d.regs DCMIPP_P1PPM1AR1 = u32 a.paddrs1) ∧
        (a.paddrs2 ≠ 0 → d.regs DCMIPP_P1PPM2AR1 = u32 a.paddrs2)) ∧
    (flags &&& DCMIPP_CMSR2_PxFRAMEF vcap.pipe_id = 0 → vcap.active = none →
      ∀ n, vcap.next = some n →
        (list_is_singular vcap.buffers = true ∨
          ∃ m, list_next_entry vcap.buffers n = some m) →
        ∃ d, irq_thread_on vcap flags now = some d ∧
          d.active = some n ∧ d.buffers = vcap.buffers ∧ d.done = vcap.done ∧
          d.sequence = vcap.sequence ∧
          (list_is_singular vcap.buffers = true →
            d.next = none ∧ d.state = .DCMIPP_WAIT_FOR_BUFFER) ∧
          (list_is_singular vcap.buffers ≠ true →
            d.next = list_next_entry vcap.buffers n ∧ d.state = .DCMIPP_RUNNING)) :=
  ⟨fun d h => vsync_swap_general vcap d flags now hs hc hv h,
   fun hf a ha => vsync_swap_with_active vcap a flags now hs hc hv hf ha,
   fun hf ha n hn hq => vsync_swap_after_frame_end vcap n flags now hs hc hv hf ha hn hq⟩

theorem vsync_swap_without_frame_end_witness :
    (∃ d, irq_thread_on sample_capturing DCMIPP_CMSR2_P1VSYNCF 20 = some d ∧
      d.active = sample_capturing.next ∧ d.next = some (sample_buf 1) ∧
      d.buffers = sample_capturing.buffers ∧ d.done = sample_capturing.done ∧
      d.sequence = sample_capturing.sequence ∧ d.state = .DCMIPP_RUNNING ∧
      d.vsync_frame_refresh_cnt = sample_capturing.frame_skip_ratio ∧
      d.regs (DCMIPP_PxPPM0AR1 sample_capturing.pipe_id) = u32 (sample_buf 1).paddrs0) ∧
    (∃ d, irq_thread_on (sample_started 2 1) DCMIPP_CMSR2_P1VSYNCF 10 = some d ∧
      d.active = some (sample_buf 1) ∧ d.next = some (sample_buf 2) ∧
      d.done = (sample_started 2 1).done ∧ d.state = .DCMIPP_RUNNING) := by
  obtain ⟨-, h2, -⟩ :=
    vsync_swap_without_frame_end sample_capturing DCMIPP_CMSR2_P1VSYNCF 20
      (by decide) (by decide) (by decide)
  obtain ⟨d, e0, e1, e2, e3, e4, e5, e6, e7, e8, -⟩ := h2 (by decide) (sample_buf 1) (by decide)
  obtain ⟨-, -, h3⟩ :=
    vsync_swap_without_frame_end (sample_started 2 1) DCMIPP_CMSR2_P1VSYNCF 10
      (by decide) (by decide) (by decide)
  obtain ⟨c, c0, c1, -, c3, -, -, c6⟩ :=
    h3 (by decide) (by decide) (sample_buf 1) (by decide)
      (Or.inr ⟨sample_buf 2, by decide⟩)
  obtain ⟨c7, c8⟩ := c6 (by decide)
  refine ⟨⟨d, e0, e1, e2, e3, e4, e5, e6, e7, e8⟩, c, c0, c1, ?_, c3, c8⟩
  rw [c7]
  decide

end Pixelcap

namespace Drm

theorem roundup_128_least (x : Nat) (hf : ∃ m, 128 ∣ m ∧ x ≤ m ∧ m < 4294967296) :
    128 ∣ roundup x 128 ∧ x ≤ roundup x 128 ∧ ∀ m, 128 ∣ m → x ≤ m → roundup x 128 ≤ m := by
  obtain ⟨m0, ⟨k0, rfl⟩, h1, h2⟩ := hf
  have e : roundup x 128 = 128 * ((x + 127) / 128) := by
    unfold roundup u32; omega
  rw [e]
  refine ⟨Dvd.intro _ rfl, by omega, ?_⟩
  rintro m ⟨k, rfl⟩ hm
  omega

theorem roundup_4_least (x : Nat) (hf : ∃ m, 4 ∣ m ∧ x ≤ m ∧ m < 4294967296) :
    4 ∣ roundup x 4 ∧ x ≤ roundup x 4 ∧ ∀ m, 4 ∣ m → x ≤ m → roundup x 4 ≤ m := by
  obtain ⟨m0, ⟨k0, rfl⟩, h1, h2⟩ := hf
  have e : roundup x 4 = 4 * ((x + 3) / 4) := by
    unfold roundup u32; omega
  rw [e]
  refine ⟨Dvd.intro _ rfl, by omega, ?_⟩
  rintro m ⟨k, rfl⟩ hm
  omega

theorem div_round_up_8 (n : Nat) (hn : n + 7 < 4294967296) :
    DIV_ROUND_UP (u32 n) 8 = (n + 7) / 8 := by
  unfold DIV_ROUND_UP u32; omega

/-- Claim C26: stm_gem_dma_dumb_create hands the request to the DRM core with only the pitch and
the height changed. Whenever width*bpp + 7 fits in 32 bits and a multiple of 128 that is at
least ceil(width*bpp/8) fits in 32 bits, the pitch is the smallest multiple of 128 that is at
least ceil(width*bpp/8), the ceiling being the number c with width*bpp ≤ 8*c < width*bpp + 8;
whenever a multiple of 4 that is at least the requested height fits in 32 bits, the height
is the smallest multiple of 4 that is at least the requested height. -/
theorem dumb_create_aligns_pitch_and_height
    (internal : drm_mode_create_dumb → Int × drm_mode_create_dumb)
    (args : drm_mode_create_dumb) (c : Nat)
    (hc : args.width * args.bpp ≤ 8 * c ∧ 8 * c < args.width * args.bpp + 8)
    (hw : args.width * args.bpp + 7 < 4294967296)
    (hp : ∃ m, 128 ∣ m ∧ c ≤ m ∧ m < 4294967296)
    (hh : ∃ m, 4 ∣ m ∧ args.height ≤ m ∧ m < 4294967296) :
    ∃ pitch height,
      stm_gem_dma_dumb_create internal args
        = internal { args with pitch := pitch, height := height } ∧
      (128 ∣ pitch ∧ c ≤ pitch ∧ ∀ m, 128 ∣ m → c ≤ m → pitch ≤ m) ∧
      (4 ∣ height ∧ args.height ≤ height ∧ ∀ m, 4 ∣ m → args.height ≤ m → height ≤ m) := by
  have e : DIV_ROUND_UP (u32 (args.width * args.bpp)) 8 = c := by
    rw [div_round_up_8 _ hw]; omega
  refine ⟨roundup c 128, roundup args.height 4, ?_, roundup_128_least c hp,
    roundup_4_least args.height hh⟩
  simp only [stm_gem_dma_dumb_create, e]

theorem dumb_create_aligns_pitch_and_height_witness :
    stm_gem_dma_dumb_create sample_internal sample_args
        = sample_internal { sample_args with pitch := 5504, height := 768 } ∧
      (128 ∣ 5504 ∧ 5464 ≤ 5504 ∧ ∀ m, 128 ∣ m → 5464 ≤ m → 5504 ≤ m) ∧
      (4 ∣ 768 ∧ 766 ≤ 768 ∧ ∀ m, 4 ∣ m → 766 ≤ m → 768 ≤ m) := by
  obtain ⟨pitch, height, h1, h2, h3⟩ :=
    dumb_create_aligns_pitch_and_height sample_internal sample_args 5464
      (by decide) (by decide) ⟨5504, by decide, by decide, by decide⟩
      ⟨768, by decide, by decide, by decide⟩
  have e1 : pitch = 5504 := by
    have := congrArg (fun r => r.2.pitch) h1
    simpa [stm_gem_dma_dumb_create, sample_internal] using this.symm
  have e2 : height = 768 := by
    have := congrArg (fun r => r.2.height) h1
    simpa [stm_gem_dma_dumb_create, sample_internal] using this.symm
  subst e1 e2
  exact ⟨h1, h2, h3⟩

end Drm

namespace Mdf

theorem table_sorted :
    stm32_mdf_log_table.Pairwise (fun a b => a.raw < b.raw) := by decide

theorem table_bounds :
    ∀ e ∈ stm32_mdf_log_table, 2 ≤ e.raw ∧ e.raw ≤ 127 ∧ e.log ≤ 2104 := by decide

set_option maxRecDepth 100000 in
theorem table_complete :
    ∀ p < 128, 2 ≤ p → (∀ e ∈ stm32_mdf_log_table, e.raw ≠ p) →
      ∃ q < p, 2 ≤ q ∧ p % q = 0 := by decide

theorem table_has_prime (p : Nat) (hp : p.Prime) (h : p ≤ 127) :
    ∃ e ∈ stm32_mdf_log_table, e.raw = p := by
  by_contra hc
  simp only [not_exists, not_and] at hc
  obtain ⟨q, hq, hq2, hq3⟩ := table_complete p (by omega) hp.two_le hc
  have hd : q ∣ p := Nat.dvd_of_mod_eq_zero hq3
  rcases (Nat.dvd_prime hp).mp hd with h1 | h1 <;> omega

theorem find_first (P : stm32_mdf_log10 → Bool) :
    ∀ l : List stm32_mdf_log10, l.Pairwise (fun a b => a.raw < b.raw) →
      ∀ e ∈ l, P e = true → ∃ f, l.find? P = some f ∧ f.raw ≤ e.raw := by
  intro l
  induction l with
  | nil => intro _ e he; cases he
  | cons x xs ih =>
    intro hs e he hP
    rw [List.pairwise_cons] at hs
    by_cases hx : P x = true
    · refine ⟨x, by simp [List.find?, hx], ?_⟩
      rcases List.mem_cons.mp he with rfl | he
      · exact Nat.le_refl _
      · exact Nat.le_of_lt (hs.1 e he)
    · have he2 : e ∈ xs := by
        rcases List.mem_cons.mp he with rfl | he
        · exact absurd hP hx
        · exact he
      obtain ⟨f, hf, hle⟩ := ih hs.2 e he2 hP
      exact ⟨f, by simp [List.find?, hx, hf], hle⟩

theorem log_entry_of_mem (e : stm32_mdf_log10) (he : e ∈ stm32_mdf_log_table) :
    spec_log_entry e.raw = e.log := by
  revert e
  decide

theorem first_divisor_spec (num : Nat) (h : 2 ≤ num) :
    (num.minFac ≤ 127 →
      ∃ e, first_divisor num = some e ∧ e.raw = num.minFac ∧ e.log = spec_log_entry num.minFac) ∧
    (127 < num.minFac → first_divisor num = none) := by
  have hp : num.minFac.Prime := Nat.minFac_prime (by omega)
  constructor
  · intro hle
    obtain ⟨e, he, hr⟩ := table_has_prime _ hp hle
    have hP : (fun e : stm32_mdf_log10 => decide (num % e.raw = 0)) e = true := by
      simp only [decide_eq_true_eq]
      rw [hr]
      exact Nat.mod_eq_zero_of_dvd (Nat.minFac_dvd num)
    obtain ⟨f, hf, hfle⟩ :=
      find_first (fun e => decide (num % e.raw = 0)) _ table_sorted e he hP
    have hf2 : first_divisor num = some f := hf
    have hfm : f ∈ stm32_mdf_log_table := List.mem_of_find?_eq_some hf
    have hfd : num % f.raw = 0 := by simpa using List.find?_some hf
    have h1 : num.minFac ≤ f.raw :=
      Nat.minFac_le_of_dvd (table_bounds f hfm).1 (Nat.dvd_of_mod_eq_zero hfd)
    have h2 : f.raw = num.minFac := by omega
    exact ⟨f, hf2, h2, by rw [← h2, log_entry_of_mem f hfm]⟩
  · intro hgt
    unfold first_divisor
    rw [List.find?_eq_none]
    intro e he hd
    have hd2 : num % e.raw = 0 := by simpa using hd
    have h1 : num.minFac ≤ e.raw :=
      Nat.minFac_le_of_dvd (table_bounds e he).1 (Nat.dvd_of_mod_eq_zero hd2)
    have := (table_bounds e he).2.1
    omega

theorem factors_step (num : Nat) (h : 2 ≤ num) :
    Nat.primeFactorsList num = num.minFac :: Nat.primeFactorsList (num / num.minFac) := by
  obtain ⟨k, rfl⟩ : ∃ k, num = k + 2 := ⟨num - 2, by omega⟩
  exact Nat.primeFactorsList_add_two k

theorem factors_length (n : Nat) : ∀ num, num ≤ n → 1 ≤ num →
    2 ^ (Nat.primeFactorsList num).length ≤ num := by
  induction n with
  | zero => intro num h1 h2; omega
  | succ n ih =>
    intro num h1 h2
    by_cases h : num = 1
    · subst h; simp
    · have h2' : 2 ≤ num := by omega
      have hp : num.minFac.Prime := Nat.minFac_prime h
      have hd := Nat.div_mul_cancel (Nat.minFac_dvd num)
      have hq1 : 1 ≤ num / num.minFac :=
        Nat.div_pos (Nat.minFac_le (by omega)) hp.pos
      have hq2 : num / num.minFac ≤ n := by
        have : num / num.minFac < num := Nat.div_lt_self (by omega) hp.one_lt
        omega
      have := ih _ hq2 hq1
      rw [factors_step num h2', List.length_cons, Nat.pow_succ]
      calc 2 ^ (Nat.primeFactorsList (num / num.minFac)).length * 2
          ≤ (num / num.minFac) * num.minFac := Nat.mul_le_mul this hp.two_le
        _ = num := hd

theorem log_entry_le (p : Nat) : spec_log_entry p ≤ 2104 := by
  unfold spec_log_entry
  cases h : stm32_mdf_log_table.find? (fun e => e.raw = p) with
  | none => simp
  | some e => simpa using (table_bounds e (List.mem_of_find?_eq_some h)).2.2

theorem log_sum_le (D : Nat) : spec_log_sum D ≤ 2104 * (Nat.primeFactorsList D).length := by
  unfold spec_log_sum
  induction Nat.primeFactorsList D with
  | nil => simp
  | cons p l ih =>
    simp only [List.map_cons, List.sum_cons, List.length_cons]
    have := log_entry_le p
    omega

theorem factor_loop_spec (fuel : Nat) : ∀ (num : Nat) (pf : List Nat), 1 ≤ num →
    num ≤ 2 ^ fuel → pf.length + (Nat.primeFactorsList num).length ≤ 16 →
    ((∀ p ∈ Nat.primeFactorsList num, p ≤ 127) →
      factor_loop (fuel + 1) num pf =
        some (some (pf ++ (Nat.primeFactorsList num).map spec_log_entry))) ∧
    ((∃ p ∈ Nat.primeFactorsList num, 127 < p) → factor_loop (fuel + 1) num pf = some none) := by
  induction fuel with
  | zero =>
    intro num pf h1 h2 _
    have : num = 1 := by simpa using Nat.le_antisymm h2 h1
    subst this
    simp [factor_loop]
  | succ fuel ih =>
    intro num pf h1 h2 h3
    by_cases h : num = 1
    · subst h
      simp [factor_loop]
    · have h2' : 2 ≤ num := by omega
      have hp : num.minFac.Prime := Nat.minFac_prime h
      have hq1 : 1 ≤ num / num.minFac :=
        Nat.div_pos (Nat.minFac_le (by omega)) hp.pos
      have hq2 : num / num.minFac ≤ 2 ^ fuel := by
        have h4 : num / num.minFac ≤ num / 2 := Nat.div_le_div_left hp.two_le (by norm_num)
        have h5 : num / 2 ≤ 2 ^ fuel := by
          rw [Nat.pow_succ] at h2
          omega
        omega
      rw [factors_step num h2'] at h3 ⊢
      simp only [List.length_cons] at h3
      obtain ⟨s1, s2⟩ := first_divisor_spec num h2'
      have hgt : num > 1 := by omega
      constructor
      · intro hall
        have hm : num.minFac ≤ 127 := hall _ (List.mem_cons_self _ _)
        obtain ⟨e, he, hr, hl⟩ := s1 hm
        have hlen : pf.length < 16 := by omega
        rw [factor_loop, if_pos hgt, he]
        simp only [if_pos hlen]
        rw [hr, hl]
        have := (ih (num / num.minFac) (pf ++ [spec_log_entry num.minFac]) hq1 hq2
          (by simp only [List.length_append, List.length_singleton]; omega)).1
          (fun p hp2 => hall p (List.mem_cons_of_mem _ hp2))
        rw [this]
        simp
      · rintro ⟨p, hp1, hp2⟩
        by_cases hm : num.minFac ≤ 127
        · obtain ⟨e, he, hr, hl⟩ := s1 hm
          have hlen : pf.length < 16 := by omega
          rw [factor_loop, if_pos hgt, he]
          simp only [if_pos hlen]
          rw [hr, hl]
          apply (ih (num / num.minFac) (pf ++ [spec_log_entry num.minFac]) hq1 hq2
            (by simp only [List.length_append, List.length_singleton]; omega)).2
          rcases List.mem_cons.mp hp1 with rfl | hp1
          · omega
          · exact ⟨p, hp1, hp2⟩
        · rw [factor_loop, if_pos hgt, s2 (by omega)]

theorem logd_fold (l : List Nat) : ∀ a, l.foldl (fun logd x => u32 (logd + x)) (u32 a) =
    u32 (a + l.sum) := by
  induction l with
  | nil => intro a; simp
  | cons x xs ih =>
    intro a
    simp only [List.foldl_cons, List.sum_cons]
    have : u32 (u32 a + x) = u32 (a + x) := by unfold u32; omega
    rw [this, ih, Nat.add_assoc]

theorem scale_word (DS N S : Nat) (hN : N ≤ 5) :
    (toS32 (u32 (20 *
      u32 (u32 (u32 (DS + 4294967295) * 301) + (4294967296 - u32 (N * u32 S))))) -
      20 * (((DS : Int) - 1) * 301 - (N : Int) * (S : Int))) % 4294967296 = 0 ∧
    -2147483648 ≤ toS32 (u32 (20 *
      u32 (u32 (u32 (DS + 4294967295) * 301) + (4294967296 - u32 (N * u32 S))))) ∧
    toS32 (u32 (20 *
      u32 (u32 (u32 (DS + 4294967295) * 301) + (4294967296 - u32 (N * u32 S))))) <
      2147483648 := by
  unfold toS32 u32
  interval_cases N <;> split_ifs <;> refine ⟨?_, ?_, ?_⟩ <;> omega

theorem compute_scale_of_factors (fuel D N DS : Nat) (hN : N ≤ 5)
    (h : factor_loop fuel D [] = some (some ((Nat.primeFactorsList D).map spec_log_entry))) :
    ∃ r, stm32_mdf_adc_compute_scale fuel D N DS = some r ∧
      (r - spec_scale D N DS) % 4294967296 = 0 ∧ -2147483648 ≤ r ∧ r < 2147483648 := by
  have hl := logd_fold ((Nat.primeFactorsList D).map spec_log_entry) 0
  have h0 : u32 0 = 0 := rfl
  rw [h0, Nat.zero_add] at hl
  have h2 : (stm32_mdf_log_table.headD ⟨0, 0⟩).log = 301 := rfl
  unfold stm32_mdf_adc_compute_scale
  rw [h]
  simp only [hl, h2]
  exact ⟨_, rfl, scale_word DS N (spec_log_sum D) hN⟩

/-- C27, counterexample: for D = 2, N = 0 and DS = 356726 the value
20 * ((DS - 1) * 301 - N * L) is 2147484500, which no `int` holds; the function returns
-2147482796. -/
theorem compute_scale_wraps :
    (∀ p, p.Prime → p ∣ 2 → p ≤ 127) ∧
    stm32_mdf_adc_compute_scale 10 2 0 356726 = some (-2147482796) ∧
    spec_scale 2 0 356726 = 2147484500 := by
  refine ⟨fun p _ hd => le_trans (Nat.le_of_dvd (by norm_num) hd) (by norm_num), by decide, ?_⟩
  simp [spec_scale]

/-- C27, amended: for every D in [2, 512], N in [0, 5] and DS,
`stm32_mdf_adc_compute_scale` terminates (ten tests of the outer loop condition are
enough) and never stores past the 16 slots of `prime_factors`. If every prime factor of D
is at most 127, the loop ends with at most 16 stored logarithms whose sum is L, and the
result is the value 20 * ((DS - 1) * 301 - N * L) reduced to a signed 32-bit integer:
it is that value itself whenever the value fits in an `int`, in particular for every
DS up to 356725. If D has a prime factor above 127 the result is 0. -/
theorem compute_scale_value (fuel D N DS : Nat) (hD : 2 ≤ D) (hD2 : D ≤ 512) (hN : N ≤ 5)
    (hf : 10 ≤ fuel) :
    ((∀ p, p.Prime → p ∣ D → p ≤ 127) →
      (∃ pf, factor_loop fuel D [] = some (some pf) ∧ pf.length ≤ 16 ∧ pf.sum = spec_log_sum D) ∧
      ∃ r, stm32_mdf_adc_compute_scale fuel D N DS = some r ∧
        (r - spec_scale D N DS) % 4294967296 = 0 ∧ -2147483648 ≤ r ∧ r < 2147483648 ∧
        (-2147483648 ≤ spec_scale D N DS → spec_scale D N DS < 2147483648 →
          r = spec_scale D N DS) ∧
        (DS ≤ 356725 → r = spec_scale D N DS)) ∧
    ((∃ p, p.Prime ∧ p ∣ D ∧ 127 < p) →
      factor_loop fuel D [] = some none ∧
      stm32_mdf_adc_compute_scale fuel D N DS = some 0) := by
  obtain ⟨f, rfl⟩ : ∃ f, fuel = f + 1 := ⟨fuel - 1, by omega⟩
  have hpow : D ≤ 2 ^ f := by
    have : (2 : Nat) ^ 9 ≤ 2 ^ f := Nat.pow_le_pow_right (by norm_num) (by omega)
    omega
  have hlen : (Nat.primeFactorsList D).length ≤ 9 := by
    have h1 := factors_length D D (Nat.le_refl _) (by omega)
    by_contra hc
    have : (2 : Nat) ^ 10 ≤ 2 ^ (Nat.primeFactorsList D).length :=
      Nat.pow_le_pow_right (by norm_num) (by omega)
    omega
  obtain ⟨s1, s2⟩ := factor_loop_spec f D [] (by omega) hpow
    (by simp only [List.length_nil]; omega)
  have hD0 : D ≠ 0 := by omega
  constructor
  · intro hall
    have hall2 : ∀ p ∈ Nat.primeFactorsList D, p ≤ 127 := by
      intro p hp
      exact hall p (Nat.prime_of_mem_primeFactorsList hp) (Nat.dvd_of_mem_primeFactorsList hp)
    have h1 := s1 hall2
    rw [List.nil_append] at h1
    refine ⟨⟨_, h1, by rw [List.length_map]; omega, rfl⟩, ?_⟩
    obtain ⟨r, hr, r1, r2, r3⟩ := compute_scale_of_factors (f + 1) D N DS hN h1
    refine ⟨r, hr, r1, r2, r3, fun v1 v2 => by omega, fun hds => ?_⟩
    have hL := log_sum_le D
    have hNL : N * spec_log_sum D ≤ 5 * (2104 * 9) :=
      Nat.mul_le_mul hN (le_trans hL (Nat.mul_le_mul_left _ hlen))
    have hNL2 : ((N : Int) * (spec_log_sum D : Int)) ≤ 94680 := by exact_mod_cast hNL
    have hNL3 : 0 ≤ ((N : Int) * (spec_log_sum D : Int)) := by positivity
    have hv : spec_scale D N DS =
        20 * (((DS : Int) - 1) * 301 - (N : Int) * (spec_log_sum D : Int)) := rfl
    have hds2 : (DS : Int) ≤ 356725 := by exact_mod_cast hds
    omega
  · rintro ⟨p, hp1, hp2, hp3⟩
    have h1 := s2 ⟨p, (Nat.mem_primeFactorsList hD0).mpr ⟨hp1, hp2⟩, hp3⟩
    refine ⟨h1, ?_⟩
    unfold stm32_mdf_adc_compute_scale
    rw [h1]

theorem compute_scale_value_witness :
    ∃ r, stm32_mdf_adc_compute_scale 10 12 3 24 = some r ∧ r = spec_scale 12 3 24 ∧
      r = 73720 := by
  obtain ⟨h1, -⟩ := compute_scale_value 10 12 3 24 (by decide) (by decide) (by decide)
    (by decide)
  obtain ⟨-, r, hr, -, -, -, -, h2⟩ :=
    h1 (fun p _ hd => le_trans (Nat.le_of_dvd (by norm_num) hd) (by norm_num))
  refine ⟨r, hr, h2 (by decide), ?_⟩
  have e : stm32_mdf_adc_compute_scale 10 12 3 24 = some 73720 := by decide
  rw [e] at hr
  exact (Option.some.inj hr).symm

end Mdf
